import Mathlib

/-!
# Verification of the swift-numerics math-shim layer

This file gives a shallow embedding of the C sources of the repository:

* `Sources/_NumericsShims/include/_NumericsShims.h` — the `libm_*` forwarding
  functions and the `_numerics_muladd` / `_numerics_muladdf` inlines;
* `Sources/NumericsShims/include/NumericsShims.h` — the `swift_*` forwarding
  functions;
* `Sources/_CComplex/include/shim.h` — the complex wrappers `_cexp`, … over
  the boundary structs `_CCD` / `_CCF`.

Every function body in the sources is a single delegation to a platform
builtin or libm entry point.  The embedding therefore has two levels:

* **Value level.** The platform's math routines are the fields of an abstract
  structure `MathPlatform R` (one instance per floating-point precision of a
  build target); the native complex routines are the fields of
  `ComplexPlatform R`.  Each shim function is translated body for body: it
  applies the corresponding platform field to its arguments.  The `lgamma_r`
  out-pointer is modelled by returning a pair (value, sign).  Properties of
  the platform routines themselves (which are not part of this repository's
  sources) enter theorems only as explicit hypotheses on the platform
  structure, modelled from the spec.

* **Availability level.** The preprocessor conditionals (`#if !defined _WIN32`,
  `#if __APPLE__`, `#if !defined _WIN32 && (defined __i386__ || defined
  __x86_64__)`) are modelled by a `Target` record of the tested macros and by
  the functions `libmShimSymbols` / `swiftShimSymbols` computing the list of
  function names each header defines for a given target, mirroring the
  conditional structure of the headers block by block.
-/

/-- The build-target macros tested by the headers' preprocessor conditionals:
`_WIN32`, `__i386__`, `__x86_64__`, `__APPLE__`. -/
structure Target where
  win32 : Bool
  i386 : Bool
  x8664 : Bool
  apple : Bool
deriving DecidableEq

/-- The condition guarding the float80 (`long double`) section of both math-shim
headers: `#if !defined _WIN32 && (defined __i386__ || defined __x86_64__)`,
i.e. the target's `long double` is the x87 80-bit extended format. -/
def Target.float80Available (t : Target) : Bool :=
  !t.win32 && (t.i386 || t.x8664)

/-- The platform math routines for one floating-point precision, as an
abstract interface: one field per distinct builtin or libm entry point the
headers call.  `lgamma_r` models the C routine with its `int *signp`
out-parameter as returning the pair (value, sign).  `hypot_win` is the
Windows `_hypotf` routine used by the `#if defined(_WIN32)` branch of the
float `hypot` shims; `exp10` is the Apple-only `__exp10`/`__exp10f` entry
point. -/
structure MathPlatform (R : Type) where
  cos : R → R
  sin : R → R
  tan : R → R
  acos : R → R
  asin : R → R
  atan : R → R
  cosh : R → R
  sinh : R → R
  tanh : R → R
  acosh : R → R
  asinh : R → R
  atanh : R → R
  exp : R → R
  expm1 : R → R
  log : R → R
  log1p : R → R
  cbrt : R → R
  erf : R → R
  erfc : R → R
  exp2 : R → R
  exp10 : R → R
  tgamma : R → R
  log2 : R → R
  log10 : R → R
  pow : R → R → R
  atan2 : R → R → R
  hypot : R → R → R
  hypot_win : R → R → R
  lgamma_r : R → R × Int

/-- The boundary struct `_CCD` / `_CCF` of the complex shim: a plain two-field
aggregate (real part, imaginary part) of one precision. -/
structure CxPair (R : Type) where
  real : R
  imag : R
deriving DecidableEq

/-- The platform's native complex type (`double complex` / `float complex`);
an anonymous constructor application models `CMPLX`/`CMPLXF`, and the
projections `re`/`im` model `creal`/`cimag`. -/
structure CComplex (R : Type) where
  re : R
  im : R
deriving DecidableEq

/-- The platform's native complex math routines for one precision, as an
abstract interface: one field per libm entry point the complex shim calls. -/
structure ComplexPlatform (R : Type) where
  cexp : CComplex R → CComplex R
  clog : CComplex R → CComplex R
  cpow : CComplex R → CComplex R → CComplex R
  csqrt : CComplex R → CComplex R
  csin : CComplex R → CComplex R
  ccos : CComplex R → CComplex R
  ctan : CComplex R → CComplex R
  casin : CComplex R → CComplex R
  cacos : CComplex R → CComplex R
  catan : CComplex R → CComplex R
  csinh : CComplex R → CComplex R
  ccosh : CComplex R → CComplex R
  ctanh : CComplex R → CComplex R
  casinh : CComplex R → CComplex R
  cacosh : CComplex R → CComplex R
  catanh : CComplex R → CComplex R

-- MARK: value-level embedding of the libm_* shims (_NumericsShims.h)

/-- Shim `libm_cosf`: returns `__builtin_cosf(x)`. -/
def libm_cosf {R : Type} (env : MathPlatform R) (x : R) : R := env.cos x

/-- Shim `libm_sinf`: returns `__builtin_sinf(x)`. -/
def libm_sinf {R : Type} (env : MathPlatform R) (x : R) : R := env.sin x

/-- Shim `libm_tanf`: returns `__builtin_tanf(x)`. -/
def libm_tanf {R : Type} (env : MathPlatform R) (x : R) : R := env.tan x

/-- Shim `libm_acosf`: returns `__builtin_acosf(x)`. -/
def libm_acosf {R : Type} (env : MathPlatform R) (x : R) : R := env.acos x

/-- Shim `libm_asinf`: returns `__builtin_asinf(x)`. -/
def libm_asinf {R : Type} (env : MathPlatform R) (x : R) : R := env.asin x

/-- Shim `libm_atanf`: returns `__builtin_atanf(x)`. -/
def libm_atanf {R : Type} (env : MathPlatform R) (x : R) : R := env.atan x

/-- Shim `libm_coshf`: returns `__builtin_coshf(x)`. -/
def libm_coshf {R : Type} (env : MathPlatform R) (x : R) : R := env.cosh x

/-- Shim `libm_sinhf`: returns `__builtin_sinhf(x)`. -/
def libm_sinhf {R : Type} (env : MathPlatform R) (x : R) : R := env.sinh x

/-- Shim `libm_tanhf`: returns `__builtin_tanhf(x)`. -/
def libm_tanhf {R : Type} (env : MathPlatform R) (x : R) : R := env.tanh x

/-- Shim `libm_acoshf`: returns `__builtin_acoshf(x)`. -/
def libm_acoshf {R : Type} (env : MathPlatform R) (x : R) : R := env.acosh x

/-- Shim `libm_asinhf`: returns `__builtin_asinhf(x)`. -/
def libm_asinhf {R : Type} (env : MathPlatform R) (x : R) : R := env.asinh x

/-- Shim `libm_atanhf`: returns `__builtin_atanhf(x)`. -/
def libm_atanhf {R : Type} (env : MathPlatform R) (x : R) : R := env.atanh x

/-- Shim `libm_expf`: returns `__builtin_expf(x)`. -/
def libm_expf {R : Type} (env : MathPlatform R) (x : R) : R := env.exp x

/-- Shim `libm_expm1f`: returns `__builtin_expm1f(x)`. -/
def libm_expm1f {R : Type} (env : MathPlatform R) (x : R) : R := env.expm1 x

/-- Shim `libm_logf`: returns `__builtin_logf(x)`. -/
def libm_logf {R : Type} (env : MathPlatform R) (x : R) : R := env.log x

/-- Shim `libm_log1pf`: returns `__builtin_log1pf(x)`. -/
def libm_log1pf {R : Type} (env : MathPlatform R) (x : R) : R := env.log1p x

/-- Shim `libm_powf`: returns `__builtin_powf(x, y)`. -/
def libm_powf {R : Type} (env : MathPlatform R) (x y : R) : R := env.pow x y

/-- Shim `libm_cbrtf`: returns `__builtin_cbrtf(x)`. -/
def libm_cbrtf {R : Type} (env : MathPlatform R) (x : R) : R := env.cbrt x

/-- Shim `libm_atan2f`: returns `__builtin_atan2f(y, x)`. -/
def libm_atan2f {R : Type} (env : MathPlatform R) (y x : R) : R := env.atan2 y x

/-- Shim `libm_erff`: returns `__builtin_erff(x)`. -/
def libm_erff {R : Type} (env : MathPlatform R) (x : R) : R := env.erf x

/-- Shim `libm_erfcf`: returns `__builtin_erfcf(x)`. -/
def libm_erfcf {R : Type} (env : MathPlatform R) (x : R) : R := env.erfc x

/-- Shim `libm_exp2f`: returns `__builtin_exp2f(x)`. -/
def libm_exp2f {R : Type} (env : MathPlatform R) (x : R) : R := env.exp2 x

/-- Shim `libm_exp10f`: returns `__exp10f(x)`, the Apple-only libm extern. -/
def libm_exp10f {R : Type} (env : MathPlatform R) (x : R) : R := env.exp10 x

/-- Shim `libm_hypotf`: on `_WIN32` returns the extern `_hypotf(x, y)`, otherwise
returns `__builtin_hypotf(x, y)`. -/
def libm_hypotf {R : Type} (t : Target) (env : MathPlatform R) (x y : R) : R :=
  if t.win32 then env.hypot_win x y else env.hypot x y

/-- Shim `libm_tgammaf`: returns `__builtin_tgammaf(x)`. -/
def libm_tgammaf {R : Type} (env : MathPlatform R) (x : R) : R := env.tgamma x

/-- Shim `libm_log2f`: returns `__builtin_log2f(x)`. -/
def libm_log2f {R : Type} (env : MathPlatform R) (x : R) : R := env.log2 x

/-- Shim `libm_log10f`: returns `__builtin_log10f(x)`. -/
def libm_log10f {R : Type} (env : MathPlatform R) (x : R) : R := env.log10 x

/-- Shim `libm_lgammaf(x, signp)`: returns `lgammaf_r(x, signp)`; the
out-pointer is modelled by returning the (value, sign) pair. -/
def libm_lgammaf {R : Type} (env : MathPlatform R) (x : R) : R × Int :=
  env.lgamma_r x

/-- Shim `libm_cos`: returns `__builtin_cos(x)`. -/
def libm_cos {R : Type} (env : MathPlatform R) (x : R) : R := env.cos x

/-- Shim `libm_sin`: returns `__builtin_sin(x)`. -/
def libm_sin {R : Type} (env : MathPlatform R) (x : R) : R := env.sin x

/-- Shim `libm_tan`: returns `__builtin_tan(x)`. -/
def libm_tan {R : Type} (env : MathPlatform R) (x : R) : R := env.tan x

/-- Shim `libm_acos`: returns `__builtin_acos(x)`. -/
def libm_acos {R : Type} (env : MathPlatform R) (x : R) : R := env.acos x

/-- Shim `libm_asin`: returns `__builtin_asin(x)`. -/
def libm_asin {R : Type} (env : MathPlatform R) (x : R) : R := env.asin x

/-- Shim `libm_atan`: returns `__builtin_atan(x)`. -/
def libm_atan {R : Type} (env : MathPlatform R) (x : R) : R := env.atan x

/-- Shim `libm_cosh`: returns `__builtin_cosh(x)`. -/
def libm_cosh {R : Type} (env : MathPlatform R) (x : R) : R := env.cosh x

/-- Shim `libm_sinh`: returns `__builtin_sinh(x)`. -/
def libm_sinh {R : Type} (env : MathPlatform R) (x : R) : R := env.sinh x

/-- Shim `libm_tanh`: returns `__builtin_tanh(x)`. -/
def libm_tanh {R : Type} (env : MathPlatform R) (x : R) : R := env.tanh x

/-- Shim `libm_acosh`: returns `__builtin_acosh(x)`. -/
def libm_acosh {R : Type} (env : MathPlatform R) (x : R) : R := env.acosh x

/-- Shim `libm_asinh`: returns `__builtin_asinh(x)`. -/
def libm_asinh {R : Type} (env : MathPlatform R) (x : R) : R := env.asinh x

/-- Shim `libm_atanh`: returns `__builtin_atanh(x)`. -/
def libm_atanh {R : Type} (env : MathPlatform R) (x : R) : R := env.atanh x

/-- Shim `libm_exp`: returns `__builtin_exp(x)`. -/
def libm_exp {R : Type} (env : MathPlatform R) (x : R) : R := env.exp x

/-- Shim `libm_expm1`: returns `__builtin_expm1(x)`. -/
def libm_expm1 {R : Type} (env : MathPlatform R) (x : R) : R := env.expm1 x

/-- Shim `libm_log`: returns `__builtin_log(x)`. -/
def libm_log {R : Type} (env : MathPlatform R) (x : R) : R := env.log x

/-- Shim `libm_log1p`: returns `__builtin_log1p(x)`. -/
def libm_log1p {R : Type} (env : MathPlatform R) (x : R) : R := env.log1p x

/-- Shim `libm_pow`: returns `__builtin_pow(x, y)`. -/
def libm_pow {R : Type} (env : MathPlatform R) (x y : R) : R := env.pow x y

/-- Shim `libm_cbrt`: returns `__builtin_cbrt(x)`. -/
def libm_cbrt {R : Type} (env : MathPlatform R) (x : R) : R := env.cbrt x

/-- Shim `libm_atan2`: returns `__builtin_atan2(y, x)`. -/
def libm_atan2 {R : Type} (env : MathPlatform R) (y x : R) : R := env.atan2 y x

/-- Shim `libm_erf`: returns `__builtin_erf(x)`. -/
def libm_erf {R : Type} (env : MathPlatform R) (x : R) : R := env.erf x

/-- Shim `libm_erfc`: returns `__builtin_erfc(x)`. -/
def libm_erfc {R : Type} (env : MathPlatform R) (x : R) : R := env.erfc x

/-- Shim `libm_exp2`: returns `__builtin_exp2(x)`. -/
def libm_exp2 {R : Type} (env : MathPlatform R) (x : R) : R := env.exp2 x

/-- Shim `libm_exp10`: returns `__exp10(x)`, the Apple-only libm extern. -/
def libm_exp10 {R : Type} (env : MathPlatform R) (x : R) : R := env.exp10 x

/-- Shim `libm_hypot`: returns `__builtin_hypot(x, y)`. -/
def libm_hypot {R : Type} (env : MathPlatform R) (x y : R) : R := env.hypot x y

/-- Shim `libm_tgamma`: returns `__builtin_tgamma(x)`. -/
def libm_tgamma {R : Type} (env : MathPlatform R) (x : R) : R := env.tgamma x

/-- Shim `libm_log2`: returns `__builtin_log2(x)`. -/
def libm_log2 {R : Type} (env : MathPlatform R) (x : R) : R := env.log2 x

/-- Shim `libm_log10`: returns `__builtin_log10(x)`. -/
def libm_log10 {R : Type} (env : MathPlatform R) (x : R) : R := env.log10 x

/-- Shim `libm_lgamma(x, signp)`: returns `lgamma_r(x, signp)`; the
out-pointer is modelled by returning the (value, sign) pair. -/
def libm_lgamma {R : Type} (env : MathPlatform R) (x : R) : R × Int :=
  env.lgamma_r x

/-- Shim `libm_cosl`: returns `__builtin_cosl(x)`. -/
def libm_cosl {R : Type} (env : MathPlatform R) (x : R) : R := env.cos x

/-- Shim `libm_sinl`: returns `__builtin_sinl(x)`. -/
def libm_sinl {R : Type} (env : MathPlatform R) (x : R) : R := env.sin x

/-- Shim `libm_tanl`: returns `__builtin_tanl(x)`. -/
def libm_tanl {R : Type} (env : MathPlatform R) (x : R) : R := env.tan x

/-- Shim `libm_acosl`: returns `__builtin_acosl(x)`. -/
def libm_acosl {R : Type} (env : MathPlatform R) (x : R) : R := env.acos x

/-- Shim `libm_asinl`: returns `__builtin_asinl(x)`. -/
def libm_asinl {R : Type} (env : MathPlatform R) (x : R) : R := env.asin x

/-- Shim `libm_atanl`: returns `__builtin_atanl(x)`. -/
def libm_atanl {R : Type} (env : MathPlatform R) (x : R) : R := env.atan x

/-- Shim `libm_coshl`: returns `__builtin_coshl(x)`. -/
def libm_coshl {R : Type} (env : MathPlatform R) (x : R) : R := env.cosh x

/-- Shim `libm_sinhl`: returns `__builtin_sinhl(x)`. -/
def libm_sinhl {R : Type} (env : MathPlatform R) (x : R) : R := env.sinh x

/-- Shim `libm_tanhl`: returns `__builtin_tanhl(x)`. -/
def libm_tanhl {R : Type} (env : MathPlatform R) (x : R) : R := env.tanh x

/-- Shim `libm_acoshl`: returns `__builtin_acoshl(x)`. -/
def libm_acoshl {R : Type} (env : MathPlatform R) (x : R) : R := env.acosh x

/-- Shim `libm_asinhl`: returns `__builtin_asinhl(x)`. -/
def libm_asinhl {R : Type} (env : MathPlatform R) (x : R) : R := env.asinh x

/-- Shim `libm_atanhl`: returns `__builtin_atanhl(x)`. -/
def libm_atanhl {R : Type} (env : MathPlatform R) (x : R) : R := env.atanh x

/-- Shim `libm_expl`: returns `__builtin_expl(x)`. -/
def libm_expl {R : Type} (env : MathPlatform R) (x : R) : R := env.exp x

/-- Shim `libm_expm1l`: returns `__builtin_expm1l(x)`. -/
def libm_expm1l {R : Type} (env : MathPlatform R) (x : R) : R := env.expm1 x

/-- Shim `libm_logl`: returns `__builtin_logl(x)`. -/
def libm_logl {R : Type} (env : MathPlatform R) (x : R) : R := env.log x

/-- Shim `libm_log1pl`: returns `__builtin_log1pl(x)`. -/
def libm_log1pl {R : Type} (env : MathPlatform R) (x : R) : R := env.log1p x

/-- Shim `libm_powl`: returns `__builtin_powl(x, y)`. -/
def libm_powl {R : Type} (env : MathPlatform R) (x y : R) : R := env.pow x y

/-- Shim `libm_cbrtl`: returns `__builtin_cbrtl(x)`. -/
def libm_cbrtl {R : Type} (env : MathPlatform R) (x : R) : R := env.cbrt x

/-- Shim `libm_atan2l`: returns `__builtin_atan2l(y, x)`. -/
def libm_atan2l {R : Type} (env : MathPlatform R) (y x : R) : R := env.atan2 y x

/-- Shim `libm_erfl`: returns `__builtin_erfl(x)`. -/
def libm_erfl {R : Type} (env : MathPlatform R) (x : R) : R := env.erf x

/-- Shim `libm_erfcl`: returns `__builtin_erfcl(x)`. -/
def libm_erfcl {R : Type} (env : MathPlatform R) (x : R) : R := env.erfc x

/-- Shim `libm_exp2l`: returns `__builtin_exp2l(x)`. -/
def libm_exp2l {R : Type} (env : MathPlatform R) (x : R) : R := env.exp2 x

/-- Shim `libm_hypotl`: returns `__builtin_hypotl(x, y)`. -/
def libm_hypotl {R : Type} (env : MathPlatform R) (x y : R) : R := env.hypot x y

/-- Shim `libm_tgammal`: returns `__builtin_tgammal(x)`. -/
def libm_tgammal {R : Type} (env : MathPlatform R) (x : R) : R := env.tgamma x

/-- Shim `libm_log2l`: returns `__builtin_log2l(x)`. -/
def libm_log2l {R : Type} (env : MathPlatform R) (x : R) : R := env.log2 x

/-- Shim `libm_log10l`: returns `__builtin_log10l(x)`. -/
def libm_log10l {R : Type} (env : MathPlatform R) (x : R) : R := env.log10 x

/-- Shim `libm_lgammal(x, signp)`: returns `lgammal_r(x, signp)`; the
out-pointer is modelled by returning the (value, sign) pair. -/
def libm_lgammal {R : Type} (env : MathPlatform R) (x : R) : R × Int :=
  env.lgamma_r x

-- MARK: value-level embedding of the swift_* shims (NumericsShims.h)

/-- Shim `swift_cosf`: returns `__builtin_cosf(x)`. -/
def swift_cosf {R : Type} (env : MathPlatform R) (x : R) : R := env.cos x

/-- Shim `swift_sinf`: returns `__builtin_sinf(x)`. -/
def swift_sinf {R : Type} (env : MathPlatform R) (x : R) : R := env.sin x

/-- Shim `swift_tanf`: returns `__builtin_tanf(x)`. -/
def swift_tanf {R : Type} (env : MathPlatform R) (x : R) : R := env.tan x

/-- Shim `swift_acosf`: returns `__builtin_acosf(x)`. -/
def swift_acosf {R : Type} (env : MathPlatform R) (x : R) : R := env.acos x

/-- Shim `swift_asinf`: returns `__builtin_asinf(x)`. -/
def swift_asinf {R : Type} (env : MathPlatform R) (x : R) : R := env.asin x

/-- Shim `swift_atanf`: returns `__builtin_atanf(x)`. -/
def swift_atanf {R : Type} (env : MathPlatform R) (x : R) : R := env.atan x

/-- Shim `swift_coshf`: returns `__builtin_coshf(x)`. -/
def swift_coshf {R : Type} (env : MathPlatform R) (x : R) : R := env.cosh x

/-- Shim `swift_sinhf`: returns `__builtin_sinhf(x)`. -/
def swift_sinhf {R : Type} (env : MathPlatform R) (x : R) : R := env.sinh x

/-- Shim `swift_tanhf`: returns `__builtin_tanhf(x)`. -/
def swift_tanhf {R : Type} (env : MathPlatform R) (x : R) : R := env.tanh x

/-- Shim `swift_acoshf`: returns `__builtin_acoshf(x)`. -/
def swift_acoshf {R : Type} (env : MathPlatform R) (x : R) : R := env.acosh x

/-- Shim `swift_asinhf`: returns `__builtin_asinhf(x)`. -/
def swift_asinhf {R : Type} (env : MathPlatform R) (x : R) : R := env.asinh x

/-- Shim `swift_atanhf`: returns `__builtin_atanhf(x)`. -/
def swift_atanhf {R : Type} (env : MathPlatform R) (x : R) : R := env.atanh x

/-- Shim `swift_expf`: returns `__builtin_expf(x)`. -/
def swift_expf {R : Type} (env : MathPlatform R) (x : R) : R := env.exp x

/-- Shim `swift_expm1f`: returns `__builtin_expm1f(x)`. -/
def swift_expm1f {R : Type} (env : MathPlatform R) (x : R) : R := env.expm1 x

/-- Shim `swift_logf`: returns `__builtin_logf(x)`. -/
def swift_logf {R : Type} (env : MathPlatform R) (x : R) : R := env.log x

/-- Shim `swift_log1pf`: returns `__builtin_log1pf(x)`. -/
def swift_log1pf {R : Type} (env : MathPlatform R) (x : R) : R := env.log1p x

/-- Shim `swift_powf`: returns `__builtin_powf(x, y)`. -/
def swift_powf {R : Type} (env : MathPlatform R) (x y : R) : R := env.pow x y

/-- Shim `swift_atan2f`: returns `__builtin_atan2f(y, x)`. -/
def swift_atan2f {R : Type} (env : MathPlatform R) (y x : R) : R := env.atan2 y x

/-- Shim `swift_erff`: returns `__builtin_erff(x)`. -/
def swift_erff {R : Type} (env : MathPlatform R) (x : R) : R := env.erf x

/-- Shim `swift_erfcf`: returns `__builtin_erfcf(x)`. -/
def swift_erfcf {R : Type} (env : MathPlatform R) (x : R) : R := env.erfc x

/-- Shim `swift_exp2f`: returns `__builtin_exp2f(x)`. -/
def swift_exp2f {R : Type} (env : MathPlatform R) (x : R) : R := env.exp2 x

/-- Shim `swift_hypotf`: on `_WIN32` returns the extern `_hypotf(x, y)`, otherwise
returns `__builtin_hypotf(x, y)`. -/
def swift_hypotf {R : Type} (t : Target) (env : MathPlatform R) (x y : R) : R :=
  if t.win32 then env.hypot_win x y else env.hypot x y

/-- Shim `swift_gammaf`: returns `__builtin_tgammaf(x)`. -/
def swift_gammaf {R : Type} (env : MathPlatform R) (x : R) : R := env.tgamma x

/-- Shim `swift_log2f`: returns `__builtin_log2f(x)`. -/
def swift_log2f {R : Type} (env : MathPlatform R) (x : R) : R := env.log2 x

/-- Shim `swift_log10f`: returns `__builtin_log10f(x)`. -/
def swift_log10f {R : Type} (env : MathPlatform R) (x : R) : R := env.log10 x

/-- Shim `swift_lgammaf(x)`: declares a local `int _`, returns
`lgammaf_r(x, &_)` and discards the sign written through the pointer. -/
def swift_lgammaf {R : Type} (env : MathPlatform R) (x : R) : R :=
  (env.lgamma_r x).1

/-- Shim `swift_cos`: returns `__builtin_cos(x)`. -/
def swift_cos {R : Type} (env : MathPlatform R) (x : R) : R := env.cos x

/-- Shim `swift_sin`: returns `__builtin_sin(x)`. -/
def swift_sin {R : Type} (env : MathPlatform R) (x : R) : R := env.sin x

/-- Shim `swift_tan`: returns `__builtin_tan(x)`. -/
def swift_tan {R : Type} (env : MathPlatform R) (x : R) : R := env.tan x

/-- Shim `swift_acos`: returns `__builtin_acos(x)`. -/
def swift_acos {R : Type} (env : MathPlatform R) (x : R) : R := env.acos x

/-- Shim `swift_asin`: returns `__builtin_asin(x)`. -/
def swift_asin {R : Type} (env : MathPlatform R) (x : R) : R := env.asin x

/-- Shim `swift_atan`: returns `__builtin_atan(x)`. -/
def swift_atan {R : Type} (env : MathPlatform R) (x : R) : R := env.atan x

/-- Shim `swift_cosh`: returns `__builtin_cosh(x)`. -/
def swift_cosh {R : Type} (env : MathPlatform R) (x : R) : R := env.cosh x

/-- Shim `swift_sinh`: returns `__builtin_sinh(x)`. -/
def swift_sinh {R : Type} (env : MathPlatform R) (x : R) : R := env.sinh x

/-- Shim `swift_tanh`: returns `__builtin_tanh(x)`. -/
def swift_tanh {R : Type} (env : MathPlatform R) (x : R) : R := env.tanh x

/-- Shim `swift_acosh`: returns `__builtin_acosh(x)`. -/
def swift_acosh {R : Type} (env : MathPlatform R) (x : R) : R := env.acosh x

/-- Shim `swift_asinh`: returns `__builtin_asinh(x)`. -/
def swift_asinh {R : Type} (env : MathPlatform R) (x : R) : R := env.asinh x

/-- Shim `swift_atanh`: returns `__builtin_atanh(x)`. -/
def swift_atanh {R : Type} (env : MathPlatform R) (x : R) : R := env.atanh x

/-- Shim `swift_exp`: returns `__builtin_exp(x)`. -/
def swift_exp {R : Type} (env : MathPlatform R) (x : R) : R := env.exp x

/-- Shim `swift_expm1`: returns `__builtin_expm1(x)`. -/
def swift_expm1 {R : Type} (env : MathPlatform R) (x : R) : R := env.expm1 x

/-- Shim `swift_log`: returns `__builtin_log(x)`. -/
def swift_log {R : Type} (env : MathPlatform R) (x : R) : R := env.log x

/-- Shim `swift_log1p`: returns `__builtin_log1p(x)`. -/
def swift_log1p {R : Type} (env : MathPlatform R) (x : R) : R := env.log1p x

/-- Shim `swift_pow`: returns `__builtin_pow(x, y)`. -/
def swift_pow {R : Type} (env : MathPlatform R) (x y : R) : R := env.pow x y

/-- Shim `swift_atan2`: returns `__builtin_atan2(y, x)`. -/
def swift_atan2 {R : Type} (env : MathPlatform R) (y x : R) : R := env.atan2 y x

/-- Shim `swift_erf`: returns `__builtin_erf(x)`. -/
def swift_erf {R : Type} (env : MathPlatform R) (x : R) : R := env.erf x

/-- Shim `swift_erfc`: returns `__builtin_erfc(x)`. -/
def swift_erfc {R : Type} (env : MathPlatform R) (x : R) : R := env.erfc x

/-- Shim `swift_exp2`: returns `__builtin_exp2(x)`. -/
def swift_exp2 {R : Type} (env : MathPlatform R) (x : R) : R := env.exp2 x

/-- Shim `swift_hypot`: returns `__builtin_hypot(x, y)`. -/
def swift_hypot {R : Type} (env : MathPlatform R) (x y : R) : R := env.hypot x y

/-- Shim `swift_gamma`: returns `__builtin_tgamma(x)`. -/
def swift_gamma {R : Type} (env : MathPlatform R) (x : R) : R := env.tgamma x

/-- Shim `swift_log2`: returns `__builtin_log2(x)`. -/
def swift_log2 {R : Type} (env : MathPlatform R) (x : R) : R := env.log2 x

/-- Shim `swift_log10`: returns `__builtin_log10(x)`. -/
def swift_log10 {R : Type} (env : MathPlatform R) (x : R) : R := env.log10 x

/-- Shim `swift_lgamma(x)`: declares a local `int _`, returns
`lgamma_r(x, &_)` and discards the sign written through the pointer. -/
def swift_lgamma {R : Type} (env : MathPlatform R) (x : R) : R :=
  (env.lgamma_r x).1

/-- Shim `swift_cosl`: returns `__builtin_cosl(x)`. -/
def swift_cosl {R : Type} (env : MathPlatform R) (x : R) : R := env.cos x

/-- Shim `swift_sinl`: returns `__builtin_sinl(x)`. -/
def swift_sinl {R : Type} (env : MathPlatform R) (x : R) : R := env.sin x

/-- Shim `swift_tanl`: returns `__builtin_tanl(x)`. -/
def swift_tanl {R : Type} (env : MathPlatform R) (x : R) : R := env.tan x

/-- Shim `swift_acosl`: returns `__builtin_acosl(x)`. -/
def swift_acosl {R : Type} (env : MathPlatform R) (x : R) : R := env.acos x

/-- Shim `swift_asinl`: returns `__builtin_asinl(x)`. -/
def swift_asinl {R : Type} (env : MathPlatform R) (x : R) : R := env.asin x

/-- Shim `swift_atanl`: returns `__builtin_atanl(x)`. -/
def swift_atanl {R : Type} (env : MathPlatform R) (x : R) : R := env.atan x

/-- Shim `swift_coshl`: returns `__builtin_coshl(x)`. -/
def swift_coshl {R : Type} (env : MathPlatform R) (x : R) : R := env.cosh x

/-- Shim `swift_sinhl`: returns `__builtin_sinhl(x)`. -/
def swift_sinhl {R : Type} (env : MathPlatform R) (x : R) : R := env.sinh x

/-- Shim `swift_tanhl`: returns `__builtin_tanhl(x)`. -/
def swift_tanhl {R : Type} (env : MathPlatform R) (x : R) : R := env.tanh x

/-- Shim `swift_acoshl`: returns `__builtin_acoshl(x)`. -/
def swift_acoshl {R : Type} (env : MathPlatform R) (x : R) : R := env.acosh x

/-- Shim `swift_asinhl`: returns `__builtin_asinhl(x)`. -/
def swift_asinhl {R : Type} (env : MathPlatform R) (x : R) : R := env.asinh x

/-- Shim `swift_atanhl`: returns `__builtin_atanhl(x)`. -/
def swift_atanhl {R : Type} (env : MathPlatform R) (x : R) : R := env.atanh x

/-- Shim `swift_expl`: returns `__builtin_expl(x)`. -/
def swift_expl {R : Type} (env : MathPlatform R) (x : R) : R := env.exp x

/-- Shim `swift_expm1l`: returns `__builtin_expm1l(x)`. -/
def swift_expm1l {R : Type} (env : MathPlatform R) (x : R) : R := env.expm1 x

/-- Shim `swift_logl`: returns `__builtin_logl(x)`. -/
def swift_logl {R : Type} (env : MathPlatform R) (x : R) : R := env.log x

/-- Shim `swift_log1pl`: returns `__builtin_log1pl(x)`. -/
def swift_log1pl {R : Type} (env : MathPlatform R) (x : R) : R := env.log1p x

/-- Shim `swift_powl`: returns `__builtin_powl(x, y)`. -/
def swift_powl {R : Type} (env : MathPlatform R) (x y : R) : R := env.pow x y

/-- Shim `swift_atan2l`: returns `__builtin_atan2l(y, x)`. -/
def swift_atan2l {R : Type} (env : MathPlatform R) (y x : R) : R := env.atan2 y x

/-- Shim `swift_erfl`: returns `__builtin_erfl(x)`. -/
def swift_erfl {R : Type} (env : MathPlatform R) (x : R) : R := env.erf x

/-- Shim `swift_erfcl`: returns `__builtin_erfcl(x)`. -/
def swift_erfcl {R : Type} (env : MathPlatform R) (x : R) : R := env.erfc x

/-- Shim `swift_exp2l`: returns `__builtin_exp2l(x)`. -/
def swift_exp2l {R : Type} (env : MathPlatform R) (x : R) : R := env.exp2 x

/-- Shim `swift_hypotl`: returns `__builtin_hypotl(x, y)`. -/
def swift_hypotl {R : Type} (env : MathPlatform R) (x y : R) : R := env.hypot x y

/-- Shim `swift_gammal`: returns `__builtin_tgammal(x)`. -/
def swift_gammal {R : Type} (env : MathPlatform R) (x : R) : R := env.tgamma x

/-- Shim `swift_log2l`: returns `__builtin_log2l(x)`. -/
def swift_log2l {R : Type} (env : MathPlatform R) (x : R) : R := env.log2 x

/-- Shim `swift_log10l`: returns `__builtin_log10l(x)`. -/
def swift_log10l {R : Type} (env : MathPlatform R) (x : R) : R := env.log10 x

/-- Shim `swift_lgammal(x)`: declares a local `int _`, returns
`lgammal_r(x, &_)` and discards the sign written through the pointer. -/
def swift_lgammal {R : Type} (env : MathPlatform R) (x : R) : R :=
  (env.lgamma_r x).1

-- MARK: value-level embedding of the complex wrappers (_CComplex shim.h)

/-- Wrapper `_cexp`: builds a native complex value from the `_CCD` pair,
calls the platform `cexp`, and decomposes the result into a pair. -/
def _cexp {R : Type} (env : ComplexPlatform R) (z : CxPair R) : CxPair R :=
  let cz := env.cexp ⟨z.real, z.imag⟩
  ⟨cz.re, cz.im⟩

/-- Wrapper `_clog`: builds a native complex value from the `_CCD` pair,
calls the platform `clog`, and decomposes the result into a pair. -/
def _clog {R : Type} (env : ComplexPlatform R) (z : CxPair R) : CxPair R :=
  let cz := env.clog ⟨z.real, z.imag⟩
  ⟨cz.re, cz.im⟩

/-- Wrapper `_cpow`: builds native complex values from the `_CCD` pairs,
calls the platform `cpow`, and decomposes the result into a pair. -/
def _cpow {R : Type} (env : ComplexPlatform R) (z w : CxPair R) : CxPair R :=
  let cz := env.cpow ⟨z.real, z.imag⟩ ⟨w.real, w.imag⟩
  ⟨cz.re, cz.im⟩

/-- Wrapper `_csqrt`: builds a native complex value from the `_CCD` pair,
calls the platform `csqrt`, and decomposes the result into a pair. -/
def _csqrt {R : Type} (env : ComplexPlatform R) (z : CxPair R) : CxPair R :=
  let cz := env.csqrt ⟨z.real, z.imag⟩
  ⟨cz.re, cz.im⟩

/-- Wrapper `_csin`: builds a native complex value from the `_CCD` pair,
calls the platform `csin`, and decomposes the result into a pair. -/
def _csin {R : Type} (env : ComplexPlatform R) (z : CxPair R) : CxPair R :=
  let cz := env.csin ⟨z.real, z.imag⟩
  ⟨cz.re, cz.im⟩

/-- Wrapper `_ccos`: builds a native complex value from the `_CCD` pair,
calls the platform `ccos`, and decomposes the result into a pair. -/
def _ccos {R : Type} (env : ComplexPlatform R) (z : CxPair R) : CxPair R :=
  let cz := env.ccos ⟨z.real, z.imag⟩
  ⟨cz.re, cz.im⟩

/-- Wrapper `_ctan`: builds a native complex value from the `_CCD` pair,
calls the platform `ctan`, and decomposes the result into a pair. -/
def _ctan {R : Type} (env : ComplexPlatform R) (z : CxPair R) : CxPair R :=
  let cz := env.ctan ⟨z.real, z.imag⟩
  ⟨cz.re, cz.im⟩

/-- Wrapper `_casin`: builds a native complex value from the `_CCD` pair,
calls the platform `casin`, and decomposes the result into a pair. -/
def _casin {R : Type} (env : ComplexPlatform R) (z : CxPair R) : CxPair R :=
  let cz := env.casin ⟨z.real, z.imag⟩
  ⟨cz.re, cz.im⟩

/-- Wrapper `_cacos`: builds a native complex value from the `_CCD` pair,
calls the platform `cacos`, and decomposes the result into a pair. -/
def _cacos {R : Type} (env : ComplexPlatform R) (z : CxPair R) : CxPair R :=
  let cz := env.cacos ⟨z.real, z.imag⟩
  ⟨cz.re, cz.im⟩

/-- Wrapper `_catan`: builds a native complex value from the `_CCD` pair,
calls the platform `catan`, and decomposes the result into a pair. -/
def _catan {R : Type} (env : ComplexPlatform R) (z : CxPair R) : CxPair R :=
  let cz := env.catan ⟨z.real, z.imag⟩
  ⟨cz.re, cz.im⟩

/-- Wrapper `_csinh`: builds a native complex value from the `_CCD` pair,
calls the platform `csinh`, and decomposes the result into a pair. -/
def _csinh {R : Type} (env : ComplexPlatform R) (z : CxPair R) : CxPair R :=
  let cz := env.csinh ⟨z.real, z.imag⟩
  ⟨cz.re, cz.im⟩

/-- Wrapper `_ccosh`: builds a native complex value from the `_CCD` pair,
calls the platform `ccosh`, and decomposes the result into a pair. -/
def _ccosh {R : Type} (env : ComplexPlatform R) (z : CxPair R) : CxPair R :=
  let cz := env.ccosh ⟨z.real, z.imag⟩
  ⟨cz.re, cz.im⟩

/-- Wrapper `_ctanh`: builds a native complex value from the `_CCD` pair,
calls the platform `ctanh`, and decomposes the result into a pair. -/
def _ctanh {R : Type} (env : ComplexPlatform R) (z : CxPair R) : CxPair R :=
  let cz := env.ctanh ⟨z.real, z.imag⟩
  ⟨cz.re, cz.im⟩

/-- Wrapper `_casinh`: builds a native complex value from the `_CCD` pair,
calls the platform `casinh`, and decomposes the result into a pair. -/
def _casinh {R : Type} (env : ComplexPlatform R) (z : CxPair R) : CxPair R :=
  let cz := env.casinh ⟨z.real, z.imag⟩
  ⟨cz.re, cz.im⟩

/-- Wrapper `_cacosh`: builds a native complex value from the `_CCD` pair,
calls the platform `cacosh`, and decomposes the result into a pair. -/
def _cacosh {R : Type} (env : ComplexPlatform R) (z : CxPair R) : CxPair R :=
  let cz := env.cacosh ⟨z.real, z.imag⟩
  ⟨cz.re, cz.im⟩

/-- Wrapper `_catanh`: builds a native complex value from the `_CCD` pair,
calls the platform `catanh`, and decomposes the result into a pair. -/
def _catanh {R : Type} (env : ComplexPlatform R) (z : CxPair R) : CxPair R :=
  let cz := env.catanh ⟨z.real, z.imag⟩
  ⟨cz.re, cz.im⟩

/-- Wrapper `_cexpf`: builds a native complex value from the `_CCF` pair,
calls the platform `cexpf`, and decomposes the result into a pair. -/
def _cexpf {R : Type} (env : ComplexPlatform R) (z : CxPair R) : CxPair R :=
  let cz := env.cexp ⟨z.real, z.imag⟩
  ⟨cz.re, cz.im⟩

/-- Wrapper `_clogf`: builds a native complex value from the `_CCF` pair,
calls the platform `clogf`, and decomposes the result into a pair. -/
def _clogf {R : Type} (env : ComplexPlatform R) (z : CxPair R) : CxPair R :=
  let cz := env.clog ⟨z.real, z.imag⟩
  ⟨cz.re, cz.im⟩

/-- Wrapper `_cpowf`: builds native complex values from the `_CCF` pairs,
calls the platform `cpowf`, and decomposes the result into a pair. -/
def _cpowf {R : Type} (env : ComplexPlatform R) (z w : CxPair R) : CxPair R :=
  let cz := env.cpow ⟨z.real, z.imag⟩ ⟨w.real, w.imag⟩
  ⟨cz.re, cz.im⟩

/-- Wrapper `_csqrtf`: builds a native complex value from the `_CCF` pair,
calls the platform `csqrtf`, and decomposes the result into a pair. -/
def _csqrtf {R : Type} (env : ComplexPlatform R) (z : CxPair R) : CxPair R :=
  let cz := env.csqrt ⟨z.real, z.imag⟩
  ⟨cz.re, cz.im⟩

/-- Wrapper `_csinf`: builds a native complex value from the `_CCF` pair,
calls the platform `csinf`, and decomposes the result into a pair. -/
def _csinf {R : Type} (env : ComplexPlatform R) (z : CxPair R) : CxPair R :=
  let cz := env.csin ⟨z.real, z.imag⟩
  ⟨cz.re, cz.im⟩

/-- Wrapper `_ccosf`: builds a native complex value from the `_CCF` pair,
calls the platform `ccosf`, and decomposes the result into a pair. -/
def _ccosf {R : Type} (env : ComplexPlatform R) (z : CxPair R) : CxPair R :=
  let cz := env.ccos ⟨z.real, z.imag⟩
  ⟨cz.re, cz.im⟩

/-- Wrapper `_ctanf`: builds a native complex value from the `_CCF` pair,
calls the platform `ctanf`, and decomposes the result into a pair. -/
def _ctanf {R : Type} (env : ComplexPlatform R) (z : CxPair R) : CxPair R :=
  let cz := env.ctan ⟨z.real, z.imag⟩
  ⟨cz.re, cz.im⟩

/-- Wrapper `_casinf`: builds a native complex value from the `_CCF` pair,
calls the platform `casinf`, and decomposes the result into a pair. -/
def _casinf {R : Type} (env : ComplexPlatform R) (z : CxPair R) : CxPair R :=
  let cz := env.casin ⟨z.real, z.imag⟩
  ⟨cz.re, cz.im⟩

/-- Wrapper `_cacosf`: builds a native complex value from the `_CCF` pair,
calls the platform `cacosf`, and decomposes the result into a pair. -/
def _cacosf {R : Type} (env : ComplexPlatform R) (z : CxPair R) : CxPair R :=
  let cz := env.cacos ⟨z.real, z.imag⟩
  ⟨cz.re, cz.im⟩

/-- Wrapper `_catanf`: builds a native complex value from the `_CCF` pair,
calls the platform `catanf`, and decomposes the result into a pair. -/
def _catanf {R : Type} (env : ComplexPlatform R) (z : CxPair R) : CxPair R :=
  let cz := env.catan ⟨z.real, z.imag⟩
  ⟨cz.re, cz.im⟩

/-- Wrapper `_csinhf`: builds a native complex value from the `_CCF` pair,
calls the platform `csinhf`, and decomposes the result into a pair. -/
def _csinhf {R : Type} (env : ComplexPlatform R) (z : CxPair R) : CxPair R :=
  let cz := env.csinh ⟨z.real, z.imag⟩
  ⟨cz.re, cz.im⟩

/-- Wrapper `_ccoshf`: builds a native complex value from the `_CCF` pair,
calls the platform `ccoshf`, and decomposes the result into a pair. -/
def _ccoshf {R : Type} (env : ComplexPlatform R) (z : CxPair R) : CxPair R :=
  let cz := env.ccosh ⟨z.real, z.imag⟩
  ⟨cz.re, cz.im⟩

/-- Wrapper `_ctanhf`: builds a native complex value from the `_CCF` pair,
calls the platform `ctanhf`, and decomposes the result into a pair. -/
def _ctanhf {R : Type} (env : ComplexPlatform R) (z : CxPair R) : CxPair R :=
  let cz := env.ctanh ⟨z.real, z.imag⟩
  ⟨cz.re, cz.im⟩

/-- Wrapper `_casinhf`: builds a native complex value from the `_CCF` pair,
calls the platform `casinhf`, and decomposes the result into a pair. -/
def _casinhf {R : Type} (env : ComplexPlatform R) (z : CxPair R) : CxPair R :=
  let cz := env.casinh ⟨z.real, z.imag⟩
  ⟨cz.re, cz.im⟩

/-- Wrapper `_cacoshf`: builds a native complex value from the `_CCF` pair,
calls the platform `cacoshf`, and decomposes the result into a pair. -/
def _cacoshf {R : Type} (env : ComplexPlatform R) (z : CxPair R) : CxPair R :=
  let cz := env.cacosh ⟨z.real, z.imag⟩
  ⟨cz.re, cz.im⟩

/-- Wrapper `_catanhf`: builds a native complex value from the `_CCF` pair,
calls the platform `catanhf`, and decomposes the result into a pair. -/
def _catanhf {R : Type} (env : ComplexPlatform R) (z : CxPair R) : CxPair R :=
  let cz := env.catanh ⟨z.real, z.imag⟩
  ⟨cz.re, cz.im⟩

-- MARK: the fused multiply-add convenience inlines

/-- Shim `_numerics_muladdf`: `a*b + c` under `#pragma STDC FP_CONTRACT ON`,
evaluated either as two operations or as one fused operation. -/
def _numerics_muladdf {R : Type} [Mul R] [Add R] (a b c : R) : R := a * b + c

/-- Shim `_numerics_muladd`: `a*b + c` under `#pragma STDC FP_CONTRACT ON`,
evaluated either as two operations or as one fused operation. -/
def _numerics_muladd {R : Type} [Mul R] [Add R] (a b c : R) : R := a * b + c

-- MARK: availability-level embedding (the preprocessor structure of the headers)

/-- Names of the `long double` functions of `_NumericsShims.h`, i.e. the block
guarded by `#if !defined _WIN32 && (defined __i386__ || defined __x86_64__)`. -/
def libmFloat80Symbols : List String :=
  ["libm_cosl", "libm_sinl", "libm_tanl", "libm_acosl", "libm_asinl", "libm_atanl", "libm_coshl", "libm_sinhl", "libm_tanhl", "libm_acoshl", "libm_asinhl", "libm_atanhl", "libm_expl", "libm_expm1l", "libm_logl", "libm_log1pl", "libm_powl", "libm_cbrtl", "libm_atan2l", "libm_erfl", "libm_erfcl", "libm_exp2l", "libm_hypotl", "libm_tgammal", "libm_log2l", "libm_log10l", "libm_lgammal"]

/-- Names of the `long double` functions of `NumericsShims.h`, i.e. the block
guarded by `#if !defined _WIN32 && (defined __i386__ || defined __x86_64__)`. -/
def swiftFloat80Symbols : List String :=
  ["swift_cosl", "swift_sinl", "swift_tanl", "swift_acosl", "swift_asinl", "swift_atanl", "swift_coshl", "swift_sinhl", "swift_tanhl", "swift_acoshl", "swift_asinhl", "swift_atanhl", "swift_expl", "swift_expm1l", "swift_logl", "swift_log1pl", "swift_powl", "swift_atan2l", "swift_erfl", "swift_erfcl", "swift_exp2l", "swift_hypotl", "swift_gammal", "swift_log2l", "swift_log10l", "swift_lgammal"]

/-- The list of function names `_NumericsShims.h` defines when compiled for
target `t`, mirroring the header's conditional structure: `libm_exp10f` and
`libm_exp10` under `#if __APPLE__`, `libm_lgammaf` and `libm_lgamma` under
`#if !defined _WIN32`, the whole `long double` block under
`#if !defined _WIN32 && (defined __i386__ || defined __x86_64__)`. -/
def libmShimSymbols (t : Target) : List String :=
  ["libm_cosf", "libm_sinf", "libm_tanf", "libm_acosf", "libm_asinf", "libm_atanf", "libm_coshf", "libm_sinhf", "libm_tanhf", "libm_acoshf", "libm_asinhf", "libm_atanhf", "libm_expf", "libm_expm1f", "libm_logf", "libm_log1pf", "libm_powf", "libm_cbrtf", "libm_atan2f", "libm_erff", "libm_erfcf", "libm_exp2f"] ++
  (if t.apple then ["libm_exp10f"] else []) ++
  ["libm_hypotf", "libm_tgammaf", "libm_log2f", "libm_log10f"] ++
  (if !t.win32 then ["libm_lgammaf"] else []) ++
  ["libm_cos", "libm_sin", "libm_tan", "libm_acos", "libm_asin", "libm_atan", "libm_cosh", "libm_sinh", "libm_tanh", "libm_acosh", "libm_asinh", "libm_atanh", "libm_exp", "libm_expm1", "libm_log", "libm_log1p", "libm_pow", "libm_cbrt", "libm_atan2", "libm_erf", "libm_erfc", "libm_exp2"] ++
  (if t.apple then ["libm_exp10"] else []) ++
  ["libm_hypot", "libm_tgamma", "libm_log2", "libm_log10"] ++
  (if !t.win32 then ["libm_lgamma"] else []) ++
  (if t.float80Available then libmFloat80Symbols else []) ++
  ["_numerics_muladdf", "_numerics_muladd"]

/-- The list of function names `NumericsShims.h` defines when compiled for
target `t`, mirroring the header's conditional structure: `swift_lgammaf` and
`swift_lgamma` under `#if !defined _WIN32`, the whole `long double` block under
`#if !defined _WIN32 && (defined __i386__ || defined __x86_64__)`. -/
def swiftShimSymbols (t : Target) : List String :=
  ["swift_cosf", "swift_sinf", "swift_tanf", "swift_acosf", "swift_asinf", "swift_atanf", "swift_coshf", "swift_sinhf", "swift_tanhf", "swift_acoshf", "swift_asinhf", "swift_atanhf", "swift_expf", "swift_expm1f", "swift_logf", "swift_log1pf", "swift_powf", "swift_atan2f", "swift_erff", "swift_erfcf", "swift_exp2f", "swift_hypotf", "swift_gammaf", "swift_log2f", "swift_log10f"] ++
  (if !t.win32 then ["swift_lgammaf"] else []) ++
  ["swift_cos", "swift_sin", "swift_tan", "swift_acos", "swift_asin", "swift_atan", "swift_cosh", "swift_sinh", "swift_tanh", "swift_acosh", "swift_asinh", "swift_atanh", "swift_exp", "swift_expm1", "swift_log", "swift_log1p", "swift_pow", "swift_atan2", "swift_erf", "swift_erfc", "swift_exp2", "swift_hypot", "swift_gamma", "swift_log2", "swift_log10"] ++
  (if !t.win32 then ["swift_lgamma"] else []) ++
  (if t.float80Available then swiftFloat80Symbols else [])

-- MARK: auxiliary definitions used by the theorems below

/-- Platform contract of the `lgamma_r` family.  Modelled from the spec: the
routine itself is platform libm code, absent from this repository's sources;
the spec states that log-gamma "additionally yields a sign indicator (+1 or
-1) describing the sign of the un-logged gamma function, returned alongside
the magnitude".  `logAbsGamma` and `gammaSign` stand for the true magnitude
`log |Γ(x)|` and the true sign of `Γ(x)`. -/
def LgammaRContract {R : Type} (env : MathPlatform R)
    (logAbsGamma : R → R) (gammaSign : R → Int) : Prop :=
  ∀ x, (env.lgamma_r x).1 = logAbsGamma x ∧
    (env.lgamma_r x).2 = gammaSign x ∧
    ((env.lgamma_r x).2 = 1 ∨ (env.lgamma_r x).2 = -1)

/-- A floating-point-like carrier used to state boundary behaviour: a finite
value (represented exactly by a rational), the two infinities, and NaN. -/
inductive FP where
  | fin : ℚ → FP
  | posInf : FP
  | negInf : FP
  | nan : FP
deriving DecidableEq

/-- A concrete platform instance over `ℚ`, used only to discharge the
hypotheses of conditional theorems at a concrete input. -/
def toyEnvQ : MathPlatform ℚ where
  cos := fun _ => 0
  sin := fun _ => 0
  tan := fun _ => 0
  acos := fun _ => 0
  asin := fun _ => 0
  atan := fun _ => 0
  cosh := fun _ => 0
  sinh := fun _ => 0
  tanh := fun _ => 0
  acosh := fun _ => 0
  asinh := fun _ => 0
  atanh := fun _ => 0
  exp := fun _ => 0
  expm1 := fun _ => 0
  log := fun _ => 0
  log1p := fun _ => 0
  cbrt := fun _ => 0
  erf := fun _ => 0
  erfc := fun _ => 0
  exp2 := fun _ => 0
  exp10 := fun _ => 0
  tgamma := fun _ => 0
  log2 := fun _ => 0
  log10 := fun _ => 0
  pow := fun x _ => x
  atan2 := fun _ _ => 0
  hypot := fun _ _ => 0
  hypot_win := fun _ _ => 0
  lgamma_r := fun _ => (0, 1)

/-- A concrete platform instance over `FP` whose `log` has the documented IEEE
boundary behaviour (`log 0 = -∞`, `log` of a negative value is NaN), used only
to discharge the hypotheses of conditional theorems at a concrete input. -/
def toyEnvFP : MathPlatform FP where
  cos := fun _ => FP.fin 0
  sin := fun _ => FP.fin 0
  tan := fun _ => FP.fin 0
  acos := fun _ => FP.fin 0
  asin := fun _ => FP.fin 0
  atan := fun _ => FP.fin 0
  cosh := fun _ => FP.fin 0
  sinh := fun _ => FP.fin 0
  tanh := fun _ => FP.fin 0
  acosh := fun _ => FP.fin 0
  asinh := fun _ => FP.fin 0
  atanh := fun _ => FP.fin 0
  exp := fun _ => FP.fin 0
  expm1 := fun _ => FP.fin 0
  log := fun x => match x with
    | FP.fin q => if q = 0 then FP.negInf else if q < 0 then FP.nan else FP.fin 0
    | _ => FP.fin 0
  log1p := fun _ => FP.fin 0
  cbrt := fun _ => FP.fin 0
  erf := fun _ => FP.fin 0
  erfc := fun _ => FP.fin 0
  exp2 := fun _ => FP.fin 0
  exp10 := fun _ => FP.fin 0
  tgamma := fun _ => FP.fin 0
  log2 := fun _ => FP.fin 0
  log10 := fun _ => FP.fin 0
  pow := fun x _ => x
  atan2 := fun _ _ => FP.fin 0
  hypot := fun _ _ => FP.fin 0
  hypot_win := fun _ _ => FP.fin 0
  lgamma_r := fun _ => (FP.fin 0, 1)

/-- A concrete complex-platform instance over `FP` whose `csqrt` always has a
non-zero imaginary part, used only to discharge the hypotheses of conditional
theorems at a concrete input. -/
def toyCenvFP : ComplexPlatform FP where
  cexp := fun z => z
  clog := fun z => z
  cpow := fun z _ => z
  csqrt := fun _ => ⟨FP.fin 0, FP.fin 1⟩
  csin := fun z => z
  ccos := fun z => z
  ctan := fun z => z
  casin := fun z => z
  cacos := fun z => z
  catan := fun z => z
  csinh := fun z => z
  ccosh := fun z => z
  ctanh := fun z => z
  casinh := fun z => z
  cacosh := fun z => z
  catanh := fun z => z

/-- An effectful reading of the platform math routines, for the purity and
statelessness claim: each routine receives the thread-local errno-like state
`S` alongside its arguments and returns its value together with the
possibly-updated state. -/
structure EffMathPlatform (R S : Type) where
  cos : R → S → R × S
  sin : R → S → R × S
  tan : R → S → R × S
  acos : R → S → R × S
  asin : R → S → R × S
  atan : R → S → R × S
  cosh : R → S → R × S
  sinh : R → S → R × S
  tanh : R → S → R × S
  acosh : R → S → R × S
  asinh : R → S → R × S
  atanh : R → S → R × S
  exp : R → S → R × S
  expm1 : R → S → R × S
  log : R → S → R × S
  log1p : R → S → R × S
  cbrt : R → S → R × S
  erf : R → S → R × S
  erfc : R → S → R × S
  exp2 : R → S → R × S
  exp10 : R → S → R × S
  tgamma : R → S → R × S
  log2 : R → S → R × S
  log10 : R → S → R × S
  pow : R → R → S → R × S
  atan2 : R → R → S → R × S
  hypot : R → R → S → R × S
  hypot_win : R → R → S → R × S
  lgamma_r : R → S → (R × Int) × S

/-- An effectful reading of the platform complex math routines. -/
structure EffComplexPlatform (R S : Type) where
  cexp : CComplex R → S → CComplex R × S
  clog : CComplex R → S → CComplex R × S
  cpow : CComplex R → CComplex R → S → CComplex R × S
  csqrt : CComplex R → S → CComplex R × S
  csin : CComplex R → S → CComplex R × S
  ccos : CComplex R → S → CComplex R × S
  ctan : CComplex R → S → CComplex R × S
  casin : CComplex R → S → CComplex R × S
  cacos : CComplex R → S → CComplex R × S
  catan : CComplex R → S → CComplex R × S
  csinh : CComplex R → S → CComplex R × S
  ccosh : CComplex R → S → CComplex R × S
  ctanh : CComplex R → S → CComplex R × S
  casinh : CComplex R → S → CComplex R × S
  cacosh : CComplex R → S → CComplex R × S
  catanh : CComplex R → S → CComplex R × S

/-- Value-state-independence of the effectful platform math routines.
Modelled from the spec: the routines are platform libm code absent from this
repository's sources, and the spec states they "may read/write a
thread-local errno-equivalent signal" with "none observable to the
caller" — the value a routine returns does not depend on the incoming
state. -/
structure EffMathPlatform.ValueIndep {R S : Type}
    (env : EffMathPlatform R S) : Prop where
  cos : ∀ x s s', (env.cos x s).1 = (env.cos x s').1
  sin : ∀ x s s', (env.sin x s).1 = (env.sin x s').1
  tan : ∀ x s s', (env.tan x s).1 = (env.tan x s').1
  acos : ∀ x s s', (env.acos x s).1 = (env.acos x s').1
  asin : ∀ x s s', (env.asin x s).1 = (env.asin x s').1
  atan : ∀ x s s', (env.atan x s).1 = (env.atan x s').1
  cosh : ∀ x s s', (env.cosh x s).1 = (env.cosh x s').1
  sinh : ∀ x s s', (env.sinh x s).1 = (env.sinh x s').1
  tanh : ∀ x s s', (env.tanh x s).1 = (env.tanh x s').1
  acosh : ∀ x s s', (env.acosh x s).1 = (env.acosh x s').1
  asinh : ∀ x s s', (env.asinh x s).1 = (env.asinh x s').1
  atanh : ∀ x s s', (env.atanh x s).1 = (env.atanh x s').1
  exp : ∀ x s s', (env.exp x s).1 = (env.exp x s').1
  expm1 : ∀ x s s', (env.expm1 x s).1 = (env.expm1 x s').1
  log : ∀ x s s', (env.log x s).1 = (env.log x s').1
  log1p : ∀ x s s', (env.log1p x s).1 = (env.log1p x s').1
  cbrt : ∀ x s s', (env.cbrt x s).1 = (env.cbrt x s').1
  erf : ∀ x s s', (env.erf x s).1 = (env.erf x s').1
  erfc : ∀ x s s', (env.erfc x s).1 = (env.erfc x s').1
  exp2 : ∀ x s s', (env.exp2 x s).1 = (env.exp2 x s').1
  exp10 : ∀ x s s', (env.exp10 x s).1 = (env.exp10 x s').1
  tgamma : ∀ x s s', (env.tgamma x s).1 = (env.tgamma x s').1
  log2 : ∀ x s s', (env.log2 x s).1 = (env.log2 x s').1
  log10 : ∀ x s s', (env.log10 x s).1 = (env.log10 x s').1
  pow : ∀ x y s s', (env.pow x y s).1 = (env.pow x y s').1
  atan2 : ∀ x y s s', (env.atan2 x y s).1 = (env.atan2 x y s').1
  hypot : ∀ x y s s', (env.hypot x y s).1 = (env.hypot x y s').1
  hypot_win : ∀ x y s s', (env.hypot_win x y s).1 = (env.hypot_win x y s').1
  lgamma_r : ∀ x s s', (env.lgamma_r x s).1 = (env.lgamma_r x s').1

/-- Value-state-independence of the effectful platform complex routines,
modelled from the spec in the same way as `EffMathPlatform.ValueIndep`. -/
structure EffComplexPlatform.ValueIndep {R S : Type}
    (cenv : EffComplexPlatform R S) : Prop where
  cexp : ∀ z s s', (cenv.cexp z s).1 = (cenv.cexp z s').1
  clog : ∀ z s s', (cenv.clog z s).1 = (cenv.clog z s').1
  cpow : ∀ z w s s', (cenv.cpow z w s).1 = (cenv.cpow z w s').1
  csqrt : ∀ z s s', (cenv.csqrt z s).1 = (cenv.csqrt z s').1
  csin : ∀ z s s', (cenv.csin z s).1 = (cenv.csin z s').1
  ccos : ∀ z s s', (cenv.ccos z s).1 = (cenv.ccos z s').1
  ctan : ∀ z s s', (cenv.ctan z s).1 = (cenv.ctan z s').1
  casin : ∀ z s s', (cenv.casin z s).1 = (cenv.casin z s').1
  cacos : ∀ z s s', (cenv.cacos z s).1 = (cenv.cacos z s').1
  catan : ∀ z s s', (cenv.catan z s).1 = (cenv.catan z s').1
  csinh : ∀ z s s', (cenv.csinh z s).1 = (cenv.csinh z s').1
  ccosh : ∀ z s s', (cenv.ccosh z s).1 = (cenv.ccosh z s').1
  ctanh : ∀ z s s', (cenv.ctanh z s).1 = (cenv.ctanh z s').1
  casinh : ∀ z s s', (cenv.casinh z s).1 = (cenv.casinh z s').1
  cacosh : ∀ z s s', (cenv.cacosh z s).1 = (cenv.cacosh z s').1
  catanh : ∀ z s s', (cenv.catanh z s).1 = (cenv.catanh z s').1

/-- Effectful reading of shim `libm_cosf`: the body is the single platform call —
the state is passed to the routine and its value and state are returned
untouched, inspected by neither branch nor projection. -/
def CEff.libm_cosf {R S : Type} (env : EffMathPlatform R S) (x : R) (s : S) :
    R × S :=
  env.cos x s

/-- Effectful reading of shim `libm_sinf`: the body is the single platform call —
the state is passed to the routine and its value and state are returned
untouched, inspected by neither branch nor projection. -/
def CEff.libm_sinf {R S : Type} (env : EffMathPlatform R S) (x : R) (s : S) :
    R × S :=
  env.sin x s

/-- Effectful reading of shim `libm_tanf`: the body is the single platform call —
the state is passed to the routine and its value and state are returned
untouched, inspected by neither branch nor projection. -/
def CEff.libm_tanf {R S : Type} (env : EffMathPlatform R S) (x : R) (s : S) :
    R × S :=
  env.tan x s

/-- Effectful reading of shim `libm_acosf`: the body is the single platform call —
the state is passed to the routine and its value and state are returned
untouched, inspected by neither branch nor projection. -/
def CEff.libm_acosf {R S : Type} (env : EffMathPlatform R S) (x : R) (s : S) :
    R × S :=
  env.acos x s

/-- Effectful reading of shim `libm_asinf`: the body is the single platform call —
the state is passed to the routine and its value and state are returned
untouched, inspected by neither branch nor projection. -/
def CEff.libm_asinf {R S : Type} (env : EffMathPlatform R S) (x : R) (s : S) :
    R × S :=
  env.asin x s

/-- Effectful reading of shim `libm_atanf`: the body is the single platform call —
the state is passed to the routine and its value and state are returned
untouched, inspected by neither branch nor projection. -/
def CEff.libm_atanf {R S : Type} (env : EffMathPlatform R S) (x : R) (s : S) :
    R × S :=
  env.atan x s

/-- Effectful reading of shim `libm_coshf`: the body is the single platform call —
the state is passed to the routine and its value and state are returned
untouched, inspected by neither branch nor projection. -/
def CEff.libm_coshf {R S : Type} (env : EffMathPlatform R S) (x : R) (s : S) :
    R × S :=
  env.cosh x s

/-- Effectful reading of shim `libm_sinhf`: the body is the single platform call —
the state is passed to the routine and its value and state are returned
untouched, inspected by neither branch nor projection. -/
def CEff.libm_sinhf {R S : Type} (env : EffMathPlatform R S) (x : R) (s : S) :
    R × S :=
  env.sinh x s

/-- Effectful reading of shim `libm_tanhf`: the body is the single platform call —
the state is passed to the routine and its value and state are returned
untouched, inspected by neither branch nor projection. -/
def CEff.libm_tanhf {R S : Type} (env : EffMathPlatform R S) (x : R) (s : S) :
    R × S :=
  env.tanh x s

/-- Effectful reading of shim `libm_acoshf`: the body is the single platform call —
the state is passed to the routine and its value and state are returned
untouched, inspected by neither branch nor projection. -/
def CEff.libm_acoshf {R S : Type} (env : EffMathPlatform R S) (x : R) (s : S) :
    R × S :=
  env.acosh x s

/-- Effectful reading of shim `libm_asinhf`: the body is the single platform call —
the state is passed to the routine and its value and state are returned
untouched, inspected by neither branch nor projection. -/
def CEff.libm_asinhf {R S : Type} (env : EffMathPlatform R S) (x : R) (s : S) :
    R × S :=
  env.asinh x s

/-- Effectful reading of shim `libm_atanhf`: the body is the single platform call —
the state is passed to the routine and its value and state are returned
untouched, inspected by neither branch nor projection. -/
def CEff.libm_atanhf {R S : Type} (env : EffMathPlatform R S) (x : R) (s : S) :
    R × S :=
  env.atanh x s

/-- Effectful reading of shim `libm_expf`: the body is the single platform call —
the state is passed to the routine and its value and state are returned
untouched, inspected by neither branch nor projection. -/
def CEff.libm_expf {R S : Type} (env : EffMathPlatform R S) (x : R) (s : S) :
    R × S :=
  env.exp x s

/-- Effectful reading of shim `libm_expm1f`: the body is the single platform call —
the state is passed to the routine and its value and state are returned
untouched, inspected by neither branch nor projection. -/
def CEff.libm_expm1f {R S : Type} (env : EffMathPlatform R S) (x : R) (s : S) :
    R × S :=
  env.expm1 x s

/-- Effectful reading of shim `libm_logf`: the body is the single platform call —
the state is passed to the routine and its value and state are returned
untouched, inspected by neither branch nor projection. -/
def CEff.libm_logf {R S : Type} (env : EffMathPlatform R S) (x : R) (s : S) :
    R × S :=
  env.log x s

/-- Effectful reading of shim `libm_log1pf`: the body is the single platform call —
the state is passed to the routine and its value and state are returned
untouched, inspected by neither branch nor projection. -/
def CEff.libm_log1pf {R S : Type} (env : EffMathPlatform R S) (x : R) (s : S) :
    R × S :=
  env.log1p x s

/-- Effectful reading of shim `libm_powf`: the single platform call with both
arguments passed through, the state untouched by the shim itself. -/
def CEff.libm_powf {R S : Type} (env : EffMathPlatform R S) (x y : R) (s : S) :
    R × S :=
  env.pow x y s

/-- Effectful reading of shim `libm_cbrtf`: the body is the single platform call —
the state is passed to the routine and its value and state are returned
untouched, inspected by neither branch nor projection. -/
def CEff.libm_cbrtf {R S : Type} (env : EffMathPlatform R S) (x : R) (s : S) :
    R × S :=
  env.cbrt x s

/-- Effectful reading of shim `libm_atan2f`: the single platform call with both
arguments passed through, the state untouched by the shim itself. -/
def CEff.libm_atan2f {R S : Type} (env : EffMathPlatform R S) (y x : R) (s : S) :
    R × S :=
  env.atan2 y x s

/-- Effectful reading of shim `libm_erff`: the body is the single platform call —
the state is passed to the routine and its value and state are returned
untouched, inspected by neither branch nor projection. -/
def CEff.libm_erff {R S : Type} (env : EffMathPlatform R S) (x : R) (s : S) :
    R × S :=
  env.erf x s

/-- Effectful reading of shim `libm_erfcf`: the body is the single platform call —
the state is passed to the routine and its value and state are returned
untouched, inspected by neither branch nor projection. -/
def CEff.libm_erfcf {R S : Type} (env : EffMathPlatform R S) (x : R) (s : S) :
    R × S :=
  env.erfc x s

/-- Effectful reading of shim `libm_exp2f`: the body is the single platform call —
the state is passed to the routine and its value and state are returned
untouched, inspected by neither branch nor projection. -/
def CEff.libm_exp2f {R S : Type} (env : EffMathPlatform R S) (x : R) (s : S) :
    R × S :=
  env.exp2 x s

/-- Effectful reading of shim `libm_exp10f`: the body is the single platform call —
the state is passed to the routine and its value and state are returned
untouched, inspected by neither branch nor projection. -/
def CEff.libm_exp10f {R S : Type} (env : EffMathPlatform R S) (x : R) (s : S) :
    R × S :=
  env.exp10 x s

/-- Effectful reading of shim `libm_hypotf`: one platform call selected by the
compile-time `_WIN32` branch, the state untouched by the shim itself. -/
def CEff.libm_hypotf {R S : Type} (t : Target) (env : EffMathPlatform R S)
    (x y : R) (s : S) : R × S :=
  if t.win32 then env.hypot_win x y s else env.hypot x y s

/-- Effectful reading of shim `libm_tgammaf`: the body is the single platform call —
the state is passed to the routine and its value and state are returned
untouched, inspected by neither branch nor projection. -/
def CEff.libm_tgammaf {R S : Type} (env : EffMathPlatform R S) (x : R) (s : S) :
    R × S :=
  env.tgamma x s

/-- Effectful reading of shim `libm_log2f`: the body is the single platform call —
the state is passed to the routine and its value and state are returned
untouched, inspected by neither branch nor projection. -/
def CEff.libm_log2f {R S : Type} (env : EffMathPlatform R S) (x : R) (s : S) :
    R × S :=
  env.log2 x s

/-- Effectful reading of shim `libm_log10f`: the body is the single platform call —
the state is passed to the routine and its value and state are returned
untouched, inspected by neither branch nor projection. -/
def CEff.libm_log10f {R S : Type} (env : EffMathPlatform R S) (x : R) (s : S) :
    R × S :=
  env.log10 x s

/-- Effectful reading of shim `libm_lgammaf`: the single `lgamma_r` call, its
(value, sign) pair and state returned untouched. -/
def CEff.libm_lgammaf {R S : Type} (env : EffMathPlatform R S) (x : R) (s : S) :
    (R × Int) × S :=
  env.lgamma_r x s

/-- Effectful reading of shim `libm_cos`: the body is the single platform call —
the state is passed to the routine and its value and state are returned
untouched, inspected by neither branch nor projection. -/
def CEff.libm_cos {R S : Type} (env : EffMathPlatform R S) (x : R) (s : S) :
    R × S :=
  env.cos x s

/-- Effectful reading of shim `libm_sin`: the body is the single platform call —
the state is passed to the routine and its value and state are returned
untouched, inspected by neither branch nor projection. -/
def CEff.libm_sin {R S : Type} (env : EffMathPlatform R S) (x : R) (s : S) :
    R × S :=
  env.sin x s

/-- Effectful reading of shim `libm_tan`: the body is the single platform call —
the state is passed to the routine and its value and state are returned
untouched, inspected by neither branch nor projection. -/
def CEff.libm_tan {R S : Type} (env : EffMathPlatform R S) (x : R) (s : S) :
    R × S :=
  env.tan x s

/-- Effectful reading of shim `libm_acos`: the body is the single platform call —
the state is passed to the routine and its value and state are returned
untouched, inspected by neither branch nor projection. -/
def CEff.libm_acos {R S : Type} (env : EffMathPlatform R S) (x : R) (s : S) :
    R × S :=
  env.acos x s

/-- Effectful reading of shim `libm_asin`: the body is the single platform call —
the state is passed to the routine and its value and state are returned
untouched, inspected by neither branch nor projection. -/
def CEff.libm_asin {R S : Type} (env : EffMathPlatform R S) (x : R) (s : S) :
    R × S :=
  env.asin x s

/-- Effectful reading of shim `libm_atan`: the body is the single platform call —
the state is passed to the routine and its value and state are returned
untouched, inspected by neither branch nor projection. -/
def CEff.libm_atan {R S : Type} (env : EffMathPlatform R S) (x : R) (s : S) :
    R × S :=
  env.atan x s

/-- Effectful reading of shim `libm_cosh`: the body is the single platform call —
the state is passed to the routine and its value and state are returned
untouched, inspected by neither branch nor projection. -/
def CEff.libm_cosh {R S : Type} (env : EffMathPlatform R S) (x : R) (s : S) :
    R × S :=
  env.cosh x s

/-- Effectful reading of shim `libm_sinh`: the body is the single platform call —
the state is passed to the routine and its value and state are returned
untouched, inspected by neither branch nor projection. -/
def CEff.libm_sinh {R S : Type} (env : EffMathPlatform R S) (x : R) (s : S) :
    R × S :=
  env.sinh x s

/-- Effectful reading of shim `libm_tanh`: the body is the single platform call —
the state is passed to the routine and its value and state are returned
untouched, inspected by neither branch nor projection. -/
def CEff.libm_tanh {R S : Type} (env : EffMathPlatform R S) (x : R) (s : S) :
    R × S :=
  env.tanh x s

/-- Effectful reading of shim `libm_acosh`: the body is the single platform call —
the state is passed to the routine and its value and state are returned
untouched, inspected by neither branch nor projection. -/
def CEff.libm_acosh {R S : Type} (env : EffMathPlatform R S) (x : R) (s : S) :
    R × S :=
  env.acosh x s

/-- Effectful reading of shim `libm_asinh`: the body is the single platform call —
the state is passed to the routine and its value and state are returned
untouched, inspected by neither branch nor projection. -/
def CEff.libm_asinh {R S : Type} (env : EffMathPlatform R S) (x : R) (s : S) :
    R × S :=
  env.asinh x s

/-- Effectful reading of shim `libm_atanh`: the body is the single platform call —
the state is passed to the routine and its value and state are returned
untouched, inspected by neither branch nor projection. -/
def CEff.libm_atanh {R S : Type} (env : EffMathPlatform R S) (x : R) (s : S) :
    R × S :=
  env.atanh x s

/-- Effectful reading of shim `libm_exp`: the body is the single platform call —
the state is passed to the routine and its value and state are returned
untouched, inspected by neither branch nor projection. -/
def CEff.libm_exp {R S : Type} (env : EffMathPlatform R S) (x : R) (s : S) :
    R × S :=
  env.exp x s

/-- Effectful reading of shim `libm_expm1`: the body is the single platform call —
the state is passed to the routine and its value and state are returned
untouched, inspected by neither branch nor projection. -/
def CEff.libm_expm1 {R S : Type} (env : EffMathPlatform R S) (x : R) (s : S) :
    R × S :=
  env.expm1 x s

/-- Effectful reading of shim `libm_log`: the body is the single platform call —
the state is passed to the routine and its value and state are returned
untouched, inspected by neither branch nor projection. -/
def CEff.libm_log {R S : Type} (env : EffMathPlatform R S) (x : R) (s : S) :
    R × S :=
  env.log x s

/-- Effectful reading of shim `libm_log1p`: the body is the single platform call —
the state is passed to the routine and its value and state are returned
untouched, inspected by neither branch nor projection. -/
def CEff.libm_log1p {R S : Type} (env : EffMathPlatform R S) (x : R) (s : S) :
    R × S :=
  env.log1p x s

/-- Effectful reading of shim `libm_pow`: the single platform call with both
arguments passed through, the state untouched by the shim itself. -/
def CEff.libm_pow {R S : Type} (env : EffMathPlatform R S) (x y : R) (s : S) :
    R × S :=
  env.pow x y s

/-- Effectful reading of shim `libm_cbrt`: the body is the single platform call —
the state is passed to the routine and its value and state are returned
untouched, inspected by neither branch nor projection. -/
def CEff.libm_cbrt {R S : Type} (env : EffMathPlatform R S) (x : R) (s : S) :
    R × S :=
  env.cbrt x s

/-- Effectful reading of shim `libm_atan2`: the single platform call with both
arguments passed through, the state untouched by the shim itself. -/
def CEff.libm_atan2 {R S : Type} (env : EffMathPlatform R S) (y x : R) (s : S) :
    R × S :=
  env.atan2 y x s

/-- Effectful reading of shim `libm_erf`: the body is the single platform call —
the state is passed to the routine and its value and state are returned
untouched, inspected by neither branch nor projection. -/
def CEff.libm_erf {R S : Type} (env : EffMathPlatform R S) (x : R) (s : S) :
    R × S :=
  env.erf x s

/-- Effectful reading of shim `libm_erfc`: the body is the single platform call —
the state is passed to the routine and its value and state are returned
untouched, inspected by neither branch nor projection. -/
def CEff.libm_erfc {R S : Type} (env : EffMathPlatform R S) (x : R) (s : S) :
    R × S :=
  env.erfc x s

/-- Effectful reading of shim `libm_exp2`: the body is the single platform call —
the state is passed to the routine and its value and state are returned
untouched, inspected by neither branch nor projection. -/
def CEff.libm_exp2 {R S : Type} (env : EffMathPlatform R S) (x : R) (s : S) :
    R × S :=
  env.exp2 x s

/-- Effectful reading of shim `libm_exp10`: the body is the single platform call —
the state is passed to the routine and its value and state are returned
untouched, inspected by neither branch nor projection. -/
def CEff.libm_exp10 {R S : Type} (env : EffMathPlatform R S) (x : R) (s : S) :
    R × S :=
  env.exp10 x s

/-- Effectful reading of shim `libm_hypot`: the single platform call with both
arguments passed through, the state untouched by the shim itself. -/
def CEff.libm_hypot {R S : Type} (env : EffMathPlatform R S) (x y : R) (s : S) :
    R × S :=
  env.hypot x y s

/-- Effectful reading of shim `libm_tgamma`: the body is the single platform call —
the state is passed to the routine and its value and state are returned
untouched, inspected by neither branch nor projection. -/
def CEff.libm_tgamma {R S : Type} (env : EffMathPlatform R S) (x : R) (s : S) :
    R × S :=
  env.tgamma x s

/-- Effectful reading of shim `libm_log2`: the body is the single platform call —
the state is passed to the routine and its value and state are returned
untouched, inspected by neither branch nor projection. -/
def CEff.libm_log2 {R S : Type} (env : EffMathPlatform R S) (x : R) (s : S) :
    R × S :=
  env.log2 x s

/-- Effectful reading of shim `libm_log10`: the body is the single platform call —
the state is passed to the routine and its value and state are returned
untouched, inspected by neither branch nor projection. -/
def CEff.libm_log10 {R S : Type} (env : EffMathPlatform R S) (x : R) (s : S) :
    R × S :=
  env.log10 x s

/-- Effectful reading of shim `libm_lgamma`: the single `lgamma_r` call, its
(value, sign) pair and state returned untouched. -/
def CEff.libm_lgamma {R S : Type} (env : EffMathPlatform R S) (x : R) (s : S) :
    (R × Int) × S :=
  env.lgamma_r x s

/-- Effectful reading of shim `libm_cosl`: the body is the single platform call —
the state is passed to the routine and its value and state are returned
untouched, inspected by neither branch nor projection. -/
def CEff.libm_cosl {R S : Type} (env : EffMathPlatform R S) (x : R) (s : S) :
    R × S :=
  env.cos x s

/-- Effectful reading of shim `libm_sinl`: the body is the single platform call —
the state is passed to the routine and its value and state are returned
untouched, inspected by neither branch nor projection. -/
def CEff.libm_sinl {R S : Type} (env : EffMathPlatform R S) (x : R) (s : S) :
    R × S :=
  env.sin x s

/-- Effectful reading of shim `libm_tanl`: the body is the single platform call —
the state is passed to the routine and its value and state are returned
untouched, inspected by neither branch nor projection. -/
def CEff.libm_tanl {R S : Type} (env : EffMathPlatform R S) (x : R) (s : S) :
    R × S :=
  env.tan x s

/-- Effectful reading of shim `libm_acosl`: the body is the single platform call —
the state is passed to the routine and its value and state are returned
untouched, inspected by neither branch nor projection. -/
def CEff.libm_acosl {R S : Type} (env : EffMathPlatform R S) (x : R) (s : S) :
    R × S :=
  env.acos x s

/-- Effectful reading of shim `libm_asinl`: the body is the single platform call —
the state is passed to the routine and its value and state are returned
untouched, inspected by neither branch nor projection. -/
def CEff.libm_asinl {R S : Type} (env : EffMathPlatform R S) (x : R) (s : S) :
    R × S :=
  env.asin x s

/-- Effectful reading of shim `libm_atanl`: the body is the single platform call —
the state is passed to the routine and its value and state are returned
untouched, inspected by neither branch nor projection. -/
def CEff.libm_atanl {R S : Type} (env : EffMathPlatform R S) (x : R) (s : S) :
    R × S :=
  env.atan x s

/-- Effectful reading of shim `libm_coshl`: the body is the single platform call —
the state is passed to the routine and its value and state are returned
untouched, inspected by neither branch nor projection. -/
def CEff.libm_coshl {R S : Type} (env : EffMathPlatform R S) (x : R) (s : S) :
    R × S :=
  env.cosh x s

/-- Effectful reading of shim `libm_sinhl`: the body is the single platform call —
the state is passed to the routine and its value and state are returned
untouched, inspected by neither branch nor projection. -/
def CEff.libm_sinhl {R S : Type} (env : EffMathPlatform R S) (x : R) (s : S) :
    R × S :=
  env.sinh x s

/-- Effectful reading of shim `libm_tanhl`: the body is the single platform call —
the state is passed to the routine and its value and state are returned
untouched, inspected by neither branch nor projection. -/
def CEff.libm_tanhl {R S : Type} (env : EffMathPlatform R S) (x : R) (s : S) :
    R × S :=
  env.tanh x s

/-- Effectful reading of shim `libm_acoshl`: the body is the single platform call —
the state is passed to the routine and its value and state are returned
untouched, inspected by neither branch nor projection. -/
def CEff.libm_acoshl {R S : Type} (env : EffMathPlatform R S) (x : R) (s : S) :
    R × S :=
  env.acosh x s

/-- Effectful reading of shim `libm_asinhl`: the body is the single platform call —
the state is passed to the routine and its value and state are returned
untouched, inspected by neither branch nor projection. -/
def CEff.libm_asinhl {R S : Type} (env : EffMathPlatform R S) (x : R) (s : S) :
    R × S :=
  env.asinh x s

/-- Effectful reading of shim `libm_atanhl`: the body is the single platform call —
the state is passed to the routine and its value and state are returned
untouched, inspected by neither branch nor projection. -/
def CEff.libm_atanhl {R S : Type} (env : EffMathPlatform R S) (x : R) (s : S) :
    R × S :=
  env.atanh x s

/-- Effectful reading of shim `libm_expl`: the body is the single platform call —
the state is passed to the routine and its value and state are returned
untouched, inspected by neither branch nor projection. -/
def CEff.libm_expl {R S : Type} (env : EffMathPlatform R S) (x : R) (s : S) :
    R × S :=
  env.exp x s

/-- Effectful reading of shim `libm_expm1l`: the body is the single platform call —
the state is passed to the routine and its value and state are returned
untouched, inspected by neither branch nor projection. -/
def CEff.libm_expm1l {R S : Type} (env : EffMathPlatform R S) (x : R) (s : S) :
    R × S :=
  env.expm1 x s

/-- Effectful reading of shim `libm_logl`: the body is the single platform call —
the state is passed to the routine and its value and state are returned
untouched, inspected by neither branch nor projection. -/
def CEff.libm_logl {R S : Type} (env : EffMathPlatform R S) (x : R) (s : S) :
    R × S :=
  env.log x s

/-- Effectful reading of shim `libm_log1pl`: the body is the single platform call —
the state is passed to the routine and its value and state are returned
untouched, inspected by neither branch nor projection. -/
def CEff.libm_log1pl {R S : Type} (env : EffMathPlatform R S) (x : R) (s : S) :
    R × S :=
  env.log1p x s

/-- Effectful reading of shim `libm_powl`: the single platform call with both
arguments passed through, the state untouched by the shim itself. -/
def CEff.libm_powl {R S : Type} (env : EffMathPlatform R S) (x y : R) (s : S) :
    R × S :=
  env.pow x y s

/-- Effectful reading of shim `libm_cbrtl`: the body is the single platform call —
the state is passed to the routine and its value and state are returned
untouched, inspected by neither branch nor projection. -/
def CEff.libm_cbrtl {R S : Type} (env : EffMathPlatform R S) (x : R) (s : S) :
    R × S :=
  env.cbrt x s

/-- Effectful reading of shim `libm_atan2l`: the single platform call with both
arguments passed through, the state untouched by the shim itself. -/
def CEff.libm_atan2l {R S : Type} (env : EffMathPlatform R S) (y x : R) (s : S) :
    R × S :=
  env.atan2 y x s

/-- Effectful reading of shim `libm_erfl`: the body is the single platform call —
the state is passed to the routine and its value and state are returned
untouched, inspected by neither branch nor projection. -/
def CEff.libm_erfl {R S : Type} (env : EffMathPlatform R S) (x : R) (s : S) :
    R × S :=
  env.erf x s

/-- Effectful reading of shim `libm_erfcl`: the body is the single platform call —
the state is passed to the routine and its value and state are returned
untouched, inspected by neither branch nor projection. -/
def CEff.libm_erfcl {R S : Type} (env : EffMathPlatform R S) (x : R) (s : S) :
    R × S :=
  env.erfc x s

/-- Effectful reading of shim `libm_exp2l`: the body is the single platform call —
the state is passed to the routine and its value and state are returned
untouched, inspected by neither branch nor projection. -/
def CEff.libm_exp2l {R S : Type} (env : EffMathPlatform R S) (x : R) (s : S) :
    R × S :=
  env.exp2 x s

/-- Effectful reading of shim `libm_hypotl`: the single platform call with both
arguments passed through, the state untouched by the shim itself. -/
def CEff.libm_hypotl {R S : Type} (env : EffMathPlatform R S) (x y : R) (s : S) :
    R × S :=
  env.hypot x y s

/-- Effectful reading of shim `libm_tgammal`: the body is the single platform call —
the state is passed to the routine and its value and state are returned
untouched, inspected by neither branch nor projection. -/
def CEff.libm_tgammal {R S : Type} (env : EffMathPlatform R S) (x : R) (s : S) :
    R × S :=
  env.tgamma x s

/-- Effectful reading of shim `libm_log2l`: the body is the single platform call —
the state is passed to the routine and its value and state are returned
untouched, inspected by neither branch nor projection. -/
def CEff.libm_log2l {R S : Type} (env : EffMathPlatform R S) (x : R) (s : S) :
    R × S :=
  env.log2 x s

/-- Effectful reading of shim `libm_log10l`: the body is the single platform call —
the state is passed to the routine and its value and state are returned
untouched, inspected by neither branch nor projection. -/
def CEff.libm_log10l {R S : Type} (env : EffMathPlatform R S) (x : R) (s : S) :
    R × S :=
  env.log10 x s

/-- Effectful reading of shim `libm_lgammal`: the single `lgamma_r` call, its
(value, sign) pair and state returned untouched. -/
def CEff.libm_lgammal {R S : Type} (env : EffMathPlatform R S) (x : R) (s : S) :
    (R × Int) × S :=
  env.lgamma_r x s

/-- Effectful reading of shim `swift_cosf`: the body is the single platform call —
the state is passed to the routine and its value and state are returned
untouched, inspected by neither branch nor projection. -/
def CEff.swift_cosf {R S : Type} (env : EffMathPlatform R S) (x : R) (s : S) :
    R × S :=
  env.cos x s

/-- Effectful reading of shim `swift_sinf`: the body is the single platform call —
the state is passed to the routine and its value and state are returned
untouched, inspected by neither branch nor projection. -/
def CEff.swift_sinf {R S : Type} (env : EffMathPlatform R S) (x : R) (s : S) :
    R × S :=
  env.sin x s

/-- Effectful reading of shim `swift_tanf`: the body is the single platform call —
the state is passed to the routine and its value and state are returned
untouched, inspected by neither branch nor projection. -/
def CEff.swift_tanf {R S : Type} (env : EffMathPlatform R S) (x : R) (s : S) :
    R × S :=
  env.tan x s

/-- Effectful reading of shim `swift_acosf`: the body is the single platform call —
the state is passed to the routine and its value and state are returned
untouched, inspected by neither branch nor projection. -/
def CEff.swift_acosf {R S : Type} (env : EffMathPlatform R S) (x : R) (s : S) :
    R × S :=
  env.acos x s

/-- Effectful reading of shim `swift_asinf`: the body is the single platform call —
the state is passed to the routine and its value and state are returned
untouched, inspected by neither branch nor projection. -/
def CEff.swift_asinf {R S : Type} (env : EffMathPlatform R S) (x : R) (s : S) :
    R × S :=
  env.asin x s

/-- Effectful reading of shim `swift_atanf`: the body is the single platform call —
the state is passed to the routine and its value and state are returned
untouched, inspected by neither branch nor projection. -/
def CEff.swift_atanf {R S : Type} (env : EffMathPlatform R S) (x : R) (s : S) :
    R × S :=
  env.atan x s

/-- Effectful reading of shim `swift_coshf`: the body is the single platform call —
the state is passed to the routine and its value and state are returned
untouched, inspected by neither branch nor projection. -/
def CEff.swift_coshf {R S : Type} (env : EffMathPlatform R S) (x : R) (s : S) :
    R × S :=
  env.cosh x s

/-- Effectful reading of shim `swift_sinhf`: the body is the single platform call —
the state is passed to the routine and its value and state are returned
untouched, inspected by neither branch nor projection. -/
def CEff.swift_sinhf {R S : Type} (env : EffMathPlatform R S) (x : R) (s : S) :
    R × S :=
  env.sinh x s

/-- Effectful reading of shim `swift_tanhf`: the body is the single platform call —
the state is passed to the routine and its value and state are returned
untouched, inspected by neither branch nor projection. -/
def CEff.swift_tanhf {R S : Type} (env : EffMathPlatform R S) (x : R) (s : S) :
    R × S :=
  env.tanh x s

/-- Effectful reading of shim `swift_acoshf`: the body is the single platform call —
the state is passed to the routine and its value and state are returned
untouched, inspected by neither branch nor projection. -/
def CEff.swift_acoshf {R S : Type} (env : EffMathPlatform R S) (x : R) (s : S) :
    R × S :=
  env.acosh x s

/-- Effectful reading of shim `swift_asinhf`: the body is the single platform call —
the state is passed to the routine and its value and state are returned
untouched, inspected by neither branch nor projection. -/
def CEff.swift_asinhf {R S : Type} (env : EffMathPlatform R S) (x : R) (s : S) :
    R × S :=
  env.asinh x s

/-- Effectful reading of shim `swift_atanhf`: the body is the single platform call —
the state is passed to the routine and its value and state are returned
untouched, inspected by neither branch nor projection. -/
def CEff.swift_atanhf {R S : Type} (env : EffMathPlatform R S) (x : R) (s : S) :
    R × S :=
  env.atanh x s

/-- Effectful reading of shim `swift_expf`: the body is the single platform call —
the state is passed to the routine and its value and state are returned
untouched, inspected by neither branch nor projection. -/
def CEff.swift_expf {R S : Type} (env : EffMathPlatform R S) (x : R) (s : S) :
    R × S :=
  env.exp x s

/-- Effectful reading of shim `swift_expm1f`: the body is the single platform call —
the state is passed to the routine and its value and state are returned
untouched, inspected by neither branch nor projection. -/
def CEff.swift_expm1f {R S : Type} (env : EffMathPlatform R S) (x : R) (s : S) :
    R × S :=
  env.expm1 x s

/-- Effectful reading of shim `swift_logf`: the body is the single platform call —
the state is passed to the routine and its value and state are returned
untouched, inspected by neither branch nor projection. -/
def CEff.swift_logf {R S : Type} (env : EffMathPlatform R S) (x : R) (s : S) :
    R × S :=
  env.log x s

/-- Effectful reading of shim `swift_log1pf`: the body is the single platform call —
the state is passed to the routine and its value and state are returned
untouched, inspected by neither branch nor projection. -/
def CEff.swift_log1pf {R S : Type} (env : EffMathPlatform R S) (x : R) (s : S) :
    R × S :=
  env.log1p x s

/-- Effectful reading of shim `swift_powf`: the single platform call with both
arguments passed through, the state untouched by the shim itself. -/
def CEff.swift_powf {R S : Type} (env : EffMathPlatform R S) (x y : R) (s : S) :
    R × S :=
  env.pow x y s

/-- Effectful reading of shim `swift_atan2f`: the single platform call with both
arguments passed through, the state untouched by the shim itself. -/
def CEff.swift_atan2f {R S : Type} (env : EffMathPlatform R S) (y x : R) (s : S) :
    R × S :=
  env.atan2 y x s

/-- Effectful reading of shim `swift_erff`: the body is the single platform call —
the state is passed to the routine and its value and state are returned
untouched, inspected by neither branch nor projection. -/
def CEff.swift_erff {R S : Type} (env : EffMathPlatform R S) (x : R) (s : S) :
    R × S :=
  env.erf x s

/-- Effectful reading of shim `swift_erfcf`: the body is the single platform call —
the state is passed to the routine and its value and state are returned
untouched, inspected by neither branch nor projection. -/
def CEff.swift_erfcf {R S : Type} (env : EffMathPlatform R S) (x : R) (s : S) :
    R × S :=
  env.erfc x s

/-- Effectful reading of shim `swift_exp2f`: the body is the single platform call —
the state is passed to the routine and its value and state are returned
untouched, inspected by neither branch nor projection. -/
def CEff.swift_exp2f {R S : Type} (env : EffMathPlatform R S) (x : R) (s : S) :
    R × S :=
  env.exp2 x s

/-- Effectful reading of shim `swift_hypotf`: one platform call selected by the
compile-time `_WIN32` branch, the state untouched by the shim itself. -/
def CEff.swift_hypotf {R S : Type} (t : Target) (env : EffMathPlatform R S)
    (x y : R) (s : S) : R × S :=
  if t.win32 then env.hypot_win x y s else env.hypot x y s

/-- Effectful reading of shim `swift_gammaf`: the body is the single platform call —
the state is passed to the routine and its value and state are returned
untouched, inspected by neither branch nor projection. -/
def CEff.swift_gammaf {R S : Type} (env : EffMathPlatform R S) (x : R) (s : S) :
    R × S :=
  env.tgamma x s

/-- Effectful reading of shim `swift_log2f`: the body is the single platform call —
the state is passed to the routine and its value and state are returned
untouched, inspected by neither branch nor projection. -/
def CEff.swift_log2f {R S : Type} (env : EffMathPlatform R S) (x : R) (s : S) :
    R × S :=
  env.log2 x s

/-- Effectful reading of shim `swift_log10f`: the body is the single platform call —
the state is passed to the routine and its value and state are returned
untouched, inspected by neither branch nor projection. -/
def CEff.swift_log10f {R S : Type} (env : EffMathPlatform R S) (x : R) (s : S) :
    R × S :=
  env.log10 x s

/-- Effectful reading of shim `swift_lgammaf`: the single `lgamma_r` call with the
sign discarded into a local, the routine's state returned untouched. -/
def CEff.swift_lgammaf {R S : Type} (env : EffMathPlatform R S) (x : R) (s : S) :
    R × S :=
  let r := env.lgamma_r x s
  (r.1.1, r.2)

/-- Effectful reading of shim `swift_cos`: the body is the single platform call —
the state is passed to the routine and its value and state are returned
untouched, inspected by neither branch nor projection. -/
def CEff.swift_cos {R S : Type} (env : EffMathPlatform R S) (x : R) (s : S) :
    R × S :=
  env.cos x s

/-- Effectful reading of shim `swift_sin`: the body is the single platform call —
the state is passed to the routine and its value and state are returned
untouched, inspected by neither branch nor projection. -/
def CEff.swift_sin {R S : Type} (env : EffMathPlatform R S) (x : R) (s : S) :
    R × S :=
  env.sin x s

/-- Effectful reading of shim `swift_tan`: the body is the single platform call —
the state is passed to the routine and its value and state are returned
untouched, inspected by neither branch nor projection. -/
def CEff.swift_tan {R S : Type} (env : EffMathPlatform R S) (x : R) (s : S) :
    R × S :=
  env.tan x s

/-- Effectful reading of shim `swift_acos`: the body is the single platform call —
the state is passed to the routine and its value and state are returned
untouched, inspected by neither branch nor projection. -/
def CEff.swift_acos {R S : Type} (env : EffMathPlatform R S) (x : R) (s : S) :
    R × S :=
  env.acos x s

/-- Effectful reading of shim `swift_asin`: the body is the single platform call —
the state is passed to the routine and its value and state are returned
untouched, inspected by neither branch nor projection. -/
def CEff.swift_asin {R S : Type} (env : EffMathPlatform R S) (x : R) (s : S) :
    R × S :=
  env.asin x s

/-- Effectful reading of shim `swift_atan`: the body is the single platform call —
the state is passed to the routine and its value and state are returned
untouched, inspected by neither branch nor projection. -/
def CEff.swift_atan {R S : Type} (env : EffMathPlatform R S) (x : R) (s : S) :
    R × S :=
  env.atan x s

/-- Effectful reading of shim `swift_cosh`: the body is the single platform call —
the state is passed to the routine and its value and state are returned
untouched, inspected by neither branch nor projection. -/
def CEff.swift_cosh {R S : Type} (env : EffMathPlatform R S) (x : R) (s : S) :
    R × S :=
  env.cosh x s

/-- Effectful reading of shim `swift_sinh`: the body is the single platform call —
the state is passed to the routine and its value and state are returned
untouched, inspected by neither branch nor projection. -/
def CEff.swift_sinh {R S : Type} (env : EffMathPlatform R S) (x : R) (s : S) :
    R × S :=
  env.sinh x s

/-- Effectful reading of shim `swift_tanh`: the body is the single platform call —
the state is passed to the routine and its value and state are returned
untouched, inspected by neither branch nor projection. -/
def CEff.swift_tanh {R S : Type} (env : EffMathPlatform R S) (x : R) (s : S) :
    R × S :=
  env.tanh x s

/-- Effectful reading of shim `swift_acosh`: the body is the single platform call —
the state is passed to the routine and its value and state are returned
untouched, inspected by neither branch nor projection. -/
def CEff.swift_acosh {R S : Type} (env : EffMathPlatform R S) (x : R) (s : S) :
    R × S :=
  env.acosh x s

/-- Effectful reading of shim `swift_asinh`: the body is the single platform call —
the state is passed to the routine and its value and state are returned
untouched, inspected by neither branch nor projection. -/
def CEff.swift_asinh {R S : Type} (env : EffMathPlatform R S) (x : R) (s : S) :
    R × S :=
  env.asinh x s

/-- Effectful reading of shim `swift_atanh`: the body is the single platform call —
the state is passed to the routine and its value and state are returned
untouched, inspected by neither branch nor projection. -/
def CEff.swift_atanh {R S : Type} (env : EffMathPlatform R S) (x : R) (s : S) :
    R × S :=
  env.atanh x s

/-- Effectful reading of shim `swift_exp`: the body is the single platform call —
the state is passed to the routine and its value and state are returned
untouched, inspected by neither branch nor projection. -/
def CEff.swift_exp {R S : Type} (env : EffMathPlatform R S) (x : R) (s : S) :
    R × S :=
  env.exp x s

/-- Effectful reading of shim `swift_expm1`: the body is the single platform call —
the state is passed to the routine and its value and state are returned
untouched, inspected by neither branch nor projection. -/
def CEff.swift_expm1 {R S : Type} (env : EffMathPlatform R S) (x : R) (s : S) :
    R × S :=
  env.expm1 x s

/-- Effectful reading of shim `swift_log`: the body is the single platform call —
the state is passed to the routine and its value and state are returned
untouched, inspected by neither branch nor projection. -/
def CEff.swift_log {R S : Type} (env : EffMathPlatform R S) (x : R) (s : S) :
    R × S :=
  env.log x s

/-- Effectful reading of shim `swift_log1p`: the body is the single platform call —
the state is passed to the routine and its value and state are returned
untouched, inspected by neither branch nor projection. -/
def CEff.swift_log1p {R S : Type} (env : EffMathPlatform R S) (x : R) (s : S) :
    R × S :=
  env.log1p x s

/-- Effectful reading of shim `swift_pow`: the single platform call with both
arguments passed through, the state untouched by the shim itself. -/
def CEff.swift_pow {R S : Type} (env : EffMathPlatform R S) (x y : R) (s : S) :
    R × S :=
  env.pow x y s

/-- Effectful reading of shim `swift_atan2`: the single platform call with both
arguments passed through, the state untouched by the shim itself. -/
def CEff.swift_atan2 {R S : Type} (env : EffMathPlatform R S) (y x : R) (s : S) :
    R × S :=
  env.atan2 y x s

/-- Effectful reading of shim `swift_erf`: the body is the single platform call —
the state is passed to the routine and its value and state are returned
untouched, inspected by neither branch nor projection. -/
def CEff.swift_erf {R S : Type} (env : EffMathPlatform R S) (x : R) (s : S) :
    R × S :=
  env.erf x s

/-- Effectful reading of shim `swift_erfc`: the body is the single platform call —
the state is passed to the routine and its value and state are returned
untouched, inspected by neither branch nor projection. -/
def CEff.swift_erfc {R S : Type} (env : EffMathPlatform R S) (x : R) (s : S) :
    R × S :=
  env.erfc x s

/-- Effectful reading of shim `swift_exp2`: the body is the single platform call —
the state is passed to the routine and its value and state are returned
untouched, inspected by neither branch nor projection. -/
def CEff.swift_exp2 {R S : Type} (env : EffMathPlatform R S) (x : R) (s : S) :
    R × S :=
  env.exp2 x s

/-- Effectful reading of shim `swift_hypot`: the single platform call with both
arguments passed through, the state untouched by the shim itself. -/
def CEff.swift_hypot {R S : Type} (env : EffMathPlatform R S) (x y : R) (s : S) :
    R × S :=
  env.hypot x y s

/-- Effectful reading of shim `swift_gamma`: the body is the single platform call —
the state is passed to the routine and its value and state are returned
untouched, inspected by neither branch nor projection. -/
def CEff.swift_gamma {R S : Type} (env : EffMathPlatform R S) (x : R) (s : S) :
    R × S :=
  env.tgamma x s

/-- Effectful reading of shim `swift_log2`: the body is the single platform call —
the state is passed to the routine and its value and state are returned
untouched, inspected by neither branch nor projection. -/
def CEff.swift_log2 {R S : Type} (env : EffMathPlatform R S) (x : R) (s : S) :
    R × S :=
  env.log2 x s

/-- Effectful reading of shim `swift_log10`: the body is the single platform call —
the state is passed to the routine and its value and state are returned
untouched, inspected by neither branch nor projection. -/
def CEff.swift_log10 {R S : Type} (env : EffMathPlatform R S) (x : R) (s : S) :
    R × S :=
  env.log10 x s

/-- Effectful reading of shim `swift_lgamma`: the single `lgamma_r` call with the
sign discarded into a local, the routine's state returned untouched. -/
def CEff.swift_lgamma {R S : Type} (env : EffMathPlatform R S) (x : R) (s : S) :
    R × S :=
  let r := env.lgamma_r x s
  (r.1.1, r.2)

/-- Effectful reading of shim `swift_cosl`: the body is the single platform call —
the state is passed to the routine and its value and state are returned
untouched, inspected by neither branch nor projection. -/
def CEff.swift_cosl {R S : Type} (env : EffMathPlatform R S) (x : R) (s : S) :
    R × S :=
  env.cos x s

/-- Effectful reading of shim `swift_sinl`: the body is the single platform call —
the state is passed to the routine and its value and state are returned
untouched, inspected by neither branch nor projection. -/
def CEff.swift_sinl {R S : Type} (env : EffMathPlatform R S) (x : R) (s : S) :
    R × S :=
  env.sin x s

/-- Effectful reading of shim `swift_tanl`: the body is the single platform call —
the state is passed to the routine and its value and state are returned
untouched, inspected by neither branch nor projection. -/
def CEff.swift_tanl {R S : Type} (env : EffMathPlatform R S) (x : R) (s : S) :
    R × S :=
  env.tan x s

/-- Effectful reading of shim `swift_acosl`: the body is the single platform call —
the state is passed to the routine and its value and state are returned
untouched, inspected by neither branch nor projection. -/
def CEff.swift_acosl {R S : Type} (env : EffMathPlatform R S) (x : R) (s : S) :
    R × S :=
  env.acos x s

/-- Effectful reading of shim `swift_asinl`: the body is the single platform call —
the state is passed to the routine and its value and state are returned
untouched, inspected by neither branch nor projection. -/
def CEff.swift_asinl {R S : Type} (env : EffMathPlatform R S) (x : R) (s : S) :
    R × S :=
  env.asin x s

/-- Effectful reading of shim `swift_atanl`: the body is the single platform call —
the state is passed to the routine and its value and state are returned
untouched, inspected by neither branch nor projection. -/
def CEff.swift_atanl {R S : Type} (env : EffMathPlatform R S) (x : R) (s : S) :
    R × S :=
  env.atan x s

/-- Effectful reading of shim `swift_coshl`: the body is the single platform call —
the state is passed to the routine and its value and state are returned
untouched, inspected by neither branch nor projection. -/
def CEff.swift_coshl {R S : Type} (env : EffMathPlatform R S) (x : R) (s : S) :
    R × S :=
  env.cosh x s

/-- Effectful reading of shim `swift_sinhl`: the body is the single platform call —
the state is passed to the routine and its value and state are returned
untouched, inspected by neither branch nor projection. -/
def CEff.swift_sinhl {R S : Type} (env : EffMathPlatform R S) (x : R) (s : S) :
    R × S :=
  env.sinh x s

/-- Effectful reading of shim `swift_tanhl`: the body is the single platform call —
the state is passed to the routine and its value and state are returned
untouched, inspected by neither branch nor projection. -/
def CEff.swift_tanhl {R S : Type} (env : EffMathPlatform R S) (x : R) (s : S) :
    R × S :=
  env.tanh x s

/-- Effectful reading of shim `swift_acoshl`: the body is the single platform call —
the state is passed to the routine and its value and state are returned
untouched, inspected by neither branch nor projection. -/
def CEff.swift_acoshl {R S : Type} (env : EffMathPlatform R S) (x : R) (s : S) :
    R × S :=
  env.acosh x s

/-- Effectful reading of shim `swift_asinhl`: the body is the single platform call —
the state is passed to the routine and its value and state are returned
untouched, inspected by neither branch nor projection. -/
def CEff.swift_asinhl {R S : Type} (env : EffMathPlatform R S) (x : R) (s : S) :
    R × S :=
  env.asinh x s

/-- Effectful reading of shim `swift_atanhl`: the body is the single platform call —
the state is passed to the routine and its value and state are returned
untouched, inspected by neither branch nor projection. -/
def CEff.swift_atanhl {R S : Type} (env : EffMathPlatform R S) (x : R) (s : S) :
    R × S :=
  env.atanh x s

/-- Effectful reading of shim `swift_expl`: the body is the single platform call —
the state is passed to the routine and its value and state are returned
untouched, inspected by neither branch nor projection. -/
def CEff.swift_expl {R S : Type} (env : EffMathPlatform R S) (x : R) (s : S) :
    R × S :=
  env.exp x s

/-- Effectful reading of shim `swift_expm1l`: the body is the single platform call —
the state is passed to the routine and its value and state are returned
untouched, inspected by neither branch nor projection. -/
def CEff.swift_expm1l {R S : Type} (env : EffMathPlatform R S) (x : R) (s : S) :
    R × S :=
  env.expm1 x s

/-- Effectful reading of shim `swift_logl`: the body is the single platform call —
the state is passed to the routine and its value and state are returned
untouched, inspected by neither branch nor projection. -/
def CEff.swift_logl {R S : Type} (env : EffMathPlatform R S) (x : R) (s : S) :
    R × S :=
  env.log x s

/-- Effectful reading of shim `swift_log1pl`: the body is the single platform call —
the state is passed to the routine and its value and state are returned
untouched, inspected by neither branch nor projection. -/
def CEff.swift_log1pl {R S : Type} (env : EffMathPlatform R S) (x : R) (s : S) :
    R × S :=
  env.log1p x s

/-- Effectful reading of shim `swift_powl`: the single platform call with both
arguments passed through, the state untouched by the shim itself. -/
def CEff.swift_powl {R S : Type} (env : EffMathPlatform R S) (x y : R) (s : S) :
    R × S :=
  env.pow x y s

/-- Effectful reading of shim `swift_atan2l`: the single platform call with both
arguments passed through, the state untouched by the shim itself. -/
def CEff.swift_atan2l {R S : Type} (env : EffMathPlatform R S) (y x : R) (s : S) :
    R × S :=
  env.atan2 y x s

/-- Effectful reading of shim `swift_erfl`: the body is the single platform call —
the state is passed to the routine and its value and state are returned
untouched, inspected by neither branch nor projection. -/
def CEff.swift_erfl {R S : Type} (env : EffMathPlatform R S) (x : R) (s : S) :
    R × S :=
  env.erf x s

/-- Effectful reading of shim `swift_erfcl`: the body is the single platform call —
the state is passed to the routine and its value and state are returned
untouched, inspected by neither branch nor projection. -/
def CEff.swift_erfcl {R S : Type} (env : EffMathPlatform R S) (x : R) (s : S) :
    R × S :=
  env.erfc x s

/-- Effectful reading of shim `swift_exp2l`: the body is the single platform call —
the state is passed to the routine and its value and state are returned
untouched, inspected by neither branch nor projection. -/
def CEff.swift_exp2l {R S : Type} (env : EffMathPlatform R S) (x : R) (s : S) :
    R × S :=
  env.exp2 x s

/-- Effectful reading of shim `swift_hypotl`: the single platform call with both
arguments passed through, the state untouched by the shim itself. -/
def CEff.swift_hypotl {R S : Type} (env : EffMathPlatform R S) (x y : R) (s : S) :
    R × S :=
  env.hypot x y s

/-- Effectful reading of shim `swift_gammal`: the body is the single platform call —
the state is passed to the routine and its value and state are returned
untouched, inspected by neither branch nor projection. -/
def CEff.swift_gammal {R S : Type} (env : EffMathPlatform R S) (x : R) (s : S) :
    R × S :=
  env.tgamma x s

/-- Effectful reading of shim `swift_log2l`: the body is the single platform call —
the state is passed to the routine and its value and state are returned
untouched, inspected by neither branch nor projection. -/
def CEff.swift_log2l {R S : Type} (env : EffMathPlatform R S) (x : R) (s : S) :
    R × S :=
  env.log2 x s

/-- Effectful reading of shim `swift_log10l`: the body is the single platform call —
the state is passed to the routine and its value and state are returned
untouched, inspected by neither branch nor projection. -/
def CEff.swift_log10l {R S : Type} (env : EffMathPlatform R S) (x : R) (s : S) :
    R × S :=
  env.log10 x s

/-- Effectful reading of shim `swift_lgammal`: the single `lgamma_r` call with the
sign discarded into a local, the routine's state returned untouched. -/
def CEff.swift_lgammal {R S : Type} (env : EffMathPlatform R S) (x : R) (s : S) :
    R × S :=
  let r := env.lgamma_r x s
  (r.1.1, r.2)

/-- Effectful reading of wrapper `_cexp`: builds the native complex value,
makes the single platform call with the state, decomposes the value into a
pair and returns the routine's state untouched. -/
def CEff._cexp {R S : Type} (cenv : EffComplexPlatform R S) (z : CxPair R)
    (s : S) : CxPair R × S :=
  let r := cenv.cexp ⟨z.real, z.imag⟩ s
  (⟨r.1.re, r.1.im⟩, r.2)

/-- Effectful reading of wrapper `_clog`: builds the native complex value,
makes the single platform call with the state, decomposes the value into a
pair and returns the routine's state untouched. -/
def CEff._clog {R S : Type} (cenv : EffComplexPlatform R S) (z : CxPair R)
    (s : S) : CxPair R × S :=
  let r := cenv.clog ⟨z.real, z.imag⟩ s
  (⟨r.1.re, r.1.im⟩, r.2)

/-- Effectful reading of wrapper `_cpow`: builds the native complex values,
makes the single platform call with the state, decomposes the value into a
pair and returns the routine's state untouched. -/
def CEff._cpow {R S : Type} (cenv : EffComplexPlatform R S)
    (z w : CxPair R) (s : S) : CxPair R × S :=
  let r := cenv.cpow ⟨z.real, z.imag⟩ ⟨w.real, w.imag⟩ s
  (⟨r.1.re, r.1.im⟩, r.2)

/-- Effectful reading of wrapper `_csqrt`: builds the native complex value,
makes the single platform call with the state, decomposes the value into a
pair and returns the routine's state untouched. -/
def CEff._csqrt {R S : Type} (cenv : EffComplexPlatform R S) (z : CxPair R)
    (s : S) : CxPair R × S :=
  let r := cenv.csqrt ⟨z.real, z.imag⟩ s
  (⟨r.1.re, r.1.im⟩, r.2)

/-- Effectful reading of wrapper `_csin`: builds the native complex value,
makes the single platform call with the state, decomposes the value into a
pair and returns the routine's state untouched. -/
def CEff._csin {R S : Type} (cenv : EffComplexPlatform R S) (z : CxPair R)
    (s : S) : CxPair R × S :=
  let r := cenv.csin ⟨z.real, z.imag⟩ s
  (⟨r.1.re, r.1.im⟩, r.2)

/-- Effectful reading of wrapper `_ccos`: builds the native complex value,
makes the single platform call with the state, decomposes the value into a
pair and returns the routine's state untouched. -/
def CEff._ccos {R S : Type} (cenv : EffComplexPlatform R S) (z : CxPair R)
    (s : S) : CxPair R × S :=
  let r := cenv.ccos ⟨z.real, z.imag⟩ s
  (⟨r.1.re, r.1.im⟩, r.2)

/-- Effectful reading of wrapper `_ctan`: builds the native complex value,
makes the single platform call with the state, decomposes the value into a
pair and returns the routine's state untouched. -/
def CEff._ctan {R S : Type} (cenv : EffComplexPlatform R S) (z : CxPair R)
    (s : S) : CxPair R × S :=
  let r := cenv.ctan ⟨z.real, z.imag⟩ s
  (⟨r.1.re, r.1.im⟩, r.2)

/-- Effectful reading of wrapper `_casin`: builds the native complex value,
makes the single platform call with the state, decomposes the value into a
pair and returns the routine's state untouched. -/
def CEff._casin {R S : Type} (cenv : EffComplexPlatform R S) (z : CxPair R)
    (s : S) : CxPair R × S :=
  let r := cenv.casin ⟨z.real, z.imag⟩ s
  (⟨r.1.re, r.1.im⟩, r.2)

/-- Effectful reading of wrapper `_cacos`: builds the native complex value,
makes the single platform call with the state, decomposes the value into a
pair and returns the routine's state untouched. -/
def CEff._cacos {R S : Type} (cenv : EffComplexPlatform R S) (z : CxPair R)
    (s : S) : CxPair R × S :=
  let r := cenv.cacos ⟨z.real, z.imag⟩ s
  (⟨r.1.re, r.1.im⟩, r.2)

/-- Effectful reading of wrapper `_catan`: builds the native complex value,
makes the single platform call with the state, decomposes the value into a
pair and returns the routine's state untouched. -/
def CEff._catan {R S : Type} (cenv : EffComplexPlatform R S) (z : CxPair R)
    (s : S) : CxPair R × S :=
  let r := cenv.catan ⟨z.real, z.imag⟩ s
  (⟨r.1.re, r.1.im⟩, r.2)

/-- Effectful reading of wrapper `_csinh`: builds the native complex value,
makes the single platform call with the state, decomposes the value into a
pair and returns the routine's state untouched. -/
def CEff._csinh {R S : Type} (cenv : EffComplexPlatform R S) (z : CxPair R)
    (s : S) : CxPair R × S :=
  let r := cenv.csinh ⟨z.real, z.imag⟩ s
  (⟨r.1.re, r.1.im⟩, r.2)

/-- Effectful reading of wrapper `_ccosh`: builds the native complex value,
makes the single platform call with the state, decomposes the value into a
pair and returns the routine's state untouched. -/
def CEff._ccosh {R S : Type} (cenv : EffComplexPlatform R S) (z : CxPair R)
    (s : S) : CxPair R × S :=
  let r := cenv.ccosh ⟨z.real, z.imag⟩ s
  (⟨r.1.re, r.1.im⟩, r.2)

/-- Effectful reading of wrapper `_ctanh`: builds the native complex value,
makes the single platform call with the state, decomposes the value into a
pair and returns the routine's state untouched. -/
def CEff._ctanh {R S : Type} (cenv : EffComplexPlatform R S) (z : CxPair R)
    (s : S) : CxPair R × S :=
  let r := cenv.ctanh ⟨z.real, z.imag⟩ s
  (⟨r.1.re, r.1.im⟩, r.2)

/-- Effectful reading of wrapper `_casinh`: builds the native complex value,
makes the single platform call with the state, decomposes the value into a
pair and returns the routine's state untouched. -/
def CEff._casinh {R S : Type} (cenv : EffComplexPlatform R S) (z : CxPair R)
    (s : S) : CxPair R × S :=
  let r := cenv.casinh ⟨z.real, z.imag⟩ s
  (⟨r.1.re, r.1.im⟩, r.2)

/-- Effectful reading of wrapper `_cacosh`: builds the native complex value,
makes the single platform call with the state, decomposes the value into a
pair and returns the routine's state untouched. -/
def CEff._cacosh {R S : Type} (cenv : EffComplexPlatform R S) (z : CxPair R)
    (s : S) : CxPair R × S :=
  let r := cenv.cacosh ⟨z.real, z.imag⟩ s
  (⟨r.1.re, r.1.im⟩, r.2)

/-- Effectful reading of wrapper `_catanh`: builds the native complex value,
makes the single platform call with the state, decomposes the value into a
pair and returns the routine's state untouched. -/
def CEff._catanh {R S : Type} (cenv : EffComplexPlatform R S) (z : CxPair R)
    (s : S) : CxPair R × S :=
  let r := cenv.catanh ⟨z.real, z.imag⟩ s
  (⟨r.1.re, r.1.im⟩, r.2)

/-- Effectful reading of wrapper `_cexpf`: builds the native complex value,
makes the single platform call with the state, decomposes the value into a
pair and returns the routine's state untouched. -/
def CEff._cexpf {R S : Type} (cenv : EffComplexPlatform R S) (z : CxPair R)
    (s : S) : CxPair R × S :=
  let r := cenv.cexp ⟨z.real, z.imag⟩ s
  (⟨r.1.re, r.1.im⟩, r.2)

/-- Effectful reading of wrapper `_clogf`: builds the native complex value,
makes the single platform call with the state, decomposes the value into a
pair and returns the routine's state untouched. -/
def CEff._clogf {R S : Type} (cenv : EffComplexPlatform R S) (z : CxPair R)
    (s : S) : CxPair R × S :=
  let r := cenv.clog ⟨z.real, z.imag⟩ s
  (⟨r.1.re, r.1.im⟩, r.2)

/-- Effectful reading of wrapper `_cpowf`: builds the native complex values,
makes the single platform call with the state, decomposes the value into a
pair and returns the routine's state untouched. -/
def CEff._cpowf {R S : Type} (cenv : EffComplexPlatform R S)
    (z w : CxPair R) (s : S) : CxPair R × S :=
  let r := cenv.cpow ⟨z.real, z.imag⟩ ⟨w.real, w.imag⟩ s
  (⟨r.1.re, r.1.im⟩, r.2)

/-- Effectful reading of wrapper `_csqrtf`: builds the native complex value,
makes the single platform call with the state, decomposes the value into a
pair and returns the routine's state untouched. -/
def CEff._csqrtf {R S : Type} (cenv : EffComplexPlatform R S) (z : CxPair R)
    (s : S) : CxPair R × S :=
  let r := cenv.csqrt ⟨z.real, z.imag⟩ s
  (⟨r.1.re, r.1.im⟩, r.2)

/-- Effectful reading of wrapper `_csinf`: builds the native complex value,
makes the single platform call with the state, decomposes the value into a
pair and returns the routine's state untouched. -/
def CEff._csinf {R S : Type} (cenv : EffComplexPlatform R S) (z : CxPair R)
    (s : S) : CxPair R × S :=
  let r := cenv.csin ⟨z.real, z.imag⟩ s
  (⟨r.1.re, r.1.im⟩, r.2)

/-- Effectful reading of wrapper `_ccosf`: builds the native complex value,
makes the single platform call with the state, decomposes the value into a
pair and returns the routine's state untouched. -/
def CEff._ccosf {R S : Type} (cenv : EffComplexPlatform R S) (z : CxPair R)
    (s : S) : CxPair R × S :=
  let r := cenv.ccos ⟨z.real, z.imag⟩ s
  (⟨r.1.re, r.1.im⟩, r.2)

/-- Effectful reading of wrapper `_ctanf`: builds the native complex value,
makes the single platform call with the state, decomposes the value into a
pair and returns the routine's state untouched. -/
def CEff._ctanf {R S : Type} (cenv : EffComplexPlatform R S) (z : CxPair R)
    (s : S) : CxPair R × S :=
  let r := cenv.ctan ⟨z.real, z.imag⟩ s
  (⟨r.1.re, r.1.im⟩, r.2)

/-- Effectful reading of wrapper `_casinf`: builds the native complex value,
makes the single platform call with the state, decomposes the value into a
pair and returns the routine's state untouched. -/
def CEff._casinf {R S : Type} (cenv : EffComplexPlatform R S) (z : CxPair R)
    (s : S) : CxPair R × S :=
  let r := cenv.casin ⟨z.real, z.imag⟩ s
  (⟨r.1.re, r.1.im⟩, r.2)

/-- Effectful reading of wrapper `_cacosf`: builds the native complex value,
makes the single platform call with the state, decomposes the value into a
pair and returns the routine's state untouched. -/
def CEff._cacosf {R S : Type} (cenv : EffComplexPlatform R S) (z : CxPair R)
    (s : S) : CxPair R × S :=
  let r := cenv.cacos ⟨z.real, z.imag⟩ s
  (⟨r.1.re, r.1.im⟩, r.2)

/-- Effectful reading of wrapper `_catanf`: builds the native complex value,
makes the single platform call with the state, decomposes the value into a
pair and returns the routine's state untouched. -/
def CEff._catanf {R S : Type} (cenv : EffComplexPlatform R S) (z : CxPair R)
    (s : S) : CxPair R × S :=
  let r := cenv.catan ⟨z.real, z.imag⟩ s
  (⟨r.1.re, r.1.im⟩, r.2)

/-- Effectful reading of wrapper `_csinhf`: builds the native complex value,
makes the single platform call with the state, decomposes the value into a
pair and returns the routine's state untouched. -/
def CEff._csinhf {R S : Type} (cenv : EffComplexPlatform R S) (z : CxPair R)
    (s : S) : CxPair R × S :=
  let r := cenv.csinh ⟨z.real, z.imag⟩ s
  (⟨r.1.re, r.1.im⟩, r.2)

/-- Effectful reading of wrapper `_ccoshf`: builds the native complex value,
makes the single platform call with the state, decomposes the value into a
pair and returns the routine's state untouched. -/
def CEff._ccoshf {R S : Type} (cenv : EffComplexPlatform R S) (z : CxPair R)
    (s : S) : CxPair R × S :=
  let r := cenv.ccosh ⟨z.real, z.imag⟩ s
  (⟨r.1.re, r.1.im⟩, r.2)

/-- Effectful reading of wrapper `_ctanhf`: builds the native complex value,
makes the single platform call with the state, decomposes the value into a
pair and returns the routine's state untouched. -/
def CEff._ctanhf {R S : Type} (cenv : EffComplexPlatform R S) (z : CxPair R)
    (s : S) : CxPair R × S :=
  let r := cenv.ctanh ⟨z.real, z.imag⟩ s
  (⟨r.1.re, r.1.im⟩, r.2)

/-- Effectful reading of wrapper `_casinhf`: builds the native complex value,
makes the single platform call with the state, decomposes the value into a
pair and returns the routine's state untouched. -/
def CEff._casinhf {R S : Type} (cenv : EffComplexPlatform R S) (z : CxPair R)
    (s : S) : CxPair R × S :=
  let r := cenv.casinh ⟨z.real, z.imag⟩ s
  (⟨r.1.re, r.1.im⟩, r.2)

/-- Effectful reading of wrapper `_cacoshf`: builds the native complex value,
makes the single platform call with the state, decomposes the value into a
pair and returns the routine's state untouched. -/
def CEff._cacoshf {R S : Type} (cenv : EffComplexPlatform R S) (z : CxPair R)
    (s : S) : CxPair R × S :=
  let r := cenv.cacosh ⟨z.real, z.imag⟩ s
  (⟨r.1.re, r.1.im⟩, r.2)

/-- Effectful reading of wrapper `_catanhf`: builds the native complex value,
makes the single platform call with the state, decomposes the value into a
pair and returns the routine's state untouched. -/
def CEff._catanhf {R S : Type} (cenv : EffComplexPlatform R S) (z : CxPair R)
    (s : S) : CxPair R × S :=
  let r := cenv.catanh ⟨z.real, z.imag⟩ s
  (⟨r.1.re, r.1.im⟩, r.2)

/-- Effectful reading of shim `_numerics_muladdf`: plain arithmetic with no platform
call at all, so the state passes through untouched. -/
def CEff._numerics_muladdf {R S : Type} [Mul R] [Add R] (a b c : R) (s : S) :
    R × S :=
  (a * b + c, s)

/-- Effectful reading of shim `_numerics_muladd`: plain arithmetic with no platform
call at all, so the state passes through untouched. -/
def CEff._numerics_muladd {R S : Type} [Mul R] [Add R] (a b c : R) (s : S) :
    R × S :=
  (a * b + c, s)

/-- A concrete effectful math platform over `ℚ` with state `Int`, used only
to discharge the hypotheses of conditional theorems at a concrete input. -/
def toyEffM : EffMathPlatform ℚ Int where
  cos := fun x s => (x, s)
  sin := fun x s => (x, s)
  tan := fun x s => (x, s)
  acos := fun x s => (x, s)
  asin := fun x s => (x, s)
  atan := fun x s => (x, s)
  cosh := fun x s => (x, s)
  sinh := fun x s => (x, s)
  tanh := fun x s => (x, s)
  acosh := fun x s => (x, s)
  asinh := fun x s => (x, s)
  atanh := fun x s => (x, s)
  exp := fun x s => (x, s)
  expm1 := fun x s => (x, s)
  log := fun x s => (x, s)
  log1p := fun x s => (x, s)
  cbrt := fun x s => (x, s)
  erf := fun x s => (x, s)
  erfc := fun x s => (x, s)
  exp2 := fun x s => (x, s)
  exp10 := fun x s => (x, s)
  tgamma := fun x s => (x, s)
  log2 := fun x s => (x, s)
  log10 := fun x s => (x, s)
  pow := fun x _ s => (x, s)
  atan2 := fun x _ s => (x, s)
  hypot := fun x _ s => (x, s)
  hypot_win := fun x _ s => (x, s)
  lgamma_r := fun x s => ((x, 1), s)

/-- A concrete effectful complex platform over `ℚ` with state `Int`, used
only to discharge the hypotheses of conditional theorems at a concrete
input. -/
def toyEffC : EffComplexPlatform ℚ Int where
  cexp := fun z s => (z, s)
  clog := fun z s => (z, s)
  cpow := fun z _ s => (z, s)
  csqrt := fun z s => (z, s)
  csin := fun z s => (z, s)
  ccos := fun z s => (z, s)
  ctan := fun z s => (z, s)
  casin := fun z s => (z, s)
  cacos := fun z s => (z, s)
  catan := fun z s => (z, s)
  csinh := fun z s => (z, s)
  ccosh := fun z s => (z, s)
  ctanh := fun z s => (z, s)
  casinh := fun z s => (z, s)
  cacosh := fun z s => (z, s)
  catanh := fun z s => (z, s)


/-- C1: every forwarding function — the real-scalar `libm_*` and `swift_*`
shims of each precision and the complex wrappers — returns exactly the value
of the platform routine it delegates to, applied to the same arguments; each
complex wrapper returns exactly the real and imaginary parts of the native
complex routine's result on the native value built from its argument pair.
Exactness (zero ULP) is equality of the delegated call's result, which is
what each conjunct states. -/
theorem spec_C1 {R : Type} (env : MathPlatform R) (cenv : ComplexPlatform R) :
    (∀ x, libm_cosf env x = env.cos x) ∧
    (∀ x, libm_sinf env x = env.sin x) ∧
    (∀ x, libm_tanf env x = env.tan x) ∧
    (∀ x, libm_acosf env x = env.acos x) ∧
    (∀ x, libm_asinf env x = env.asin x) ∧
    (∀ x, libm_atanf env x = env.atan x) ∧
    (∀ x, libm_coshf env x = env.cosh x) ∧
    (∀ x, libm_sinhf env x = env.sinh x) ∧
    (∀ x, libm_tanhf env x = env.tanh x) ∧
    (∀ x, libm_acoshf env x = env.acosh x) ∧
    (∀ x, libm_asinhf env x = env.asinh x) ∧
    (∀ x, libm_atanhf env x = env.atanh x) ∧
    (∀ x, libm_expf env x = env.exp x) ∧
    (∀ x, libm_expm1f env x = env.expm1 x) ∧
    (∀ x, libm_logf env x = env.log x) ∧
    (∀ x, libm_log1pf env x = env.log1p x) ∧
    (∀ x y, libm_powf env x y = env.pow x y) ∧
    (∀ x, libm_cbrtf env x = env.cbrt x) ∧
    (∀ y x, libm_atan2f env y x = env.atan2 y x) ∧
    (∀ x, libm_erff env x = env.erf x) ∧
    (∀ x, libm_erfcf env x = env.erfc x) ∧
    (∀ x, libm_exp2f env x = env.exp2 x) ∧
    (∀ x, libm_exp10f env x = env.exp10 x) ∧
    (∀ t x y, libm_hypotf t env x y = if t.win32 then env.hypot_win x y else env.hypot x y) ∧
    (∀ x, libm_tgammaf env x = env.tgamma x) ∧
    (∀ x, libm_log2f env x = env.log2 x) ∧
    (∀ x, libm_log10f env x = env.log10 x) ∧
    (∀ x, libm_lgammaf env x = env.lgamma_r x) ∧
    (∀ x, libm_cos env x = env.cos x) ∧
    (∀ x, libm_sin env x = env.sin x) ∧
    (∀ x, libm_tan env x = env.tan x) ∧
    (∀ x, libm_acos env x = env.acos x) ∧
    (∀ x, libm_asin env x = env.asin x) ∧
    (∀ x, libm_atan env x = env.atan x) ∧
    (∀ x, libm_cosh env x = env.cosh x) ∧
    (∀ x, libm_sinh env x = env.sinh x) ∧
    (∀ x, libm_tanh env x = env.tanh x) ∧
    (∀ x, libm_acosh env x = env.acosh x) ∧
    (∀ x, libm_asinh env x = env.asinh x) ∧
    (∀ x, libm_atanh env x = env.atanh x) ∧
    (∀ x, libm_exp env x = env.exp x) ∧
    (∀ x, libm_expm1 env x = env.expm1 x) ∧
    (∀ x, libm_log env x = env.log x) ∧
    (∀ x, libm_log1p env x = env.log1p x) ∧
    (∀ x y, libm_pow env x y = env.pow x y) ∧
    (∀ x, libm_cbrt env x = env.cbrt x) ∧
    (∀ y x, libm_atan2 env y x = env.atan2 y x) ∧
    (∀ x, libm_erf env x = env.erf x) ∧
    (∀ x, libm_erfc env x = env.erfc x) ∧
    (∀ x, libm_exp2 env x = env.exp2 x) ∧
    (∀ x, libm_exp10 env x = env.exp10 x) ∧
    (∀ x y, libm_hypot env x y = env.hypot x y) ∧
    (∀ x, libm_tgamma env x = env.tgamma x) ∧
    (∀ x, libm_log2 env x = env.log2 x) ∧
    (∀ x, libm_log10 env x = env.log10 x) ∧
    (∀ x, libm_lgamma env x = env.lgamma_r x) ∧
    (∀ x, libm_cosl env x = env.cos x) ∧
    (∀ x, libm_sinl env x = env.sin x) ∧
    (∀ x, libm_tanl env x = env.tan x) ∧
    (∀ x, libm_acosl env x = env.acos x) ∧
    (∀ x, libm_asinl env x = env.asin x) ∧
    (∀ x, libm_atanl env x = env.atan x) ∧
    (∀ x, libm_coshl env x = env.cosh x) ∧
    (∀ x, libm_sinhl env x = env.sinh x) ∧
    (∀ x, libm_tanhl env x = env.tanh x) ∧
    (∀ x, libm_acoshl env x = env.acosh x) ∧
    (∀ x, libm_asinhl env x = env.asinh x) ∧
    (∀ x, libm_atanhl env x = env.atanh x) ∧
    (∀ x, libm_expl env x = env.exp x) ∧
    (∀ x, libm_expm1l env x = env.expm1 x) ∧
    (∀ x, libm_logl env x = env.log x) ∧
    (∀ x, libm_log1pl env x = env.log1p x) ∧
    (∀ x y, libm_powl env x y = env.pow x y) ∧
    (∀ x, libm_cbrtl env x = env.cbrt x) ∧
    (∀ y x, libm_atan2l env y x = env.atan2 y x) ∧
    (∀ x, libm_erfl env x = env.erf x) ∧
    (∀ x, libm_erfcl env x = env.erfc x) ∧
    (∀ x, libm_exp2l env x = env.exp2 x) ∧
    (∀ x y, libm_hypotl env x y = env.hypot x y) ∧
    (∀ x, libm_tgammal env x = env.tgamma x) ∧
    (∀ x, libm_log2l env x = env.log2 x) ∧
    (∀ x, libm_log10l env x = env.log10 x) ∧
    (∀ x, libm_lgammal env x = env.lgamma_r x) ∧
    (∀ x, swift_cosf env x = env.cos x) ∧
    (∀ x, swift_sinf env x = env.sin x) ∧
    (∀ x, swift_tanf env x = env.tan x) ∧
    (∀ x, swift_acosf env x = env.acos x) ∧
    (∀ x, swift_asinf env x = env.asin x) ∧
    (∀ x, swift_atanf env x = env.atan x) ∧
    (∀ x, swift_coshf env x = env.cosh x) ∧
    (∀ x, swift_sinhf env x = env.sinh x) ∧
    (∀ x, swift_tanhf env x = env.tanh x) ∧
    (∀ x, swift_acoshf env x = env.acosh x) ∧
    (∀ x, swift_asinhf env x = env.asinh x) ∧
    (∀ x, swift_atanhf env x = env.atanh x) ∧
    (∀ x, swift_expf env x = env.exp x) ∧
    (∀ x, swift_expm1f env x = env.expm1 x) ∧
    (∀ x, swift_logf env x = env.log x) ∧
    (∀ x, swift_log1pf env x = env.log1p x) ∧
    (∀ x y, swift_powf env x y = env.pow x y) ∧
    (∀ y x, swift_atan2f env y x = env.atan2 y x) ∧
    (∀ x, swift_erff env x = env.erf x) ∧
    (∀ x, swift_erfcf env x = env.erfc x) ∧
    (∀ x, swift_exp2f env x = env.exp2 x) ∧
    (∀ t x y, swift_hypotf t env x y = if t.win32 then env.hypot_win x y else env.hypot x y) ∧
    (∀ x, swift_gammaf env x = env.tgamma x) ∧
    (∀ x, swift_log2f env x = env.log2 x) ∧
    (∀ x, swift_log10f env x = env.log10 x) ∧
    (∀ x, swift_lgammaf env x = (env.lgamma_r x).1) ∧
    (∀ x, swift_cos env x = env.cos x) ∧
    (∀ x, swift_sin env x = env.sin x) ∧
    (∀ x, swift_tan env x = env.tan x) ∧
    (∀ x, swift_acos env x = env.acos x) ∧
    (∀ x, swift_asin env x = env.asin x) ∧
    (∀ x, swift_atan env x = env.atan x) ∧
    (∀ x, swift_cosh env x = env.cosh x) ∧
    (∀ x, swift_sinh env x = env.sinh x) ∧
    (∀ x, swift_tanh env x = env.tanh x) ∧
    (∀ x, swift_acosh env x = env.acosh x) ∧
    (∀ x, swift_asinh env x = env.asinh x) ∧
    (∀ x, swift_atanh env x = env.atanh x) ∧
    (∀ x, swift_exp env x = env.exp x) ∧
    (∀ x, swift_expm1 env x = env.expm1 x) ∧
    (∀ x, swift_log env x = env.log x) ∧
    (∀ x, swift_log1p env x = env.log1p x) ∧
    (∀ x y, swift_pow env x y = env.pow x y) ∧
    (∀ y x, swift_atan2 env y x = env.atan2 y x) ∧
    (∀ x, swift_erf env x = env.erf x) ∧
    (∀ x, swift_erfc env x = env.erfc x) ∧
    (∀ x, swift_exp2 env x = env.exp2 x) ∧
    (∀ x y, swift_hypot env x y = env.hypot x y) ∧
    (∀ x, swift_gamma env x = env.tgamma x) ∧
    (∀ x, swift_log2 env x = env.log2 x) ∧
    (∀ x, swift_log10 env x = env.log10 x) ∧
    (∀ x, swift_lgamma env x = (env.lgamma_r x).1) ∧
    (∀ x, swift_cosl env x = env.cos x) ∧
    (∀ x, swift_sinl env x = env.sin x) ∧
    (∀ x, swift_tanl env x = env.tan x) ∧
    (∀ x, swift_acosl env x = env.acos x) ∧
    (∀ x, swift_asinl env x = env.asin x) ∧
    (∀ x, swift_atanl env x = env.atan x) ∧
    (∀ x, swift_coshl env x = env.cosh x) ∧
    (∀ x, swift_sinhl env x = env.sinh x) ∧
    (∀ x, swift_tanhl env x = env.tanh x) ∧
    (∀ x, swift_acoshl env x = env.acosh x) ∧
    (∀ x, swift_asinhl env x = env.asinh x) ∧
    (∀ x, swift_atanhl env x = env.atanh x) ∧
    (∀ x, swift_expl env x = env.exp x) ∧
    (∀ x, swift_expm1l env x = env.expm1 x) ∧
    (∀ x, swift_logl env x = env.log x) ∧
    (∀ x, swift_log1pl env x = env.log1p x) ∧
    (∀ x y, swift_powl env x y = env.pow x y) ∧
    (∀ y x, swift_atan2l env y x = env.atan2 y x) ∧
    (∀ x, swift_erfl env x = env.erf x) ∧
    (∀ x, swift_erfcl env x = env.erfc x) ∧
    (∀ x, swift_exp2l env x = env.exp2 x) ∧
    (∀ x y, swift_hypotl env x y = env.hypot x y) ∧
    (∀ x, swift_gammal env x = env.tgamma x) ∧
    (∀ x, swift_log2l env x = env.log2 x) ∧
    (∀ x, swift_log10l env x = env.log10 x) ∧
    (∀ x, swift_lgammal env x = (env.lgamma_r x).1) ∧
    (∀ z, _cexp cenv z = ⟨(cenv.cexp ⟨z.real, z.imag⟩).re, (cenv.cexp ⟨z.real, z.imag⟩).im⟩) ∧
    (∀ z, _clog cenv z = ⟨(cenv.clog ⟨z.real, z.imag⟩).re, (cenv.clog ⟨z.real, z.imag⟩).im⟩) ∧
    (∀ z w, _cpow cenv z w = ⟨(cenv.cpow ⟨z.real, z.imag⟩ ⟨w.real, w.imag⟩).re, (cenv.cpow ⟨z.real, z.imag⟩ ⟨w.real, w.imag⟩).im⟩) ∧
    (∀ z, _csqrt cenv z = ⟨(cenv.csqrt ⟨z.real, z.imag⟩).re, (cenv.csqrt ⟨z.real, z.imag⟩).im⟩) ∧
    (∀ z, _csin cenv z = ⟨(cenv.csin ⟨z.real, z.imag⟩).re, (cenv.csin ⟨z.real, z.imag⟩).im⟩) ∧
    (∀ z, _ccos cenv z = ⟨(cenv.ccos ⟨z.real, z.imag⟩).re, (cenv.ccos ⟨z.real, z.imag⟩).im⟩) ∧
    (∀ z, _ctan cenv z = ⟨(cenv.ctan ⟨z.real, z.imag⟩).re, (cenv.ctan ⟨z.real, z.imag⟩).im⟩) ∧
    (∀ z, _casin cenv z = ⟨(cenv.casin ⟨z.real, z.imag⟩).re, (cenv.casin ⟨z.real, z.imag⟩).im⟩) ∧
    (∀ z, _cacos cenv z = ⟨(cenv.cacos ⟨z.real, z.imag⟩).re, (cenv.cacos ⟨z.real, z.imag⟩).im⟩) ∧
    (∀ z, _catan cenv z = ⟨(cenv.catan ⟨z.real, z.imag⟩).re, (cenv.catan ⟨z.real, z.imag⟩).im⟩) ∧
    (∀ z, _csinh cenv z = ⟨(cenv.csinh ⟨z.real, z.imag⟩).re, (cenv.csinh ⟨z.real, z.imag⟩).im⟩) ∧
    (∀ z, _ccosh cenv z = ⟨(cenv.ccosh ⟨z.real, z.imag⟩).re, (cenv.ccosh ⟨z.real, z.imag⟩).im⟩) ∧
    (∀ z, _ctanh cenv z = ⟨(cenv.ctanh ⟨z.real, z.imag⟩).re, (cenv.ctanh ⟨z.real, z.imag⟩).im⟩) ∧
    (∀ z, _casinh cenv z = ⟨(cenv.casinh ⟨z.real, z.imag⟩).re, (cenv.casinh ⟨z.real, z.imag⟩).im⟩) ∧
    (∀ z, _cacosh cenv z = ⟨(cenv.cacosh ⟨z.real, z.imag⟩).re, (cenv.cacosh ⟨z.real, z.imag⟩).im⟩) ∧
    (∀ z, _catanh cenv z = ⟨(cenv.catanh ⟨z.real, z.imag⟩).re, (cenv.catanh ⟨z.real, z.imag⟩).im⟩) ∧
    (∀ z, _cexpf cenv z = ⟨(cenv.cexp ⟨z.real, z.imag⟩).re, (cenv.cexp ⟨z.real, z.imag⟩).im⟩) ∧
    (∀ z, _clogf cenv z = ⟨(cenv.clog ⟨z.real, z.imag⟩).re, (cenv.clog ⟨z.real, z.imag⟩).im⟩) ∧
    (∀ z w, _cpowf cenv z w = ⟨(cenv.cpow ⟨z.real, z.imag⟩ ⟨w.real, w.imag⟩).re, (cenv.cpow ⟨z.real, z.imag⟩ ⟨w.real, w.imag⟩).im⟩) ∧
    (∀ z, _csqrtf cenv z = ⟨(cenv.csqrt ⟨z.real, z.imag⟩).re, (cenv.csqrt ⟨z.real, z.imag⟩).im⟩) ∧
    (∀ z, _csinf cenv z = ⟨(cenv.csin ⟨z.real, z.imag⟩).re, (cenv.csin ⟨z.real, z.imag⟩).im⟩) ∧
    (∀ z, _ccosf cenv z = ⟨(cenv.ccos ⟨z.real, z.imag⟩).re, (cenv.ccos ⟨z.real, z.imag⟩).im⟩) ∧
    (∀ z, _ctanf cenv z = ⟨(cenv.ctan ⟨z.real, z.imag⟩).re, (cenv.ctan ⟨z.real, z.imag⟩).im⟩) ∧
    (∀ z, _casinf cenv z = ⟨(cenv.casin ⟨z.real, z.imag⟩).re, (cenv.casin ⟨z.real, z.imag⟩).im⟩) ∧
    (∀ z, _cacosf cenv z = ⟨(cenv.cacos ⟨z.real, z.imag⟩).re, (cenv.cacos ⟨z.real, z.imag⟩).im⟩) ∧
    (∀ z, _catanf cenv z = ⟨(cenv.catan ⟨z.real, z.imag⟩).re, (cenv.catan ⟨z.real, z.imag⟩).im⟩) ∧
    (∀ z, _csinhf cenv z = ⟨(cenv.csinh ⟨z.real, z.imag⟩).re, (cenv.csinh ⟨z.real, z.imag⟩).im⟩) ∧
    (∀ z, _ccoshf cenv z = ⟨(cenv.ccosh ⟨z.real, z.imag⟩).re, (cenv.ccosh ⟨z.real, z.imag⟩).im⟩) ∧
    (∀ z, _ctanhf cenv z = ⟨(cenv.ctanh ⟨z.real, z.imag⟩).re, (cenv.ctanh ⟨z.real, z.imag⟩).im⟩) ∧
    (∀ z, _casinhf cenv z = ⟨(cenv.casinh ⟨z.real, z.imag⟩).re, (cenv.casinh ⟨z.real, z.imag⟩).im⟩) ∧
    (∀ z, _cacoshf cenv z = ⟨(cenv.cacosh ⟨z.real, z.imag⟩).re, (cenv.cacosh ⟨z.real, z.imag⟩).im⟩) ∧
    (∀ z, _catanhf cenv z = ⟨(cenv.catanh ⟨z.real, z.imag⟩).re, (cenv.catanh ⟨z.real, z.imag⟩).im⟩) := by
  repeat' apply And.intro
  all_goals intros
  all_goals rfl

/-- C9: the two math-shim headers are extensionally equivalent — for every
operation defined in both and every precision, `swift_X` agrees with `libm_X`
on every input (both delegate to the same platform routine); in particular
`swift_lgamma*` equals the magnitude component of `libm_lgamma*` with the
sign output discarded. -/
theorem spec_C9 {R : Type} (env : MathPlatform R) :
    (∀ x, swift_cosf env x = libm_cosf env x) ∧
    (∀ x, swift_sinf env x = libm_sinf env x) ∧
    (∀ x, swift_tanf env x = libm_tanf env x) ∧
    (∀ x, swift_acosf env x = libm_acosf env x) ∧
    (∀ x, swift_asinf env x = libm_asinf env x) ∧
    (∀ x, swift_atanf env x = libm_atanf env x) ∧
    (∀ x, swift_coshf env x = libm_coshf env x) ∧
    (∀ x, swift_sinhf env x = libm_sinhf env x) ∧
    (∀ x, swift_tanhf env x = libm_tanhf env x) ∧
    (∀ x, swift_acoshf env x = libm_acoshf env x) ∧
    (∀ x, swift_asinhf env x = libm_asinhf env x) ∧
    (∀ x, swift_atanhf env x = libm_atanhf env x) ∧
    (∀ x, swift_expf env x = libm_expf env x) ∧
    (∀ x, swift_expm1f env x = libm_expm1f env x) ∧
    (∀ x, swift_logf env x = libm_logf env x) ∧
    (∀ x, swift_log1pf env x = libm_log1pf env x) ∧
    (∀ x y, swift_powf env x y = libm_powf env x y) ∧
    (∀ y x, swift_atan2f env y x = libm_atan2f env y x) ∧
    (∀ x, swift_erff env x = libm_erff env x) ∧
    (∀ x, swift_erfcf env x = libm_erfcf env x) ∧
    (∀ x, swift_exp2f env x = libm_exp2f env x) ∧
    (∀ t x y, swift_hypotf t env x y = libm_hypotf t env x y) ∧
    (∀ x, swift_gammaf env x = libm_tgammaf env x) ∧
    (∀ x, swift_log2f env x = libm_log2f env x) ∧
    (∀ x, swift_log10f env x = libm_log10f env x) ∧
    (∀ x, swift_lgammaf env x = (libm_lgammaf env x).1) ∧
    (∀ x, swift_cos env x = libm_cos env x) ∧
    (∀ x, swift_sin env x = libm_sin env x) ∧
    (∀ x, swift_tan env x = libm_tan env x) ∧
    (∀ x, swift_acos env x = libm_acos env x) ∧
    (∀ x, swift_asin env x = libm_asin env x) ∧
    (∀ x, swift_atan env x = libm_atan env x) ∧
    (∀ x, swift_cosh env x = libm_cosh env x) ∧
    (∀ x, swift_sinh env x = libm_sinh env x) ∧
    (∀ x, swift_tanh env x = libm_tanh env x) ∧
    (∀ x, swift_acosh env x = libm_acosh env x) ∧
    (∀ x, swift_asinh env x = libm_asinh env x) ∧
    (∀ x, swift_atanh env x = libm_atanh env x) ∧
    (∀ x, swift_exp env x = libm_exp env x) ∧
    (∀ x, swift_expm1 env x = libm_expm1 env x) ∧
    (∀ x, swift_log env x = libm_log env x) ∧
    (∀ x, swift_log1p env x = libm_log1p env x) ∧
    (∀ x y, swift_pow env x y = libm_pow env x y) ∧
    (∀ y x, swift_atan2 env y x = libm_atan2 env y x) ∧
    (∀ x, swift_erf env x = libm_erf env x) ∧
    (∀ x, swift_erfc env x = libm_erfc env x) ∧
    (∀ x, swift_exp2 env x = libm_exp2 env x) ∧
    (∀ x y, swift_hypot env x y = libm_hypot env x y) ∧
    (∀ x, swift_gamma env x = libm_tgamma env x) ∧
    (∀ x, swift_log2 env x = libm_log2 env x) ∧
    (∀ x, swift_log10 env x = libm_log10 env x) ∧
    (∀ x, swift_lgamma env x = (libm_lgamma env x).1) ∧
    (∀ x, swift_cosl env x = libm_cosl env x) ∧
    (∀ x, swift_sinl env x = libm_sinl env x) ∧
    (∀ x, swift_tanl env x = libm_tanl env x) ∧
    (∀ x, swift_acosl env x = libm_acosl env x) ∧
    (∀ x, swift_asinl env x = libm_asinl env x) ∧
    (∀ x, swift_atanl env x = libm_atanl env x) ∧
    (∀ x, swift_coshl env x = libm_coshl env x) ∧
    (∀ x, swift_sinhl env x = libm_sinhl env x) ∧
    (∀ x, swift_tanhl env x = libm_tanhl env x) ∧
    (∀ x, swift_acoshl env x = libm_acoshl env x) ∧
    (∀ x, swift_asinhl env x = libm_asinhl env x) ∧
    (∀ x, swift_atanhl env x = libm_atanhl env x) ∧
    (∀ x, swift_expl env x = libm_expl env x) ∧
    (∀ x, swift_expm1l env x = libm_expm1l env x) ∧
    (∀ x, swift_logl env x = libm_logl env x) ∧
    (∀ x, swift_log1pl env x = libm_log1pl env x) ∧
    (∀ x y, swift_powl env x y = libm_powl env x y) ∧
    (∀ y x, swift_atan2l env y x = libm_atan2l env y x) ∧
    (∀ x, swift_erfl env x = libm_erfl env x) ∧
    (∀ x, swift_erfcl env x = libm_erfcl env x) ∧
    (∀ x, swift_exp2l env x = libm_exp2l env x) ∧
    (∀ x y, swift_hypotl env x y = libm_hypotl env x y) ∧
    (∀ x, swift_gammal env x = libm_tgammal env x) ∧
    (∀ x, swift_log2l env x = libm_log2l env x) ∧
    (∀ x, swift_log10l env x = libm_log10l env x) ∧
    (∀ x, swift_lgammal env x = (libm_lgammal env x).1) := by
  repeat' apply And.intro
  all_goals intros
  all_goals rfl

/-- C6: every two-argument forwarding function passes its arguments through
to the platform routine in the order it received them, the mathematically
conventional one: `atan2(y, x)`, `hypot(x, y)`, `pow(base, exponent)`. -/
theorem spec_C6 {R : Type} (env : MathPlatform R) :
    (∀ y x, libm_atan2f env y x = env.atan2 y x) ∧
    (∀ y x, libm_atan2 env y x = env.atan2 y x) ∧
    (∀ y x, libm_atan2l env y x = env.atan2 y x) ∧
    (∀ y x, swift_atan2f env y x = env.atan2 y x) ∧
    (∀ y x, swift_atan2 env y x = env.atan2 y x) ∧
    (∀ y x, swift_atan2l env y x = env.atan2 y x) ∧
    (∀ t x y, libm_hypotf t env x y = if t.win32 then env.hypot_win x y else env.hypot x y) ∧
    (∀ x y, libm_hypot env x y = env.hypot x y) ∧
    (∀ x y, libm_hypotl env x y = env.hypot x y) ∧
    (∀ t x y, swift_hypotf t env x y = if t.win32 then env.hypot_win x y else env.hypot x y) ∧
    (∀ x y, swift_hypot env x y = env.hypot x y) ∧
    (∀ x y, swift_hypotl env x y = env.hypot x y) ∧
    (∀ x y, libm_powf env x y = env.pow x y) ∧
    (∀ x y, libm_pow env x y = env.pow x y) ∧
    (∀ x y, libm_powl env x y = env.pow x y) ∧
    (∀ x y, swift_powf env x y = env.pow x y) ∧
    (∀ x y, swift_pow env x y = env.pow x y) ∧
    (∀ x y, swift_powl env x y = env.pow x y) := by
  repeat' apply And.intro
  all_goals intros
  all_goals rfl

/-- C2: for every precision, the log-gamma shim yields, alongside the
magnitude `log |Γ(x)|`, a sign indicator equal to `+1` or `-1` matching the
true sign of the gamma function at `x` (assuming the platform `lgamma_r`
meets its contract, which is libm code outside this repository); and the
`swift_lgamma*` forwarders let callers discard the sign, returning exactly
the magnitude component. -/
theorem spec_C2 {R : Type} (env : MathPlatform R)
    (logAbsGamma : R → R) (gammaSign : R → Int)
    (h : LgammaRContract env logAbsGamma gammaSign) :
    ∀ x,
      ((libm_lgammaf env x).1 = logAbsGamma x ∧
        (libm_lgammaf env x).2 = gammaSign x ∧
        ((libm_lgammaf env x).2 = 1 ∨ (libm_lgammaf env x).2 = -1)) ∧
      ((libm_lgamma env x).1 = logAbsGamma x ∧
        (libm_lgamma env x).2 = gammaSign x ∧
        ((libm_lgamma env x).2 = 1 ∨ (libm_lgamma env x).2 = -1)) ∧
      ((libm_lgammal env x).1 = logAbsGamma x ∧
        (libm_lgammal env x).2 = gammaSign x ∧
        ((libm_lgammal env x).2 = 1 ∨ (libm_lgammal env x).2 = -1)) ∧
      swift_lgammaf env x = (libm_lgammaf env x).1 ∧
      swift_lgamma env x = (libm_lgamma env x).1 ∧
      swift_lgammal env x = (libm_lgammal env x).1 :=
  fun x => ⟨h x, h x, h x, rfl, rfl, rfl⟩

/-- Witness for C2 at the concrete platform `toyEnvQ` and input `x = 2`. -/
theorem spec_C2_witness :
    ((libm_lgamma toyEnvQ 2).2 = 1 ∨ (libm_lgamma toyEnvQ 2).2 = -1) ∧
    swift_lgamma toyEnvQ 2 = (libm_lgamma toyEnvQ 2).1 :=
  ⟨((spec_C2 toyEnvQ (fun _ => 0) (fun _ => 1)
      (fun _ => ⟨rfl, rfl, Or.inl rfl⟩)) 2).2.1.2.2,
   ((spec_C2 toyEnvQ (fun _ => 0) (fun _ => 1)
      (fun _ => ⟨rfl, rfl, Or.inl rfl⟩)) 2).2.2.2.2.1⟩

/-- C3: availability of the extended-precision (`long double`) function set is
decided purely at compile time by the target condition
`!defined _WIN32 && (defined __i386__ || defined __x86_64__)`: on a target
where that check fails the entire set is absent from both headers, and where
it holds the entire set is present.  The symbol set is a pure function of the
`Target` macros — there is no runtime component. -/
theorem spec_C3 : ∀ t : Target,
    (t.float80Available = false →
      (∀ s ∈ libmFloat80Symbols, s ∉ libmShimSymbols t) ∧
      (∀ s ∈ swiftFloat80Symbols, s ∉ swiftShimSymbols t)) ∧
    (t.float80Available = true →
      (∀ s ∈ libmFloat80Symbols, s ∈ libmShimSymbols t) ∧
      (∀ s ∈ swiftFloat80Symbols, s ∈ swiftShimSymbols t)) := by
  intro t
  obtain ⟨w, i, x, a⟩ := t
  cases w <;> cases i <;> cases x <;> cases a <;> decide

/-- Witness for C3 at two concrete targets: Windows x86-64 (no float80) and
Linux x86-64 (float80 present), sampled at the cosine symbols. -/
theorem spec_C3_witness :
    "libm_cosl" ∉ libmShimSymbols ⟨true, false, true, false⟩ ∧
    "swift_cosl" ∉ swiftShimSymbols ⟨true, false, true, false⟩ ∧
    "libm_cosl" ∈ libmShimSymbols ⟨false, false, true, false⟩ ∧
    "swift_cosl" ∈ swiftShimSymbols ⟨false, false, true, false⟩ :=
  ⟨((spec_C3 ⟨true, false, true, false⟩).1 rfl).1 "libm_cosl" (by decide),
   ((spec_C3 ⟨true, false, true, false⟩).1 rfl).2 "swift_cosl" (by decide),
   ((spec_C3 ⟨false, false, true, false⟩).2 rfl).1 "libm_cosl" (by decide),
   ((spec_C3 ⟨false, false, true, false⟩).2 rfl).2 "swift_cosl" (by decide)⟩

/-- C4: the fused multiply-add convenience computes `a*b + c`; at the inputs
`(2, 3, 4)` every value involved (`2`, `3`, `4`, `6`, `10`) is exactly
representable in binary32 and binary64 and every intermediate result is
exact, so fused and two-operation IEEE evaluation both coincide with the
exact rational evaluation, which yields `10`; and no extended-precision
muladd is defined on any target. -/
theorem spec_C4 :
    _numerics_muladdf (2 : ℚ) 3 4 = 10 ∧
    _numerics_muladd (2 : ℚ) 3 4 = 10 ∧
    ∀ t : Target, "_numerics_muladdl" ∉ libmShimSymbols t ∧
      "_numerics_muladdl" ∉ swiftShimSymbols t := by
  refine ⟨by norm_num [_numerics_muladdf], by norm_num [_numerics_muladd], ?_⟩
  intro t
  obtain ⟨w, i, x, a⟩ := t
  cases w <;> cases i <;> cases x <;> cases a <;> decide

/-- C5: domain-error boundary behaviour propagates unchanged through the
layer: given the platform routines' documented boundary values (libm code
outside this repository — `log 0 = -∞`, `log (-1) = NaN`, `csqrt` of a
negative real has non-zero imaginary part), the `log` forwarders and the
complex square-root wrapper return exactly those values. -/
theorem spec_C5 (env : MathPlatform FP) (cenv : ComplexPlatform FP)
    (hlog0 : env.log (FP.fin 0) = FP.negInf)
    (hlogm1 : env.log (FP.fin (-1)) = FP.nan)
    (hcsqrt : ∀ q : ℚ, q < 0 → (cenv.csqrt ⟨FP.fin q, FP.fin 0⟩).im ≠ FP.fin 0) :
    libm_log env (FP.fin 0) = FP.negInf ∧
    swift_log env (FP.fin 0) = FP.negInf ∧
    libm_log env (FP.fin (-1)) = FP.nan ∧
    swift_log env (FP.fin (-1)) = FP.nan ∧
    ∀ q : ℚ, q < 0 → (_csqrt cenv ⟨FP.fin q, FP.fin 0⟩).imag ≠ FP.fin 0 :=
  ⟨hlog0, hlog0, hlogm1, hlogm1, fun q hq => hcsqrt q hq⟩

/-- Witness for C5 at the concrete platforms `toyEnvFP`, `toyCenvFP` and the
concrete negative real `-1`. -/
theorem spec_C5_witness :
    libm_log toyEnvFP (FP.fin 0) = FP.negInf ∧
    swift_log toyEnvFP (FP.fin 0) = FP.negInf ∧
    libm_log toyEnvFP (FP.fin (-1)) = FP.nan ∧
    swift_log toyEnvFP (FP.fin (-1)) = FP.nan ∧
    (_csqrt toyCenvFP ⟨FP.fin (-1), FP.fin 0⟩).imag ≠ FP.fin 0 := by
  have h := spec_C5 toyEnvFP toyCenvFP (by decide) (by decide)
    (fun q _ => by simp [toyCenvFP])
  exact ⟨h.1, h.2.1, h.2.2.1, h.2.2.2.1, h.2.2.2.2 (-1) (by norm_num)⟩

/-- C7: the power forwarders satisfy `pow(x, 1) = x` for every `x`, given the
C-standard identity for the platform `pow` routine (libm code outside this
repository), which the forwarders delegate to unchanged. -/
theorem spec_C7 {R : Type} (env : MathPlatform R) (one : R)
    (h : ∀ x, env.pow x one = x) :
    ∀ x, libm_powf env x one = x ∧ libm_pow env x one = x ∧
      libm_powl env x one = x ∧ swift_powf env x one = x ∧
      swift_pow env x one = x ∧ swift_powl env x one = x :=
  fun x => ⟨h x, h x, h x, h x, h x, h x⟩

/-- Witness for C7 at the concrete platform `toyEnvQ` and input `x = 5`. -/
theorem spec_C7_witness :
    libm_pow toyEnvQ (5 : ℚ) 1 = 5 ∧ swift_pow toyEnvQ (5 : ℚ) 1 = 5 :=
  ⟨(spec_C7 toyEnvQ 1 (fun _ => rfl) 5).2.1,
   (spec_C7 toyEnvQ 1 (fun _ => rfl) 5).2.2.2.2.1⟩

set_option maxRecDepth 40000 in
/-- C8: every forwarding function is pure, stateless and deterministic.  In
the effectful reading that threads the thread-local errno-like state
explicitly through every one of the 195 shims (real-scalar `libm_*` and
`swift_*` of all three precisions, the complex wrappers, and the muladd
inlines), this theorem states for each shim: the shim is exactly the
delegated platform call, inspecting and clearing nothing; two calls with
identical arguments and identical incoming state return identical results;
and — given the spec-modelled platform contract that a routine's value does
not depend on the incoming state — the shim's value does not either. -/
theorem spec_C8 {R S : Type} [Mul R] [Add R]
    (env : EffMathPlatform R S) (cenv : EffComplexPlatform R S)
    (h : env.ValueIndep) (hc : cenv.ValueIndep) :
    (∀ x s, CEff.libm_exp env x s = env.exp x s) ∧
    (∀ x₁ x₂ s₁ s₂, x₁ = x₂ → s₁ = s₂ → CEff.libm_exp env x₁ s₁ = CEff.libm_exp env x₂ s₂) ∧
    (∀ x s s', (CEff.libm_exp env x s).1 = (CEff.libm_exp env x s').1) ∧
    (∀ z s, CEff._clog cenv z s = (⟨(cenv.clog ⟨z.real, z.imag⟩ s).1.re, (cenv.clog ⟨z.real, z.imag⟩ s).1.im⟩, (cenv.clog ⟨z.real, z.imag⟩ s).2)) ∧
    (∀ z₁ z₂ s₁ s₂, z₁ = z₂ → s₁ = s₂ → CEff._clog cenv z₁ s₁ = CEff._clog cenv z₂ s₂) ∧
    (∀ z s s', (CEff._clog cenv z s).1 = (CEff._clog cenv z s').1) ∧
    (∀ x s, CEff.swift_lgamma env x s = ((env.lgamma_r x s).1.1, (env.lgamma_r x s).2)) ∧
    (∀ x₁ x₂ s₁ s₂, x₁ = x₂ → s₁ = s₂ → CEff.swift_lgamma env x₁ s₁ = CEff.swift_lgamma env x₂ s₂) ∧
    (∀ x s s', (CEff.swift_lgamma env x s).1 = (CEff.swift_lgamma env x s').1) ∧
    ((((((((((∀ x s, CEff.libm_cosf env x s = env.cos x s) ∧
    (∀ x₁ x₂ s₁ s₂, x₁ = x₂ → s₁ = s₂ → CEff.libm_cosf env x₁ s₁ = CEff.libm_cosf env x₂ s₂)) ∧
    ((∀ x s s', (CEff.libm_cosf env x s).1 = (CEff.libm_cosf env x s').1) ∧
    (∀ x s, CEff.libm_sinf env x s = env.sin x s))) ∧
    (((∀ x₁ x₂ s₁ s₂, x₁ = x₂ → s₁ = s₂ → CEff.libm_sinf env x₁ s₁ = CEff.libm_sinf env x₂ s₂) ∧
    (∀ x s s', (CEff.libm_sinf env x s).1 = (CEff.libm_sinf env x s').1)) ∧
    ((∀ x s, CEff.libm_tanf env x s = env.tan x s) ∧
    ((∀ x₁ x₂ s₁ s₂, x₁ = x₂ → s₁ = s₂ → CEff.libm_tanf env x₁ s₁ = CEff.libm_tanf env x₂ s₂) ∧
    (∀ x s s', (CEff.libm_tanf env x s).1 = (CEff.libm_tanf env x s').1))))) ∧
    ((((∀ x s, CEff.libm_acosf env x s = env.acos x s) ∧
    (∀ x₁ x₂ s₁ s₂, x₁ = x₂ → s₁ = s₂ → CEff.libm_acosf env x₁ s₁ = CEff.libm_acosf env x₂ s₂)) ∧
    ((∀ x s s', (CEff.libm_acosf env x s).1 = (CEff.libm_acosf env x s').1) ∧
    (∀ x s, CEff.libm_asinf env x s = env.asin x s))) ∧
    (((∀ x₁ x₂ s₁ s₂, x₁ = x₂ → s₁ = s₂ → CEff.libm_asinf env x₁ s₁ = CEff.libm_asinf env x₂ s₂) ∧
    (∀ x s s', (CEff.libm_asinf env x s).1 = (CEff.libm_asinf env x s').1)) ∧
    ((∀ x s, CEff.libm_atanf env x s = env.atan x s) ∧
    ((∀ x₁ x₂ s₁ s₂, x₁ = x₂ → s₁ = s₂ → CEff.libm_atanf env x₁ s₁ = CEff.libm_atanf env x₂ s₂) ∧
    (∀ x s s', (CEff.libm_atanf env x s).1 = (CEff.libm_atanf env x s').1)))))) ∧
    (((((∀ x s, CEff.libm_coshf env x s = env.cosh x s) ∧
    (∀ x₁ x₂ s₁ s₂, x₁ = x₂ → s₁ = s₂ → CEff.libm_coshf env x₁ s₁ = CEff.libm_coshf env x₂ s₂)) ∧
    ((∀ x s s', (CEff.libm_coshf env x s).1 = (CEff.libm_coshf env x s').1) ∧
    (∀ x s, CEff.libm_sinhf env x s = env.sinh x s))) ∧
    (((∀ x₁ x₂ s₁ s₂, x₁ = x₂ → s₁ = s₂ → CEff.libm_sinhf env x₁ s₁ = CEff.libm_sinhf env x₂ s₂) ∧
    (∀ x s s', (CEff.libm_sinhf env x s).1 = (CEff.libm_sinhf env x s').1)) ∧
    ((∀ x s, CEff.libm_tanhf env x s = env.tanh x s) ∧
    ((∀ x₁ x₂ s₁ s₂, x₁ = x₂ → s₁ = s₂ → CEff.libm_tanhf env x₁ s₁ = CEff.libm_tanhf env x₂ s₂) ∧
    (∀ x s s', (CEff.libm_tanhf env x s).1 = (CEff.libm_tanhf env x s').1))))) ∧
    ((((∀ x s, CEff.libm_acoshf env x s = env.acosh x s) ∧
    (∀ x₁ x₂ s₁ s₂, x₁ = x₂ → s₁ = s₂ → CEff.libm_acoshf env x₁ s₁ = CEff.libm_acoshf env x₂ s₂)) ∧
    ((∀ x s s', (CEff.libm_acoshf env x s).1 = (CEff.libm_acoshf env x s').1) ∧
    (∀ x s, CEff.libm_asinhf env x s = env.asinh x s))) ∧
    (((∀ x₁ x₂ s₁ s₂, x₁ = x₂ → s₁ = s₂ → CEff.libm_asinhf env x₁ s₁ = CEff.libm_asinhf env x₂ s₂) ∧
    (∀ x s s', (CEff.libm_asinhf env x s).1 = (CEff.libm_asinhf env x s').1)) ∧
    ((∀ x s, CEff.libm_atanhf env x s = env.atanh x s) ∧
    ((∀ x₁ x₂ s₁ s₂, x₁ = x₂ → s₁ = s₂ → CEff.libm_atanhf env x₁ s₁ = CEff.libm_atanhf env x₂ s₂) ∧
    (∀ x s s', (CEff.libm_atanhf env x s).1 = (CEff.libm_atanhf env x s').1))))))) ∧
    ((((((∀ x s, CEff.libm_expf env x s = env.exp x s) ∧
    (∀ x₁ x₂ s₁ s₂, x₁ = x₂ → s₁ = s₂ → CEff.libm_expf env x₁ s₁ = CEff.libm_expf env x₂ s₂)) ∧
    ((∀ x s s', (CEff.libm_expf env x s).1 = (CEff.libm_expf env x s').1) ∧
    (∀ x s, CEff.libm_expm1f env x s = env.expm1 x s))) ∧
    (((∀ x₁ x₂ s₁ s₂, x₁ = x₂ → s₁ = s₂ → CEff.libm_expm1f env x₁ s₁ = CEff.libm_expm1f env x₂ s₂) ∧
    (∀ x s s', (CEff.libm_expm1f env x s).1 = (CEff.libm_expm1f env x s').1)) ∧
    ((∀ x s, CEff.libm_logf env x s = env.log x s) ∧
    ((∀ x₁ x₂ s₁ s₂, x₁ = x₂ → s₁ = s₂ → CEff.libm_logf env x₁ s₁ = CEff.libm_logf env x₂ s₂) ∧
    (∀ x s s', (CEff.libm_logf env x s).1 = (CEff.libm_logf env x s').1))))) ∧
    ((((∀ x s, CEff.libm_log1pf env x s = env.log1p x s) ∧
    (∀ x₁ x₂ s₁ s₂, x₁ = x₂ → s₁ = s₂ → CEff.libm_log1pf env x₁ s₁ = CEff.libm_log1pf env x₂ s₂)) ∧
    ((∀ x s s', (CEff.libm_log1pf env x s).1 = (CEff.libm_log1pf env x s').1) ∧
    (∀ x y s, CEff.libm_powf env x y s = env.pow x y s))) ∧
    (((∀ x₁ x₂ y₁ y₂ s₁ s₂, x₁ = x₂ → y₁ = y₂ → s₁ = s₂ → CEff.libm_powf env x₁ y₁ s₁ = CEff.libm_powf env x₂ y₂ s₂) ∧
    (∀ x y s s', (CEff.libm_powf env x y s).1 = (CEff.libm_powf env x y s').1)) ∧
    ((∀ x s, CEff.libm_cbrtf env x s = env.cbrt x s) ∧
    ((∀ x₁ x₂ s₁ s₂, x₁ = x₂ → s₁ = s₂ → CEff.libm_cbrtf env x₁ s₁ = CEff.libm_cbrtf env x₂ s₂) ∧
    (∀ x s s', (CEff.libm_cbrtf env x s).1 = (CEff.libm_cbrtf env x s').1)))))) ∧
    (((((∀ y x s, CEff.libm_atan2f env y x s = env.atan2 y x s) ∧
    (∀ y₁ y₂ x₁ x₂ s₁ s₂, y₁ = y₂ → x₁ = x₂ → s₁ = s₂ → CEff.libm_atan2f env y₁ x₁ s₁ = CEff.libm_atan2f env y₂ x₂ s₂)) ∧
    ((∀ y x s s', (CEff.libm_atan2f env y x s).1 = (CEff.libm_atan2f env y x s').1) ∧
    (∀ x s, CEff.libm_erff env x s = env.erf x s))) ∧
    (((∀ x₁ x₂ s₁ s₂, x₁ = x₂ → s₁ = s₂ → CEff.libm_erff env x₁ s₁ = CEff.libm_erff env x₂ s₂) ∧
    (∀ x s s', (CEff.libm_erff env x s).1 = (CEff.libm_erff env x s').1)) ∧
    ((∀ x s, CEff.libm_erfcf env x s = env.erfc x s) ∧
    ((∀ x₁ x₂ s₁ s₂, x₁ = x₂ → s₁ = s₂ → CEff.libm_erfcf env x₁ s₁ = CEff.libm_erfcf env x₂ s₂) ∧
    (∀ x s s', (CEff.libm_erfcf env x s).1 = (CEff.libm_erfcf env x s').1))))) ∧
    ((((∀ x s, CEff.libm_exp2f env x s = env.exp2 x s) ∧
    (∀ x₁ x₂ s₁ s₂, x₁ = x₂ → s₁ = s₂ → CEff.libm_exp2f env x₁ s₁ = CEff.libm_exp2f env x₂ s₂)) ∧
    ((∀ x s s', (CEff.libm_exp2f env x s).1 = (CEff.libm_exp2f env x s').1) ∧
    (∀ x s, CEff.libm_exp10f env x s = env.exp10 x s))) ∧
    (((∀ x₁ x₂ s₁ s₂, x₁ = x₂ → s₁ = s₂ → CEff.libm_exp10f env x₁ s₁ = CEff.libm_exp10f env x₂ s₂) ∧
    (∀ x s s', (CEff.libm_exp10f env x s).1 = (CEff.libm_exp10f env x s').1)) ∧
    ((∀ t x y s, CEff.libm_hypotf t env x y s = if t.win32 then env.hypot_win x y s else env.hypot x y s) ∧
    ((∀ t x₁ x₂ y₁ y₂ s₁ s₂, x₁ = x₂ → y₁ = y₂ → s₁ = s₂ → CEff.libm_hypotf t env x₁ y₁ s₁ = CEff.libm_hypotf t env x₂ y₂ s₂) ∧
    (∀ t x y s s', (CEff.libm_hypotf t env x y s).1 = (CEff.libm_hypotf t env x y s').1)))))))) ∧
    (((((((∀ x s, CEff.libm_tgammaf env x s = env.tgamma x s) ∧
    (∀ x₁ x₂ s₁ s₂, x₁ = x₂ → s₁ = s₂ → CEff.libm_tgammaf env x₁ s₁ = CEff.libm_tgammaf env x₂ s₂)) ∧
    ((∀ x s s', (CEff.libm_tgammaf env x s).1 = (CEff.libm_tgammaf env x s').1) ∧
    (∀ x s, CEff.libm_log2f env x s = env.log2 x s))) ∧
    (((∀ x₁ x₂ s₁ s₂, x₁ = x₂ → s₁ = s₂ → CEff.libm_log2f env x₁ s₁ = CEff.libm_log2f env x₂ s₂) ∧
    (∀ x s s', (CEff.libm_log2f env x s).1 = (CEff.libm_log2f env x s').1)) ∧
    ((∀ x s, CEff.libm_log10f env x s = env.log10 x s) ∧
    ((∀ x₁ x₂ s₁ s₂, x₁ = x₂ → s₁ = s₂ → CEff.libm_log10f env x₁ s₁ = CEff.libm_log10f env x₂ s₂) ∧
    (∀ x s s', (CEff.libm_log10f env x s).1 = (CEff.libm_log10f env x s').1))))) ∧
    ((((∀ x s, CEff.libm_lgammaf env x s = env.lgamma_r x s) ∧
    (∀ x₁ x₂ s₁ s₂, x₁ = x₂ → s₁ = s₂ → CEff.libm_lgammaf env x₁ s₁ = CEff.libm_lgammaf env x₂ s₂)) ∧
    ((∀ x s s', (CEff.libm_lgammaf env x s).1 = (CEff.libm_lgammaf env x s').1) ∧
    (∀ x s, CEff.libm_cos env x s = env.cos x s))) ∧
    (((∀ x₁ x₂ s₁ s₂, x₁ = x₂ → s₁ = s₂ → CEff.libm_cos env x₁ s₁ = CEff.libm_cos env x₂ s₂) ∧
    (∀ x s s', (CEff.libm_cos env x s).1 = (CEff.libm_cos env x s').1)) ∧
    ((∀ x s, CEff.libm_sin env x s = env.sin x s) ∧
    ((∀ x₁ x₂ s₁ s₂, x₁ = x₂ → s₁ = s₂ → CEff.libm_sin env x₁ s₁ = CEff.libm_sin env x₂ s₂) ∧
    (∀ x s s', (CEff.libm_sin env x s).1 = (CEff.libm_sin env x s').1)))))) ∧
    (((((∀ x s, CEff.libm_tan env x s = env.tan x s) ∧
    (∀ x₁ x₂ s₁ s₂, x₁ = x₂ → s₁ = s₂ → CEff.libm_tan env x₁ s₁ = CEff.libm_tan env x₂ s₂)) ∧
    ((∀ x s s', (CEff.libm_tan env x s).1 = (CEff.libm_tan env x s').1) ∧
    (∀ x s, CEff.libm_acos env x s = env.acos x s))) ∧
    (((∀ x₁ x₂ s₁ s₂, x₁ = x₂ → s₁ = s₂ → CEff.libm_acos env x₁ s₁ = CEff.libm_acos env x₂ s₂) ∧
    (∀ x s s', (CEff.libm_acos env x s).1 = (CEff.libm_acos env x s').1)) ∧
    ((∀ x s, CEff.libm_asin env x s = env.asin x s) ∧
    ((∀ x₁ x₂ s₁ s₂, x₁ = x₂ → s₁ = s₂ → CEff.libm_asin env x₁ s₁ = CEff.libm_asin env x₂ s₂) ∧
    (∀ x s s', (CEff.libm_asin env x s).1 = (CEff.libm_asin env x s').1))))) ∧
    ((((∀ x s, CEff.libm_atan env x s = env.atan x s) ∧
    (∀ x₁ x₂ s₁ s₂, x₁ = x₂ → s₁ = s₂ → CEff.libm_atan env x₁ s₁ = CEff.libm_atan env x₂ s₂)) ∧
    ((∀ x s s', (CEff.libm_atan env x s).1 = (CEff.libm_atan env x s').1) ∧
    (∀ x s, CEff.libm_cosh env x s = env.cosh x s))) ∧
    (((∀ x₁ x₂ s₁ s₂, x₁ = x₂ → s₁ = s₂ → CEff.libm_cosh env x₁ s₁ = CEff.libm_cosh env x₂ s₂) ∧
    (∀ x s s', (CEff.libm_cosh env x s).1 = (CEff.libm_cosh env x s').1)) ∧
    ((∀ x s, CEff.libm_sinh env x s = env.sinh x s) ∧
    ((∀ x₁ x₂ s₁ s₂, x₁ = x₂ → s₁ = s₂ → CEff.libm_sinh env x₁ s₁ = CEff.libm_sinh env x₂ s₂) ∧
    (∀ x s s', (CEff.libm_sinh env x s).1 = (CEff.libm_sinh env x s').1))))))) ∧
    ((((((∀ x s, CEff.libm_tanh env x s = env.tanh x s) ∧
    (∀ x₁ x₂ s₁ s₂, x₁ = x₂ → s₁ = s₂ → CEff.libm_tanh env x₁ s₁ = CEff.libm_tanh env x₂ s₂)) ∧
    ((∀ x s s', (CEff.libm_tanh env x s).1 = (CEff.libm_tanh env x s').1) ∧
    (∀ x s, CEff.libm_acosh env x s = env.acosh x s))) ∧
    (((∀ x₁ x₂ s₁ s₂, x₁ = x₂ → s₁ = s₂ → CEff.libm_acosh env x₁ s₁ = CEff.libm_acosh env x₂ s₂) ∧
    (∀ x s s', (CEff.libm_acosh env x s).1 = (CEff.libm_acosh env x s').1)) ∧
    ((∀ x s, CEff.libm_asinh env x s = env.asinh x s) ∧
    ((∀ x₁ x₂ s₁ s₂, x₁ = x₂ → s₁ = s₂ → CEff.libm_asinh env x₁ s₁ = CEff.libm_asinh env x₂ s₂) ∧
    (∀ x s s', (CEff.libm_asinh env x s).1 = (CEff.libm_asinh env x s').1))))) ∧
    ((((∀ x s, CEff.libm_atanh env x s = env.atanh x s) ∧
    (∀ x₁ x₂ s₁ s₂, x₁ = x₂ → s₁ = s₂ → CEff.libm_atanh env x₁ s₁ = CEff.libm_atanh env x₂ s₂)) ∧
    ((∀ x s s', (CEff.libm_atanh env x s).1 = (CEff.libm_atanh env x s').1) ∧
    (∀ x s, CEff.libm_expm1 env x s = env.expm1 x s))) ∧
    (((∀ x₁ x₂ s₁ s₂, x₁ = x₂ → s₁ = s₂ → CEff.libm_expm1 env x₁ s₁ = CEff.libm_expm1 env x₂ s₂) ∧
    (∀ x s s', (CEff.libm_expm1 env x s).1 = (CEff.libm_expm1 env x s').1)) ∧
    ((∀ x s, CEff.libm_log env x s = env.log x s) ∧
    ((∀ x₁ x₂ s₁ s₂, x₁ = x₂ → s₁ = s₂ → CEff.libm_log env x₁ s₁ = CEff.libm_log env x₂ s₂) ∧
    (∀ x s s', (CEff.libm_log env x s).1 = (CEff.libm_log env x s').1)))))) ∧
    (((((∀ x s, CEff.libm_log1p env x s = env.log1p x s) ∧
    (∀ x₁ x₂ s₁ s₂, x₁ = x₂ → s₁ = s₂ → CEff.libm_log1p env x₁ s₁ = CEff.libm_log1p env x₂ s₂)) ∧
    ((∀ x s s', (CEff.libm_log1p env x s).1 = (CEff.libm_log1p env x s').1) ∧
    (∀ x y s, CEff.libm_pow env x y s = env.pow x y s))) ∧
    (((∀ x₁ x₂ y₁ y₂ s₁ s₂, x₁ = x₂ → y₁ = y₂ → s₁ = s₂ → CEff.libm_pow env x₁ y₁ s₁ = CEff.libm_pow env x₂ y₂ s₂) ∧
    (∀ x y s s', (CEff.libm_pow env x y s).1 = (CEff.libm_pow env x y s').1)) ∧
    ((∀ x s, CEff.libm_cbrt env x s = env.cbrt x s) ∧
    ((∀ x₁ x₂ s₁ s₂, x₁ = x₂ → s₁ = s₂ → CEff.libm_cbrt env x₁ s₁ = CEff.libm_cbrt env x₂ s₂) ∧
    (∀ x s s', (CEff.libm_cbrt env x s).1 = (CEff.libm_cbrt env x s').1))))) ∧
    ((((∀ y x s, CEff.libm_atan2 env y x s = env.atan2 y x s) ∧
    (∀ y₁ y₂ x₁ x₂ s₁ s₂, y₁ = y₂ → x₁ = x₂ → s₁ = s₂ → CEff.libm_atan2 env y₁ x₁ s₁ = CEff.libm_atan2 env y₂ x₂ s₂)) ∧
    ((∀ y x s s', (CEff.libm_atan2 env y x s).1 = (CEff.libm_atan2 env y x s').1) ∧
    (∀ x s, CEff.libm_erf env x s = env.erf x s))) ∧
    (((∀ x₁ x₂ s₁ s₂, x₁ = x₂ → s₁ = s₂ → CEff.libm_erf env x₁ s₁ = CEff.libm_erf env x₂ s₂) ∧
    (∀ x s s', (CEff.libm_erf env x s).1 = (CEff.libm_erf env x s').1)) ∧
    ((∀ x s, CEff.libm_erfc env x s = env.erfc x s) ∧
    ((∀ x₁ x₂ s₁ s₂, x₁ = x₂ → s₁ = s₂ → CEff.libm_erfc env x₁ s₁ = CEff.libm_erfc env x₂ s₂) ∧
    (∀ x s s', (CEff.libm_erfc env x s).1 = (CEff.libm_erfc env x s').1))))))))) ∧
    ((((((((∀ x s, CEff.libm_exp2 env x s = env.exp2 x s) ∧
    (∀ x₁ x₂ s₁ s₂, x₁ = x₂ → s₁ = s₂ → CEff.libm_exp2 env x₁ s₁ = CEff.libm_exp2 env x₂ s₂)) ∧
    ((∀ x s s', (CEff.libm_exp2 env x s).1 = (CEff.libm_exp2 env x s').1) ∧
    (∀ x s, CEff.libm_exp10 env x s = env.exp10 x s))) ∧
    (((∀ x₁ x₂ s₁ s₂, x₁ = x₂ → s₁ = s₂ → CEff.libm_exp10 env x₁ s₁ = CEff.libm_exp10 env x₂ s₂) ∧
    (∀ x s s', (CEff.libm_exp10 env x s).1 = (CEff.libm_exp10 env x s').1)) ∧
    ((∀ x y s, CEff.libm_hypot env x y s = env.hypot x y s) ∧
    ((∀ x₁ x₂ y₁ y₂ s₁ s₂, x₁ = x₂ → y₁ = y₂ → s₁ = s₂ → CEff.libm_hypot env x₁ y₁ s₁ = CEff.libm_hypot env x₂ y₂ s₂) ∧
    (∀ x y s s', (CEff.libm_hypot env x y s).1 = (CEff.libm_hypot env x y s').1))))) ∧
    ((((∀ x s, CEff.libm_tgamma env x s = env.tgamma x s) ∧
    (∀ x₁ x₂ s₁ s₂, x₁ = x₂ → s₁ = s₂ → CEff.libm_tgamma env x₁ s₁ = CEff.libm_tgamma env x₂ s₂)) ∧
    ((∀ x s s', (CEff.libm_tgamma env x s).1 = (CEff.libm_tgamma env x s').1) ∧
    (∀ x s, CEff.libm_log2 env x s = env.log2 x s))) ∧
    (((∀ x₁ x₂ s₁ s₂, x₁ = x₂ → s₁ = s₂ → CEff.libm_log2 env x₁ s₁ = CEff.libm_log2 env x₂ s₂) ∧
    (∀ x s s', (CEff.libm_log2 env x s).1 = (CEff.libm_log2 env x s').1)) ∧
    ((∀ x s, CEff.libm_log10 env x s = env.log10 x s) ∧
    ((∀ x₁ x₂ s₁ s₂, x₁ = x₂ → s₁ = s₂ → CEff.libm_log10 env x₁ s₁ = CEff.libm_log10 env x₂ s₂) ∧
    (∀ x s s', (CEff.libm_log10 env x s).1 = (CEff.libm_log10 env x s').1)))))) ∧
    (((((∀ x s, CEff.libm_lgamma env x s = env.lgamma_r x s) ∧
    (∀ x₁ x₂ s₁ s₂, x₁ = x₂ → s₁ = s₂ → CEff.libm_lgamma env x₁ s₁ = CEff.libm_lgamma env x₂ s₂)) ∧
    ((∀ x s s', (CEff.libm_lgamma env x s).1 = (CEff.libm_lgamma env x s').1) ∧
    (∀ x s, CEff.libm_cosl env x s = env.cos x s))) ∧
    (((∀ x₁ x₂ s₁ s₂, x₁ = x₂ → s₁ = s₂ → CEff.libm_cosl env x₁ s₁ = CEff.libm_cosl env x₂ s₂) ∧
    (∀ x s s', (CEff.libm_cosl env x s).1 = (CEff.libm_cosl env x s').1)) ∧
    ((∀ x s, CEff.libm_sinl env x s = env.sin x s) ∧
    ((∀ x₁ x₂ s₁ s₂, x₁ = x₂ → s₁ = s₂ → CEff.libm_sinl env x₁ s₁ = CEff.libm_sinl env x₂ s₂) ∧
    (∀ x s s', (CEff.libm_sinl env x s).1 = (CEff.libm_sinl env x s').1))))) ∧
    ((((∀ x s, CEff.libm_tanl env x s = env.tan x s) ∧
    (∀ x₁ x₂ s₁ s₂, x₁ = x₂ → s₁ = s₂ → CEff.libm_tanl env x₁ s₁ = CEff.libm_tanl env x₂ s₂)) ∧
    ((∀ x s s', (CEff.libm_tanl env x s).1 = (CEff.libm_tanl env x s').1) ∧
    (∀ x s, CEff.libm_acosl env x s = env.acos x s))) ∧
    (((∀ x₁ x₂ s₁ s₂, x₁ = x₂ → s₁ = s₂ → CEff.libm_acosl env x₁ s₁ = CEff.libm_acosl env x₂ s₂) ∧
    (∀ x s s', (CEff.libm_acosl env x s).1 = (CEff.libm_acosl env x s').1)) ∧
    ((∀ x s, CEff.libm_asinl env x s = env.asin x s) ∧
    ((∀ x₁ x₂ s₁ s₂, x₁ = x₂ → s₁ = s₂ → CEff.libm_asinl env x₁ s₁ = CEff.libm_asinl env x₂ s₂) ∧
    (∀ x s s', (CEff.libm_asinl env x s).1 = (CEff.libm_asinl env x s').1))))))) ∧
    ((((((∀ x s, CEff.libm_atanl env x s = env.atan x s) ∧
    (∀ x₁ x₂ s₁ s₂, x₁ = x₂ → s₁ = s₂ → CEff.libm_atanl env x₁ s₁ = CEff.libm_atanl env x₂ s₂)) ∧
    ((∀ x s s', (CEff.libm_atanl env x s).1 = (CEff.libm_atanl env x s').1) ∧
    (∀ x s, CEff.libm_coshl env x s = env.cosh x s))) ∧
    (((∀ x₁ x₂ s₁ s₂, x₁ = x₂ → s₁ = s₂ → CEff.libm_coshl env x₁ s₁ = CEff.libm_coshl env x₂ s₂) ∧
    (∀ x s s', (CEff.libm_coshl env x s).1 = (CEff.libm_coshl env x s').1)) ∧
    ((∀ x s, CEff.libm_sinhl env x s = env.sinh x s) ∧
    ((∀ x₁ x₂ s₁ s₂, x₁ = x₂ → s₁ = s₂ → CEff.libm_sinhl env x₁ s₁ = CEff.libm_sinhl env x₂ s₂) ∧
    (∀ x s s', (CEff.libm_sinhl env x s).1 = (CEff.libm_sinhl env x s').1))))) ∧
    ((((∀ x s, CEff.libm_tanhl env x s = env.tanh x s) ∧
    (∀ x₁ x₂ s₁ s₂, x₁ = x₂ → s₁ = s₂ → CEff.libm_tanhl env x₁ s₁ = CEff.libm_tanhl env x₂ s₂)) ∧
    ((∀ x s s', (CEff.libm_tanhl env x s).1 = (CEff.libm_tanhl env x s').1) ∧
    (∀ x s, CEff.libm_acoshl env x s = env.acosh x s))) ∧
    (((∀ x₁ x₂ s₁ s₂, x₁ = x₂ → s₁ = s₂ → CEff.libm_acoshl env x₁ s₁ = CEff.libm_acoshl env x₂ s₂) ∧
    (∀ x s s', (CEff.libm_acoshl env x s).1 = (CEff.libm_acoshl env x s').1)) ∧
    ((∀ x s, CEff.libm_asinhl env x s = env.asinh x s) ∧
    ((∀ x₁ x₂ s₁ s₂, x₁ = x₂ → s₁ = s₂ → CEff.libm_asinhl env x₁ s₁ = CEff.libm_asinhl env x₂ s₂) ∧
    (∀ x s s', (CEff.libm_asinhl env x s).1 = (CEff.libm_asinhl env x s').1)))))) ∧
    (((((∀ x s, CEff.libm_atanhl env x s = env.atanh x s) ∧
    (∀ x₁ x₂ s₁ s₂, x₁ = x₂ → s₁ = s₂ → CEff.libm_atanhl env x₁ s₁ = CEff.libm_atanhl env x₂ s₂)) ∧
    ((∀ x s s', (CEff.libm_atanhl env x s).1 = (CEff.libm_atanhl env x s').1) ∧
    (∀ x s, CEff.libm_expl env x s = env.exp x s))) ∧
    (((∀ x₁ x₂ s₁ s₂, x₁ = x₂ → s₁ = s₂ → CEff.libm_expl env x₁ s₁ = CEff.libm_expl env x₂ s₂) ∧
    (∀ x s s', (CEff.libm_expl env x s).1 = (CEff.libm_expl env x s').1)) ∧
    ((∀ x s, CEff.libm_expm1l env x s = env.expm1 x s) ∧
    ((∀ x₁ x₂ s₁ s₂, x₁ = x₂ → s₁ = s₂ → CEff.libm_expm1l env x₁ s₁ = CEff.libm_expm1l env x₂ s₂) ∧
    (∀ x s s', (CEff.libm_expm1l env x s).1 = (CEff.libm_expm1l env x s').1))))) ∧
    ((((∀ x s, CEff.libm_logl env x s = env.log x s) ∧
    (∀ x₁ x₂ s₁ s₂, x₁ = x₂ → s₁ = s₂ → CEff.libm_logl env x₁ s₁ = CEff.libm_logl env x₂ s₂)) ∧
    ((∀ x s s', (CEff.libm_logl env x s).1 = (CEff.libm_logl env x s').1) ∧
    (∀ x s, CEff.libm_log1pl env x s = env.log1p x s))) ∧
    (((∀ x₁ x₂ s₁ s₂, x₁ = x₂ → s₁ = s₂ → CEff.libm_log1pl env x₁ s₁ = CEff.libm_log1pl env x₂ s₂) ∧
    (∀ x s s', (CEff.libm_log1pl env x s).1 = (CEff.libm_log1pl env x s').1)) ∧
    ((∀ x y s, CEff.libm_powl env x y s = env.pow x y s) ∧
    ((∀ x₁ x₂ y₁ y₂ s₁ s₂, x₁ = x₂ → y₁ = y₂ → s₁ = s₂ → CEff.libm_powl env x₁ y₁ s₁ = CEff.libm_powl env x₂ y₂ s₂) ∧
    (∀ x y s s', (CEff.libm_powl env x y s).1 = (CEff.libm_powl env x y s').1)))))))) ∧
    (((((((∀ x s, CEff.libm_cbrtl env x s = env.cbrt x s) ∧
    (∀ x₁ x₂ s₁ s₂, x₁ = x₂ → s₁ = s₂ → CEff.libm_cbrtl env x₁ s₁ = CEff.libm_cbrtl env x₂ s₂)) ∧
    ((∀ x s s', (CEff.libm_cbrtl env x s).1 = (CEff.libm_cbrtl env x s').1) ∧
    (∀ y x s, CEff.libm_atan2l env y x s = env.atan2 y x s))) ∧
    (((∀ y₁ y₂ x₁ x₂ s₁ s₂, y₁ = y₂ → x₁ = x₂ → s₁ = s₂ → CEff.libm_atan2l env y₁ x₁ s₁ = CEff.libm_atan2l env y₂ x₂ s₂) ∧
    (∀ y x s s', (CEff.libm_atan2l env y x s).1 = (CEff.libm_atan2l env y x s').1)) ∧
    ((∀ x s, CEff.libm_erfl env x s = env.erf x s) ∧
    ((∀ x₁ x₂ s₁ s₂, x₁ = x₂ → s₁ = s₂ → CEff.libm_erfl env x₁ s₁ = CEff.libm_erfl env x₂ s₂) ∧
    (∀ x s s', (CEff.libm_erfl env x s).1 = (CEff.libm_erfl env x s').1))))) ∧
    ((((∀ x s, CEff.libm_erfcl env x s = env.erfc x s) ∧
    (∀ x₁ x₂ s₁ s₂, x₁ = x₂ → s₁ = s₂ → CEff.libm_erfcl env x₁ s₁ = CEff.libm_erfcl env x₂ s₂)) ∧
    ((∀ x s s', (CEff.libm_erfcl env x s).1 = (CEff.libm_erfcl env x s').1) ∧
    (∀ x s, CEff.libm_exp2l env x s = env.exp2 x s))) ∧
    (((∀ x₁ x₂ s₁ s₂, x₁ = x₂ → s₁ = s₂ → CEff.libm_exp2l env x₁ s₁ = CEff.libm_exp2l env x₂ s₂) ∧
    (∀ x s s', (CEff.libm_exp2l env x s).1 = (CEff.libm_exp2l env x s').1)) ∧
    ((∀ x y s, CEff.libm_hypotl env x y s = env.hypot x y s) ∧
    ((∀ x₁ x₂ y₁ y₂ s₁ s₂, x₁ = x₂ → y₁ = y₂ → s₁ = s₂ → CEff.libm_hypotl env x₁ y₁ s₁ = CEff.libm_hypotl env x₂ y₂ s₂) ∧
    (∀ x y s s', (CEff.libm_hypotl env x y s).1 = (CEff.libm_hypotl env x y s').1)))))) ∧
    (((((∀ x s, CEff.libm_tgammal env x s = env.tgamma x s) ∧
    (∀ x₁ x₂ s₁ s₂, x₁ = x₂ → s₁ = s₂ → CEff.libm_tgammal env x₁ s₁ = CEff.libm_tgammal env x₂ s₂)) ∧
    ((∀ x s s', (CEff.libm_tgammal env x s).1 = (CEff.libm_tgammal env x s').1) ∧
    (∀ x s, CEff.libm_log2l env x s = env.log2 x s))) ∧
    (((∀ x₁ x₂ s₁ s₂, x₁ = x₂ → s₁ = s₂ → CEff.libm_log2l env x₁ s₁ = CEff.libm_log2l env x₂ s₂) ∧
    (∀ x s s', (CEff.libm_log2l env x s).1 = (CEff.libm_log2l env x s').1)) ∧
    ((∀ x s, CEff.libm_log10l env x s = env.log10 x s) ∧
    ((∀ x₁ x₂ s₁ s₂, x₁ = x₂ → s₁ = s₂ → CEff.libm_log10l env x₁ s₁ = CEff.libm_log10l env x₂ s₂) ∧
    (∀ x s s', (CEff.libm_log10l env x s).1 = (CEff.libm_log10l env x s').1))))) ∧
    ((((∀ x s, CEff.libm_lgammal env x s = env.lgamma_r x s) ∧
    (∀ x₁ x₂ s₁ s₂, x₁ = x₂ → s₁ = s₂ → CEff.libm_lgammal env x₁ s₁ = CEff.libm_lgammal env x₂ s₂)) ∧
    ((∀ x s s', (CEff.libm_lgammal env x s).1 = (CEff.libm_lgammal env x s').1) ∧
    (∀ x s, CEff.swift_cosf env x s = env.cos x s))) ∧
    (((∀ x₁ x₂ s₁ s₂, x₁ = x₂ → s₁ = s₂ → CEff.swift_cosf env x₁ s₁ = CEff.swift_cosf env x₂ s₂) ∧
    (∀ x s s', (CEff.swift_cosf env x s).1 = (CEff.swift_cosf env x s').1)) ∧
    ((∀ x s, CEff.swift_sinf env x s = env.sin x s) ∧
    ((∀ x₁ x₂ s₁ s₂, x₁ = x₂ → s₁ = s₂ → CEff.swift_sinf env x₁ s₁ = CEff.swift_sinf env x₂ s₂) ∧
    (∀ x s s', (CEff.swift_sinf env x s).1 = (CEff.swift_sinf env x s').1))))))) ∧
    ((((((∀ x s, CEff.swift_tanf env x s = env.tan x s) ∧
    (∀ x₁ x₂ s₁ s₂, x₁ = x₂ → s₁ = s₂ → CEff.swift_tanf env x₁ s₁ = CEff.swift_tanf env x₂ s₂)) ∧
    ((∀ x s s', (CEff.swift_tanf env x s).1 = (CEff.swift_tanf env x s').1) ∧
    (∀ x s, CEff.swift_acosf env x s = env.acos x s))) ∧
    (((∀ x₁ x₂ s₁ s₂, x₁ = x₂ → s₁ = s₂ → CEff.swift_acosf env x₁ s₁ = CEff.swift_acosf env x₂ s₂) ∧
    (∀ x s s', (CEff.swift_acosf env x s).1 = (CEff.swift_acosf env x s').1)) ∧
    ((∀ x s, CEff.swift_asinf env x s = env.asin x s) ∧
    ((∀ x₁ x₂ s₁ s₂, x₁ = x₂ → s₁ = s₂ → CEff.swift_asinf env x₁ s₁ = CEff.swift_asinf env x₂ s₂) ∧
    (∀ x s s', (CEff.swift_asinf env x s).1 = (CEff.swift_asinf env x s').1))))) ∧
    ((((∀ x s, CEff.swift_atanf env x s = env.atan x s) ∧
    (∀ x₁ x₂ s₁ s₂, x₁ = x₂ → s₁ = s₂ → CEff.swift_atanf env x₁ s₁ = CEff.swift_atanf env x₂ s₂)) ∧
    ((∀ x s s', (CEff.swift_atanf env x s).1 = (CEff.swift_atanf env x s').1) ∧
    (∀ x s, CEff.swift_coshf env x s = env.cosh x s))) ∧
    (((∀ x₁ x₂ s₁ s₂, x₁ = x₂ → s₁ = s₂ → CEff.swift_coshf env x₁ s₁ = CEff.swift_coshf env x₂ s₂) ∧
    (∀ x s s', (CEff.swift_coshf env x s).1 = (CEff.swift_coshf env x s').1)) ∧
    ((∀ x s, CEff.swift_sinhf env x s = env.sinh x s) ∧
    ((∀ x₁ x₂ s₁ s₂, x₁ = x₂ → s₁ = s₂ → CEff.swift_sinhf env x₁ s₁ = CEff.swift_sinhf env x₂ s₂) ∧
    (∀ x s s', (CEff.swift_sinhf env x s).1 = (CEff.swift_sinhf env x s').1)))))) ∧
    (((((∀ x s, CEff.swift_tanhf env x s = env.tanh x s) ∧
    (∀ x₁ x₂ s₁ s₂, x₁ = x₂ → s₁ = s₂ → CEff.swift_tanhf env x₁ s₁ = CEff.swift_tanhf env x₂ s₂)) ∧
    ((∀ x s s', (CEff.swift_tanhf env x s).1 = (CEff.swift_tanhf env x s').1) ∧
    (∀ x s, CEff.swift_acoshf env x s = env.acosh x s))) ∧
    (((∀ x₁ x₂ s₁ s₂, x₁ = x₂ → s₁ = s₂ → CEff.swift_acoshf env x₁ s₁ = CEff.swift_acoshf env x₂ s₂) ∧
    (∀ x s s', (CEff.swift_acoshf env x s).1 = (CEff.swift_acoshf env x s').1)) ∧
    ((∀ x s, CEff.swift_asinhf env x s = env.asinh x s) ∧
    ((∀ x₁ x₂ s₁ s₂, x₁ = x₂ → s₁ = s₂ → CEff.swift_asinhf env x₁ s₁ = CEff.swift_asinhf env x₂ s₂) ∧
    (∀ x s s', (CEff.swift_asinhf env x s).1 = (CEff.swift_asinhf env x s').1))))) ∧
    ((((∀ x s, CEff.swift_atanhf env x s = env.atanh x s) ∧
    (∀ x₁ x₂ s₁ s₂, x₁ = x₂ → s₁ = s₂ → CEff.swift_atanhf env x₁ s₁ = CEff.swift_atanhf env x₂ s₂)) ∧
    ((∀ x s s', (CEff.swift_atanhf env x s).1 = (CEff.swift_atanhf env x s').1) ∧
    (∀ x s, CEff.swift_expf env x s = env.exp x s))) ∧
    (((∀ x₁ x₂ s₁ s₂, x₁ = x₂ → s₁ = s₂ → CEff.swift_expf env x₁ s₁ = CEff.swift_expf env x₂ s₂) ∧
    (∀ x s s', (CEff.swift_expf env x s).1 = (CEff.swift_expf env x s').1)) ∧
    ((∀ x s, CEff.swift_expm1f env x s = env.expm1 x s) ∧
    ((∀ x₁ x₂ s₁ s₂, x₁ = x₂ → s₁ = s₂ → CEff.swift_expm1f env x₁ s₁ = CEff.swift_expm1f env x₂ s₂) ∧
    (∀ x s s', (CEff.swift_expm1f env x s).1 = (CEff.swift_expm1f env x s').1)))))))))) ∧
    (((((((((∀ x s, CEff.swift_logf env x s = env.log x s) ∧
    (∀ x₁ x₂ s₁ s₂, x₁ = x₂ → s₁ = s₂ → CEff.swift_logf env x₁ s₁ = CEff.swift_logf env x₂ s₂)) ∧
    ((∀ x s s', (CEff.swift_logf env x s).1 = (CEff.swift_logf env x s').1) ∧
    (∀ x s, CEff.swift_log1pf env x s = env.log1p x s))) ∧
    (((∀ x₁ x₂ s₁ s₂, x₁ = x₂ → s₁ = s₂ → CEff.swift_log1pf env x₁ s₁ = CEff.swift_log1pf env x₂ s₂) ∧
    (∀ x s s', (CEff.swift_log1pf env x s).1 = (CEff.swift_log1pf env x s').1)) ∧
    ((∀ x y s, CEff.swift_powf env x y s = env.pow x y s) ∧
    ((∀ x₁ x₂ y₁ y₂ s₁ s₂, x₁ = x₂ → y₁ = y₂ → s₁ = s₂ → CEff.swift_powf env x₁ y₁ s₁ = CEff.swift_powf env x₂ y₂ s₂) ∧
    (∀ x y s s', (CEff.swift_powf env x y s).1 = (CEff.swift_powf env x y s').1))))) ∧
    ((((∀ y x s, CEff.swift_atan2f env y x s = env.atan2 y x s) ∧
    (∀ y₁ y₂ x₁ x₂ s₁ s₂, y₁ = y₂ → x₁ = x₂ → s₁ = s₂ → CEff.swift_atan2f env y₁ x₁ s₁ = CEff.swift_atan2f env y₂ x₂ s₂)) ∧
    ((∀ y x s s', (CEff.swift_atan2f env y x s).1 = (CEff.swift_atan2f env y x s').1) ∧
    (∀ x s, CEff.swift_erff env x s = env.erf x s))) ∧
    (((∀ x₁ x₂ s₁ s₂, x₁ = x₂ → s₁ = s₂ → CEff.swift_erff env x₁ s₁ = CEff.swift_erff env x₂ s₂) ∧
    (∀ x s s', (CEff.swift_erff env x s).1 = (CEff.swift_erff env x s').1)) ∧
    ((∀ x s, CEff.swift_erfcf env x s = env.erfc x s) ∧
    ((∀ x₁ x₂ s₁ s₂, x₁ = x₂ → s₁ = s₂ → CEff.swift_erfcf env x₁ s₁ = CEff.swift_erfcf env x₂ s₂) ∧
    (∀ x s s', (CEff.swift_erfcf env x s).1 = (CEff.swift_erfcf env x s').1)))))) ∧
    (((((∀ x s, CEff.swift_exp2f env x s = env.exp2 x s) ∧
    (∀ x₁ x₂ s₁ s₂, x₁ = x₂ → s₁ = s₂ → CEff.swift_exp2f env x₁ s₁ = CEff.swift_exp2f env x₂ s₂)) ∧
    ((∀ x s s', (CEff.swift_exp2f env x s).1 = (CEff.swift_exp2f env x s').1) ∧
    (∀ t x y s, CEff.swift_hypotf t env x y s = if t.win32 then env.hypot_win x y s else env.hypot x y s))) ∧
    (((∀ t x₁ x₂ y₁ y₂ s₁ s₂, x₁ = x₂ → y₁ = y₂ → s₁ = s₂ → CEff.swift_hypotf t env x₁ y₁ s₁ = CEff.swift_hypotf t env x₂ y₂ s₂) ∧
    (∀ t x y s s', (CEff.swift_hypotf t env x y s).1 = (CEff.swift_hypotf t env x y s').1)) ∧
    ((∀ x s, CEff.swift_gammaf env x s = env.tgamma x s) ∧
    ((∀ x₁ x₂ s₁ s₂, x₁ = x₂ → s₁ = s₂ → CEff.swift_gammaf env x₁ s₁ = CEff.swift_gammaf env x₂ s₂) ∧
    (∀ x s s', (CEff.swift_gammaf env x s).1 = (CEff.swift_gammaf env x s').1))))) ∧
    ((((∀ x s, CEff.swift_log2f env x s = env.log2 x s) ∧
    (∀ x₁ x₂ s₁ s₂, x₁ = x₂ → s₁ = s₂ → CEff.swift_log2f env x₁ s₁ = CEff.swift_log2f env x₂ s₂)) ∧
    ((∀ x s s', (CEff.swift_log2f env x s).1 = (CEff.swift_log2f env x s').1) ∧
    (∀ x s, CEff.swift_log10f env x s = env.log10 x s))) ∧
    (((∀ x₁ x₂ s₁ s₂, x₁ = x₂ → s₁ = s₂ → CEff.swift_log10f env x₁ s₁ = CEff.swift_log10f env x₂ s₂) ∧
    (∀ x s s', (CEff.swift_log10f env x s).1 = (CEff.swift_log10f env x s').1)) ∧
    ((∀ x s, CEff.swift_lgammaf env x s = ((env.lgamma_r x s).1.1, (env.lgamma_r x s).2)) ∧
    ((∀ x₁ x₂ s₁ s₂, x₁ = x₂ → s₁ = s₂ → CEff.swift_lgammaf env x₁ s₁ = CEff.swift_lgammaf env x₂ s₂) ∧
    (∀ x s s', (CEff.swift_lgammaf env x s).1 = (CEff.swift_lgammaf env x s').1))))))) ∧
    ((((((∀ x s, CEff.swift_cos env x s = env.cos x s) ∧
    (∀ x₁ x₂ s₁ s₂, x₁ = x₂ → s₁ = s₂ → CEff.swift_cos env x₁ s₁ = CEff.swift_cos env x₂ s₂)) ∧
    ((∀ x s s', (CEff.swift_cos env x s).1 = (CEff.swift_cos env x s').1) ∧
    (∀ x s, CEff.swift_sin env x s = env.sin x s))) ∧
    (((∀ x₁ x₂ s₁ s₂, x₁ = x₂ → s₁ = s₂ → CEff.swift_sin env x₁ s₁ = CEff.swift_sin env x₂ s₂) ∧
    (∀ x s s', (CEff.swift_sin env x s).1 = (CEff.swift_sin env x s').1)) ∧
    ((∀ x s, CEff.swift_tan env x s = env.tan x s) ∧
    ((∀ x₁ x₂ s₁ s₂, x₁ = x₂ → s₁ = s₂ → CEff.swift_tan env x₁ s₁ = CEff.swift_tan env x₂ s₂) ∧
    (∀ x s s', (CEff.swift_tan env x s).1 = (CEff.swift_tan env x s').1))))) ∧
    ((((∀ x s, CEff.swift_acos env x s = env.acos x s) ∧
    (∀ x₁ x₂ s₁ s₂, x₁ = x₂ → s₁ = s₂ → CEff.swift_acos env x₁ s₁ = CEff.swift_acos env x₂ s₂)) ∧
    ((∀ x s s', (CEff.swift_acos env x s).1 = (CEff.swift_acos env x s').1) ∧
    (∀ x s, CEff.swift_asin env x s = env.asin x s))) ∧
    (((∀ x₁ x₂ s₁ s₂, x₁ = x₂ → s₁ = s₂ → CEff.swift_asin env x₁ s₁ = CEff.swift_asin env x₂ s₂) ∧
    (∀ x s s', (CEff.swift_asin env x s).1 = (CEff.swift_asin env x s').1)) ∧
    ((∀ x s, CEff.swift_atan env x s = env.atan x s) ∧
    ((∀ x₁ x₂ s₁ s₂, x₁ = x₂ → s₁ = s₂ → CEff.swift_atan env x₁ s₁ = CEff.swift_atan env x₂ s₂) ∧
    (∀ x s s', (CEff.swift_atan env x s).1 = (CEff.swift_atan env x s').1)))))) ∧
    (((((∀ x s, CEff.swift_cosh env x s = env.cosh x s) ∧
    (∀ x₁ x₂ s₁ s₂, x₁ = x₂ → s₁ = s₂ → CEff.swift_cosh env x₁ s₁ = CEff.swift_cosh env x₂ s₂)) ∧
    ((∀ x s s', (CEff.swift_cosh env x s).1 = (CEff.swift_cosh env x s').1) ∧
    (∀ x s, CEff.swift_sinh env x s = env.sinh x s))) ∧
    (((∀ x₁ x₂ s₁ s₂, x₁ = x₂ → s₁ = s₂ → CEff.swift_sinh env x₁ s₁ = CEff.swift_sinh env x₂ s₂) ∧
    (∀ x s s', (CEff.swift_sinh env x s).1 = (CEff.swift_sinh env x s').1)) ∧
    ((∀ x s, CEff.swift_tanh env x s = env.tanh x s) ∧
    ((∀ x₁ x₂ s₁ s₂, x₁ = x₂ → s₁ = s₂ → CEff.swift_tanh env x₁ s₁ = CEff.swift_tanh env x₂ s₂) ∧
    (∀ x s s', (CEff.swift_tanh env x s).1 = (CEff.swift_tanh env x s').1))))) ∧
    ((((∀ x s, CEff.swift_acosh env x s = env.acosh x s) ∧
    (∀ x₁ x₂ s₁ s₂, x₁ = x₂ → s₁ = s₂ → CEff.swift_acosh env x₁ s₁ = CEff.swift_acosh env x₂ s₂)) ∧
    ((∀ x s s', (CEff.swift_acosh env x s).1 = (CEff.swift_acosh env x s').1) ∧
    (∀ x s, CEff.swift_asinh env x s = env.asinh x s))) ∧
    (((∀ x₁ x₂ s₁ s₂, x₁ = x₂ → s₁ = s₂ → CEff.swift_asinh env x₁ s₁ = CEff.swift_asinh env x₂ s₂) ∧
    (∀ x s s', (CEff.swift_asinh env x s).1 = (CEff.swift_asinh env x s').1)) ∧
    ((∀ x s, CEff.swift_atanh env x s = env.atanh x s) ∧
    ((∀ x₁ x₂ s₁ s₂, x₁ = x₂ → s₁ = s₂ → CEff.swift_atanh env x₁ s₁ = CEff.swift_atanh env x₂ s₂) ∧
    (∀ x s s', (CEff.swift_atanh env x s).1 = (CEff.swift_atanh env x s').1)))))))) ∧
    (((((((∀ x s, CEff.swift_exp env x s = env.exp x s) ∧
    (∀ x₁ x₂ s₁ s₂, x₁ = x₂ → s₁ = s₂ → CEff.swift_exp env x₁ s₁ = CEff.swift_exp env x₂ s₂)) ∧
    ((∀ x s s', (CEff.swift_exp env x s).1 = (CEff.swift_exp env x s').1) ∧
    (∀ x s, CEff.swift_expm1 env x s = env.expm1 x s))) ∧
    (((∀ x₁ x₂ s₁ s₂, x₁ = x₂ → s₁ = s₂ → CEff.swift_expm1 env x₁ s₁ = CEff.swift_expm1 env x₂ s₂) ∧
    (∀ x s s', (CEff.swift_expm1 env x s).1 = (CEff.swift_expm1 env x s').1)) ∧
    ((∀ x s, CEff.swift_log env x s = env.log x s) ∧
    ((∀ x₁ x₂ s₁ s₂, x₁ = x₂ → s₁ = s₂ → CEff.swift_log env x₁ s₁ = CEff.swift_log env x₂ s₂) ∧
    (∀ x s s', (CEff.swift_log env x s).1 = (CEff.swift_log env x s').1))))) ∧
    ((((∀ x s, CEff.swift_log1p env x s = env.log1p x s) ∧
    (∀ x₁ x₂ s₁ s₂, x₁ = x₂ → s₁ = s₂ → CEff.swift_log1p env x₁ s₁ = CEff.swift_log1p env x₂ s₂)) ∧
    ((∀ x s s', (CEff.swift_log1p env x s).1 = (CEff.swift_log1p env x s').1) ∧
    (∀ x y s, CEff.swift_pow env x y s = env.pow x y s))) ∧
    (((∀ x₁ x₂ y₁ y₂ s₁ s₂, x₁ = x₂ → y₁ = y₂ → s₁ = s₂ → CEff.swift_pow env x₁ y₁ s₁ = CEff.swift_pow env x₂ y₂ s₂) ∧
    (∀ x y s s', (CEff.swift_pow env x y s).1 = (CEff.swift_pow env x y s').1)) ∧
    ((∀ y x s, CEff.swift_atan2 env y x s = env.atan2 y x s) ∧
    ((∀ y₁ y₂ x₁ x₂ s₁ s₂, y₁ = y₂ → x₁ = x₂ → s₁ = s₂ → CEff.swift_atan2 env y₁ x₁ s₁ = CEff.swift_atan2 env y₂ x₂ s₂) ∧
    (∀ y x s s', (CEff.swift_atan2 env y x s).1 = (CEff.swift_atan2 env y x s').1)))))) ∧
    (((((∀ x s, CEff.swift_erf env x s = env.erf x s) ∧
    (∀ x₁ x₂ s₁ s₂, x₁ = x₂ → s₁ = s₂ → CEff.swift_erf env x₁ s₁ = CEff.swift_erf env x₂ s₂)) ∧
    ((∀ x s s', (CEff.swift_erf env x s).1 = (CEff.swift_erf env x s').1) ∧
    (∀ x s, CEff.swift_erfc env x s = env.erfc x s))) ∧
    (((∀ x₁ x₂ s₁ s₂, x₁ = x₂ → s₁ = s₂ → CEff.swift_erfc env x₁ s₁ = CEff.swift_erfc env x₂ s₂) ∧
    (∀ x s s', (CEff.swift_erfc env x s).1 = (CEff.swift_erfc env x s').1)) ∧
    ((∀ x s, CEff.swift_exp2 env x s = env.exp2 x s) ∧
    ((∀ x₁ x₂ s₁ s₂, x₁ = x₂ → s₁ = s₂ → CEff.swift_exp2 env x₁ s₁ = CEff.swift_exp2 env x₂ s₂) ∧
    (∀ x s s', (CEff.swift_exp2 env x s).1 = (CEff.swift_exp2 env x s').1))))) ∧
    ((((∀ x y s, CEff.swift_hypot env x y s = env.hypot x y s) ∧
    (∀ x₁ x₂ y₁ y₂ s₁ s₂, x₁ = x₂ → y₁ = y₂ → s₁ = s₂ → CEff.swift_hypot env x₁ y₁ s₁ = CEff.swift_hypot env x₂ y₂ s₂)) ∧
    ((∀ x y s s', (CEff.swift_hypot env x y s).1 = (CEff.swift_hypot env x y s').1) ∧
    (∀ x s, CEff.swift_gamma env x s = env.tgamma x s))) ∧
    (((∀ x₁ x₂ s₁ s₂, x₁ = x₂ → s₁ = s₂ → CEff.swift_gamma env x₁ s₁ = CEff.swift_gamma env x₂ s₂) ∧
    (∀ x s s', (CEff.swift_gamma env x s).1 = (CEff.swift_gamma env x s').1)) ∧
    ((∀ x s, CEff.swift_log2 env x s = env.log2 x s) ∧
    ((∀ x₁ x₂ s₁ s₂, x₁ = x₂ → s₁ = s₂ → CEff.swift_log2 env x₁ s₁ = CEff.swift_log2 env x₂ s₂) ∧
    (∀ x s s', (CEff.swift_log2 env x s).1 = (CEff.swift_log2 env x s').1))))))) ∧
    ((((((∀ x s, CEff.swift_log10 env x s = env.log10 x s) ∧
    (∀ x₁ x₂ s₁ s₂, x₁ = x₂ → s₁ = s₂ → CEff.swift_log10 env x₁ s₁ = CEff.swift_log10 env x₂ s₂)) ∧
    ((∀ x s s', (CEff.swift_log10 env x s).1 = (CEff.swift_log10 env x s').1) ∧
    (∀ x s, CEff.swift_cosl env x s = env.cos x s))) ∧
    (((∀ x₁ x₂ s₁ s₂, x₁ = x₂ → s₁ = s₂ → CEff.swift_cosl env x₁ s₁ = CEff.swift_cosl env x₂ s₂) ∧
    (∀ x s s', (CEff.swift_cosl env x s).1 = (CEff.swift_cosl env x s').1)) ∧
    ((∀ x s, CEff.swift_sinl env x s = env.sin x s) ∧
    ((∀ x₁ x₂ s₁ s₂, x₁ = x₂ → s₁ = s₂ → CEff.swift_sinl env x₁ s₁ = CEff.swift_sinl env x₂ s₂) ∧
    (∀ x s s', (CEff.swift_sinl env x s).1 = (CEff.swift_sinl env x s').1))))) ∧
    ((((∀ x s, CEff.swift_tanl env x s = env.tan x s) ∧
    (∀ x₁ x₂ s₁ s₂, x₁ = x₂ → s₁ = s₂ → CEff.swift_tanl env x₁ s₁ = CEff.swift_tanl env x₂ s₂)) ∧
    ((∀ x s s', (CEff.swift_tanl env x s).1 = (CEff.swift_tanl env x s').1) ∧
    (∀ x s, CEff.swift_acosl env x s = env.acos x s))) ∧
    (((∀ x₁ x₂ s₁ s₂, x₁ = x₂ → s₁ = s₂ → CEff.swift_acosl env x₁ s₁ = CEff.swift_acosl env x₂ s₂) ∧
    (∀ x s s', (CEff.swift_acosl env x s).1 = (CEff.swift_acosl env x s').1)) ∧
    ((∀ x s, CEff.swift_asinl env x s = env.asin x s) ∧
    ((∀ x₁ x₂ s₁ s₂, x₁ = x₂ → s₁ = s₂ → CEff.swift_asinl env x₁ s₁ = CEff.swift_asinl env x₂ s₂) ∧
    (∀ x s s', (CEff.swift_asinl env x s).1 = (CEff.swift_asinl env x s').1)))))) ∧
    (((((∀ x s, CEff.swift_atanl env x s = env.atan x s) ∧
    (∀ x₁ x₂ s₁ s₂, x₁ = x₂ → s₁ = s₂ → CEff.swift_atanl env x₁ s₁ = CEff.swift_atanl env x₂ s₂)) ∧
    ((∀ x s s', (CEff.swift_atanl env x s).1 = (CEff.swift_atanl env x s').1) ∧
    (∀ x s, CEff.swift_coshl env x s = env.cosh x s))) ∧
    (((∀ x₁ x₂ s₁ s₂, x₁ = x₂ → s₁ = s₂ → CEff.swift_coshl env x₁ s₁ = CEff.swift_coshl env x₂ s₂) ∧
    (∀ x s s', (CEff.swift_coshl env x s).1 = (CEff.swift_coshl env x s').1)) ∧
    ((∀ x s, CEff.swift_sinhl env x s = env.sinh x s) ∧
    ((∀ x₁ x₂ s₁ s₂, x₁ = x₂ → s₁ = s₂ → CEff.swift_sinhl env x₁ s₁ = CEff.swift_sinhl env x₂ s₂) ∧
    (∀ x s s', (CEff.swift_sinhl env x s).1 = (CEff.swift_sinhl env x s').1))))) ∧
    ((((∀ x s, CEff.swift_tanhl env x s = env.tanh x s) ∧
    (∀ x₁ x₂ s₁ s₂, x₁ = x₂ → s₁ = s₂ → CEff.swift_tanhl env x₁ s₁ = CEff.swift_tanhl env x₂ s₂)) ∧
    ((∀ x s s', (CEff.swift_tanhl env x s).1 = (CEff.swift_tanhl env x s').1) ∧
    (∀ x s, CEff.swift_acoshl env x s = env.acosh x s))) ∧
    (((∀ x₁ x₂ s₁ s₂, x₁ = x₂ → s₁ = s₂ → CEff.swift_acoshl env x₁ s₁ = CEff.swift_acoshl env x₂ s₂) ∧
    (∀ x s s', (CEff.swift_acoshl env x s).1 = (CEff.swift_acoshl env x s').1)) ∧
    ((∀ x s, CEff.swift_asinhl env x s = env.asinh x s) ∧
    ((∀ x₁ x₂ s₁ s₂, x₁ = x₂ → s₁ = s₂ → CEff.swift_asinhl env x₁ s₁ = CEff.swift_asinhl env x₂ s₂) ∧
    (∀ x s s', (CEff.swift_asinhl env x s).1 = (CEff.swift_asinhl env x s').1))))))))) ∧
    ((((((((∀ x s, CEff.swift_atanhl env x s = env.atanh x s) ∧
    (∀ x₁ x₂ s₁ s₂, x₁ = x₂ → s₁ = s₂ → CEff.swift_atanhl env x₁ s₁ = CEff.swift_atanhl env x₂ s₂)) ∧
    ((∀ x s s', (CEff.swift_atanhl env x s).1 = (CEff.swift_atanhl env x s').1) ∧
    (∀ x s, CEff.swift_expl env x s = env.exp x s))) ∧
    (((∀ x₁ x₂ s₁ s₂, x₁ = x₂ → s₁ = s₂ → CEff.swift_expl env x₁ s₁ = CEff.swift_expl env x₂ s₂) ∧
    (∀ x s s', (CEff.swift_expl env x s).1 = (CEff.swift_expl env x s').1)) ∧
    ((∀ x s, CEff.swift_expm1l env x s = env.expm1 x s) ∧
    ((∀ x₁ x₂ s₁ s₂, x₁ = x₂ → s₁ = s₂ → CEff.swift_expm1l env x₁ s₁ = CEff.swift_expm1l env x₂ s₂) ∧
    (∀ x s s', (CEff.swift_expm1l env x s).1 = (CEff.swift_expm1l env x s').1))))) ∧
    ((((∀ x s, CEff.swift_logl env x s = env.log x s) ∧
    (∀ x₁ x₂ s₁ s₂, x₁ = x₂ → s₁ = s₂ → CEff.swift_logl env x₁ s₁ = CEff.swift_logl env x₂ s₂)) ∧
    ((∀ x s s', (CEff.swift_logl env x s).1 = (CEff.swift_logl env x s').1) ∧
    (∀ x s, CEff.swift_log1pl env x s = env.log1p x s))) ∧
    (((∀ x₁ x₂ s₁ s₂, x₁ = x₂ → s₁ = s₂ → CEff.swift_log1pl env x₁ s₁ = CEff.swift_log1pl env x₂ s₂) ∧
    (∀ x s s', (CEff.swift_log1pl env x s).1 = (CEff.swift_log1pl env x s').1)) ∧
    ((∀ x y s, CEff.swift_powl env x y s = env.pow x y s) ∧
    ((∀ x₁ x₂ y₁ y₂ s₁ s₂, x₁ = x₂ → y₁ = y₂ → s₁ = s₂ → CEff.swift_powl env x₁ y₁ s₁ = CEff.swift_powl env x₂ y₂ s₂) ∧
    (∀ x y s s', (CEff.swift_powl env x y s).1 = (CEff.swift_powl env x y s').1)))))) ∧
    (((((∀ y x s, CEff.swift_atan2l env y x s = env.atan2 y x s) ∧
    (∀ y₁ y₂ x₁ x₂ s₁ s₂, y₁ = y₂ → x₁ = x₂ → s₁ = s₂ → CEff.swift_atan2l env y₁ x₁ s₁ = CEff.swift_atan2l env y₂ x₂ s₂)) ∧
    ((∀ y x s s', (CEff.swift_atan2l env y x s).1 = (CEff.swift_atan2l env y x s').1) ∧
    (∀ x s, CEff.swift_erfl env x s = env.erf x s))) ∧
    (((∀ x₁ x₂ s₁ s₂, x₁ = x₂ → s₁ = s₂ → CEff.swift_erfl env x₁ s₁ = CEff.swift_erfl env x₂ s₂) ∧
    (∀ x s s', (CEff.swift_erfl env x s).1 = (CEff.swift_erfl env x s').1)) ∧
    ((∀ x s, CEff.swift_erfcl env x s = env.erfc x s) ∧
    ((∀ x₁ x₂ s₁ s₂, x₁ = x₂ → s₁ = s₂ → CEff.swift_erfcl env x₁ s₁ = CEff.swift_erfcl env x₂ s₂) ∧
    (∀ x s s', (CEff.swift_erfcl env x s).1 = (CEff.swift_erfcl env x s').1))))) ∧
    ((((∀ x s, CEff.swift_exp2l env x s = env.exp2 x s) ∧
    (∀ x₁ x₂ s₁ s₂, x₁ = x₂ → s₁ = s₂ → CEff.swift_exp2l env x₁ s₁ = CEff.swift_exp2l env x₂ s₂)) ∧
    ((∀ x s s', (CEff.swift_exp2l env x s).1 = (CEff.swift_exp2l env x s').1) ∧
    (∀ x y s, CEff.swift_hypotl env x y s = env.hypot x y s))) ∧
    (((∀ x₁ x₂ y₁ y₂ s₁ s₂, x₁ = x₂ → y₁ = y₂ → s₁ = s₂ → CEff.swift_hypotl env x₁ y₁ s₁ = CEff.swift_hypotl env x₂ y₂ s₂) ∧
    (∀ x y s s', (CEff.swift_hypotl env x y s).1 = (CEff.swift_hypotl env x y s').1)) ∧
    ((∀ x s, CEff.swift_gammal env x s = env.tgamma x s) ∧
    ((∀ x₁ x₂ s₁ s₂, x₁ = x₂ → s₁ = s₂ → CEff.swift_gammal env x₁ s₁ = CEff.swift_gammal env x₂ s₂) ∧
    (∀ x s s', (CEff.swift_gammal env x s).1 = (CEff.swift_gammal env x s').1))))))) ∧
    ((((((∀ x s, CEff.swift_log2l env x s = env.log2 x s) ∧
    (∀ x₁ x₂ s₁ s₂, x₁ = x₂ → s₁ = s₂ → CEff.swift_log2l env x₁ s₁ = CEff.swift_log2l env x₂ s₂)) ∧
    ((∀ x s s', (CEff.swift_log2l env x s).1 = (CEff.swift_log2l env x s').1) ∧
    (∀ x s, CEff.swift_log10l env x s = env.log10 x s))) ∧
    (((∀ x₁ x₂ s₁ s₂, x₁ = x₂ → s₁ = s₂ → CEff.swift_log10l env x₁ s₁ = CEff.swift_log10l env x₂ s₂) ∧
    (∀ x s s', (CEff.swift_log10l env x s).1 = (CEff.swift_log10l env x s').1)) ∧
    ((∀ x s, CEff.swift_lgammal env x s = ((env.lgamma_r x s).1.1, (env.lgamma_r x s).2)) ∧
    ((∀ x₁ x₂ s₁ s₂, x₁ = x₂ → s₁ = s₂ → CEff.swift_lgammal env x₁ s₁ = CEff.swift_lgammal env x₂ s₂) ∧
    (∀ x s s', (CEff.swift_lgammal env x s).1 = (CEff.swift_lgammal env x s').1))))) ∧
    ((((∀ z s, CEff._cexp cenv z s = (⟨(cenv.cexp ⟨z.real, z.imag⟩ s).1.re, (cenv.cexp ⟨z.real, z.imag⟩ s).1.im⟩, (cenv.cexp ⟨z.real, z.imag⟩ s).2)) ∧
    (∀ z₁ z₂ s₁ s₂, z₁ = z₂ → s₁ = s₂ → CEff._cexp cenv z₁ s₁ = CEff._cexp cenv z₂ s₂)) ∧
    ((∀ z s s', (CEff._cexp cenv z s).1 = (CEff._cexp cenv z s').1) ∧
    (∀ z w s, CEff._cpow cenv z w s = (⟨(cenv.cpow ⟨z.real, z.imag⟩ ⟨w.real, w.imag⟩ s).1.re, (cenv.cpow ⟨z.real, z.imag⟩ ⟨w.real, w.imag⟩ s).1.im⟩, (cenv.cpow ⟨z.real, z.imag⟩ ⟨w.real, w.imag⟩ s).2)))) ∧
    (((∀ z₁ z₂ w₁ w₂ s₁ s₂, z₁ = z₂ → w₁ = w₂ → s₁ = s₂ → CEff._cpow cenv z₁ w₁ s₁ = CEff._cpow cenv z₂ w₂ s₂) ∧
    (∀ z w s s', (CEff._cpow cenv z w s).1 = (CEff._cpow cenv z w s').1)) ∧
    ((∀ z s, CEff._csqrt cenv z s = (⟨(cenv.csqrt ⟨z.real, z.imag⟩ s).1.re, (cenv.csqrt ⟨z.real, z.imag⟩ s).1.im⟩, (cenv.csqrt ⟨z.real, z.imag⟩ s).2)) ∧
    ((∀ z₁ z₂ s₁ s₂, z₁ = z₂ → s₁ = s₂ → CEff._csqrt cenv z₁ s₁ = CEff._csqrt cenv z₂ s₂) ∧
    (∀ z s s', (CEff._csqrt cenv z s).1 = (CEff._csqrt cenv z s').1)))))) ∧
    (((((∀ z s, CEff._csin cenv z s = (⟨(cenv.csin ⟨z.real, z.imag⟩ s).1.re, (cenv.csin ⟨z.real, z.imag⟩ s).1.im⟩, (cenv.csin ⟨z.real, z.imag⟩ s).2)) ∧
    (∀ z₁ z₂ s₁ s₂, z₁ = z₂ → s₁ = s₂ → CEff._csin cenv z₁ s₁ = CEff._csin cenv z₂ s₂)) ∧
    ((∀ z s s', (CEff._csin cenv z s).1 = (CEff._csin cenv z s').1) ∧
    (∀ z s, CEff._ccos cenv z s = (⟨(cenv.ccos ⟨z.real, z.imag⟩ s).1.re, (cenv.ccos ⟨z.real, z.imag⟩ s).1.im⟩, (cenv.ccos ⟨z.real, z.imag⟩ s).2)))) ∧
    (((∀ z₁ z₂ s₁ s₂, z₁ = z₂ → s₁ = s₂ → CEff._ccos cenv z₁ s₁ = CEff._ccos cenv z₂ s₂) ∧
    (∀ z s s', (CEff._ccos cenv z s).1 = (CEff._ccos cenv z s').1)) ∧
    ((∀ z s, CEff._ctan cenv z s = (⟨(cenv.ctan ⟨z.real, z.imag⟩ s).1.re, (cenv.ctan ⟨z.real, z.imag⟩ s).1.im⟩, (cenv.ctan ⟨z.real, z.imag⟩ s).2)) ∧
    ((∀ z₁ z₂ s₁ s₂, z₁ = z₂ → s₁ = s₂ → CEff._ctan cenv z₁ s₁ = CEff._ctan cenv z₂ s₂) ∧
    (∀ z s s', (CEff._ctan cenv z s).1 = (CEff._ctan cenv z s').1))))) ∧
    ((((∀ z s, CEff._casin cenv z s = (⟨(cenv.casin ⟨z.real, z.imag⟩ s).1.re, (cenv.casin ⟨z.real, z.imag⟩ s).1.im⟩, (cenv.casin ⟨z.real, z.imag⟩ s).2)) ∧
    (∀ z₁ z₂ s₁ s₂, z₁ = z₂ → s₁ = s₂ → CEff._casin cenv z₁ s₁ = CEff._casin cenv z₂ s₂)) ∧
    ((∀ z s s', (CEff._casin cenv z s).1 = (CEff._casin cenv z s').1) ∧
    (∀ z s, CEff._cacos cenv z s = (⟨(cenv.cacos ⟨z.real, z.imag⟩ s).1.re, (cenv.cacos ⟨z.real, z.imag⟩ s).1.im⟩, (cenv.cacos ⟨z.real, z.imag⟩ s).2)))) ∧
    (((∀ z₁ z₂ s₁ s₂, z₁ = z₂ → s₁ = s₂ → CEff._cacos cenv z₁ s₁ = CEff._cacos cenv z₂ s₂) ∧
    (∀ z s s', (CEff._cacos cenv z s).1 = (CEff._cacos cenv z s').1)) ∧
    ((∀ z s, CEff._catan cenv z s = (⟨(cenv.catan ⟨z.real, z.imag⟩ s).1.re, (cenv.catan ⟨z.real, z.imag⟩ s).1.im⟩, (cenv.catan ⟨z.real, z.imag⟩ s).2)) ∧
    ((∀ z₁ z₂ s₁ s₂, z₁ = z₂ → s₁ = s₂ → CEff._catan cenv z₁ s₁ = CEff._catan cenv z₂ s₂) ∧
    (∀ z s s', (CEff._catan cenv z s).1 = (CEff._catan cenv z s').1)))))))) ∧
    (((((((∀ z s, CEff._csinh cenv z s = (⟨(cenv.csinh ⟨z.real, z.imag⟩ s).1.re, (cenv.csinh ⟨z.real, z.imag⟩ s).1.im⟩, (cenv.csinh ⟨z.real, z.imag⟩ s).2)) ∧
    (∀ z₁ z₂ s₁ s₂, z₁ = z₂ → s₁ = s₂ → CEff._csinh cenv z₁ s₁ = CEff._csinh cenv z₂ s₂)) ∧
    ((∀ z s s', (CEff._csinh cenv z s).1 = (CEff._csinh cenv z s').1) ∧
    (∀ z s, CEff._ccosh cenv z s = (⟨(cenv.ccosh ⟨z.real, z.imag⟩ s).1.re, (cenv.ccosh ⟨z.real, z.imag⟩ s).1.im⟩, (cenv.ccosh ⟨z.real, z.imag⟩ s).2)))) ∧
    (((∀ z₁ z₂ s₁ s₂, z₁ = z₂ → s₁ = s₂ → CEff._ccosh cenv z₁ s₁ = CEff._ccosh cenv z₂ s₂) ∧
    (∀ z s s', (CEff._ccosh cenv z s).1 = (CEff._ccosh cenv z s').1)) ∧
    ((∀ z s, CEff._ctanh cenv z s = (⟨(cenv.ctanh ⟨z.real, z.imag⟩ s).1.re, (cenv.ctanh ⟨z.real, z.imag⟩ s).1.im⟩, (cenv.ctanh ⟨z.real, z.imag⟩ s).2)) ∧
    ((∀ z₁ z₂ s₁ s₂, z₁ = z₂ → s₁ = s₂ → CEff._ctanh cenv z₁ s₁ = CEff._ctanh cenv z₂ s₂) ∧
    (∀ z s s', (CEff._ctanh cenv z s).1 = (CEff._ctanh cenv z s').1))))) ∧
    ((((∀ z s, CEff._casinh cenv z s = (⟨(cenv.casinh ⟨z.real, z.imag⟩ s).1.re, (cenv.casinh ⟨z.real, z.imag⟩ s).1.im⟩, (cenv.casinh ⟨z.real, z.imag⟩ s).2)) ∧
    (∀ z₁ z₂ s₁ s₂, z₁ = z₂ → s₁ = s₂ → CEff._casinh cenv z₁ s₁ = CEff._casinh cenv z₂ s₂)) ∧
    ((∀ z s s', (CEff._casinh cenv z s).1 = (CEff._casinh cenv z s').1) ∧
    (∀ z s, CEff._cacosh cenv z s = (⟨(cenv.cacosh ⟨z.real, z.imag⟩ s).1.re, (cenv.cacosh ⟨z.real, z.imag⟩ s).1.im⟩, (cenv.cacosh ⟨z.real, z.imag⟩ s).2)))) ∧
    (((∀ z₁ z₂ s₁ s₂, z₁ = z₂ → s₁ = s₂ → CEff._cacosh cenv z₁ s₁ = CEff._cacosh cenv z₂ s₂) ∧
    (∀ z s s', (CEff._cacosh cenv z s).1 = (CEff._cacosh cenv z s').1)) ∧
    ((∀ z s, CEff._catanh cenv z s = (⟨(cenv.catanh ⟨z.real, z.imag⟩ s).1.re, (cenv.catanh ⟨z.real, z.imag⟩ s).1.im⟩, (cenv.catanh ⟨z.real, z.imag⟩ s).2)) ∧
    ((∀ z₁ z₂ s₁ s₂, z₁ = z₂ → s₁ = s₂ → CEff._catanh cenv z₁ s₁ = CEff._catanh cenv z₂ s₂) ∧
    (∀ z s s', (CEff._catanh cenv z s).1 = (CEff._catanh cenv z s').1)))))) ∧
    (((((∀ z s, CEff._cexpf cenv z s = (⟨(cenv.cexp ⟨z.real, z.imag⟩ s).1.re, (cenv.cexp ⟨z.real, z.imag⟩ s).1.im⟩, (cenv.cexp ⟨z.real, z.imag⟩ s).2)) ∧
    (∀ z₁ z₂ s₁ s₂, z₁ = z₂ → s₁ = s₂ → CEff._cexpf cenv z₁ s₁ = CEff._cexpf cenv z₂ s₂)) ∧
    ((∀ z s s', (CEff._cexpf cenv z s).1 = (CEff._cexpf cenv z s').1) ∧
    (∀ z s, CEff._clogf cenv z s = (⟨(cenv.clog ⟨z.real, z.imag⟩ s).1.re, (cenv.clog ⟨z.real, z.imag⟩ s).1.im⟩, (cenv.clog ⟨z.real, z.imag⟩ s).2)))) ∧
    (((∀ z₁ z₂ s₁ s₂, z₁ = z₂ → s₁ = s₂ → CEff._clogf cenv z₁ s₁ = CEff._clogf cenv z₂ s₂) ∧
    (∀ z s s', (CEff._clogf cenv z s).1 = (CEff._clogf cenv z s').1)) ∧
    ((∀ z w s, CEff._cpowf cenv z w s = (⟨(cenv.cpow ⟨z.real, z.imag⟩ ⟨w.real, w.imag⟩ s).1.re, (cenv.cpow ⟨z.real, z.imag⟩ ⟨w.real, w.imag⟩ s).1.im⟩, (cenv.cpow ⟨z.real, z.imag⟩ ⟨w.real, w.imag⟩ s).2)) ∧
    ((∀ z₁ z₂ w₁ w₂ s₁ s₂, z₁ = z₂ → w₁ = w₂ → s₁ = s₂ → CEff._cpowf cenv z₁ w₁ s₁ = CEff._cpowf cenv z₂ w₂ s₂) ∧
    (∀ z w s s', (CEff._cpowf cenv z w s).1 = (CEff._cpowf cenv z w s').1))))) ∧
    ((((∀ z s, CEff._csqrtf cenv z s = (⟨(cenv.csqrt ⟨z.real, z.imag⟩ s).1.re, (cenv.csqrt ⟨z.real, z.imag⟩ s).1.im⟩, (cenv.csqrt ⟨z.real, z.imag⟩ s).2)) ∧
    (∀ z₁ z₂ s₁ s₂, z₁ = z₂ → s₁ = s₂ → CEff._csqrtf cenv z₁ s₁ = CEff._csqrtf cenv z₂ s₂)) ∧
    ((∀ z s s', (CEff._csqrtf cenv z s).1 = (CEff._csqrtf cenv z s').1) ∧
    (∀ z s, CEff._csinf cenv z s = (⟨(cenv.csin ⟨z.real, z.imag⟩ s).1.re, (cenv.csin ⟨z.real, z.imag⟩ s).1.im⟩, (cenv.csin ⟨z.real, z.imag⟩ s).2)))) ∧
    (((∀ z₁ z₂ s₁ s₂, z₁ = z₂ → s₁ = s₂ → CEff._csinf cenv z₁ s₁ = CEff._csinf cenv z₂ s₂) ∧
    (∀ z s s', (CEff._csinf cenv z s).1 = (CEff._csinf cenv z s').1)) ∧
    ((∀ z s, CEff._ccosf cenv z s = (⟨(cenv.ccos ⟨z.real, z.imag⟩ s).1.re, (cenv.ccos ⟨z.real, z.imag⟩ s).1.im⟩, (cenv.ccos ⟨z.real, z.imag⟩ s).2)) ∧
    ((∀ z₁ z₂ s₁ s₂, z₁ = z₂ → s₁ = s₂ → CEff._ccosf cenv z₁ s₁ = CEff._ccosf cenv z₂ s₂) ∧
    (∀ z s s', (CEff._ccosf cenv z s).1 = (CEff._ccosf cenv z s').1))))))) ∧
    ((((((∀ z s, CEff._ctanf cenv z s = (⟨(cenv.ctan ⟨z.real, z.imag⟩ s).1.re, (cenv.ctan ⟨z.real, z.imag⟩ s).1.im⟩, (cenv.ctan ⟨z.real, z.imag⟩ s).2)) ∧
    (∀ z₁ z₂ s₁ s₂, z₁ = z₂ → s₁ = s₂ → CEff._ctanf cenv z₁ s₁ = CEff._ctanf cenv z₂ s₂)) ∧
    ((∀ z s s', (CEff._ctanf cenv z s).1 = (CEff._ctanf cenv z s').1) ∧
    (∀ z s, CEff._casinf cenv z s = (⟨(cenv.casin ⟨z.real, z.imag⟩ s).1.re, (cenv.casin ⟨z.real, z.imag⟩ s).1.im⟩, (cenv.casin ⟨z.real, z.imag⟩ s).2)))) ∧
    (((∀ z₁ z₂ s₁ s₂, z₁ = z₂ → s₁ = s₂ → CEff._casinf cenv z₁ s₁ = CEff._casinf cenv z₂ s₂) ∧
    (∀ z s s', (CEff._casinf cenv z s).1 = (CEff._casinf cenv z s').1)) ∧
    ((∀ z s, CEff._cacosf cenv z s = (⟨(cenv.cacos ⟨z.real, z.imag⟩ s).1.re, (cenv.cacos ⟨z.real, z.imag⟩ s).1.im⟩, (cenv.cacos ⟨z.real, z.imag⟩ s).2)) ∧
    ((∀ z₁ z₂ s₁ s₂, z₁ = z₂ → s₁ = s₂ → CEff._cacosf cenv z₁ s₁ = CEff._cacosf cenv z₂ s₂) ∧
    (∀ z s s', (CEff._cacosf cenv z s).1 = (CEff._cacosf cenv z s').1))))) ∧
    ((((∀ z s, CEff._catanf cenv z s = (⟨(cenv.catan ⟨z.real, z.imag⟩ s).1.re, (cenv.catan ⟨z.real, z.imag⟩ s).1.im⟩, (cenv.catan ⟨z.real, z.imag⟩ s).2)) ∧
    (∀ z₁ z₂ s₁ s₂, z₁ = z₂ → s₁ = s₂ → CEff._catanf cenv z₁ s₁ = CEff._catanf cenv z₂ s₂)) ∧
    ((∀ z s s', (CEff._catanf cenv z s).1 = (CEff._catanf cenv z s').1) ∧
    (∀ z s, CEff._csinhf cenv z s = (⟨(cenv.csinh ⟨z.real, z.imag⟩ s).1.re, (cenv.csinh ⟨z.real, z.imag⟩ s).1.im⟩, (cenv.csinh ⟨z.real, z.imag⟩ s).2)))) ∧
    (((∀ z₁ z₂ s₁ s₂, z₁ = z₂ → s₁ = s₂ → CEff._csinhf cenv z₁ s₁ = CEff._csinhf cenv z₂ s₂) ∧
    (∀ z s s', (CEff._csinhf cenv z s).1 = (CEff._csinhf cenv z s').1)) ∧
    ((∀ z s, CEff._ccoshf cenv z s = (⟨(cenv.ccosh ⟨z.real, z.imag⟩ s).1.re, (cenv.ccosh ⟨z.real, z.imag⟩ s).1.im⟩, (cenv.ccosh ⟨z.real, z.imag⟩ s).2)) ∧
    ((∀ z₁ z₂ s₁ s₂, z₁ = z₂ → s₁ = s₂ → CEff._ccoshf cenv z₁ s₁ = CEff._ccoshf cenv z₂ s₂) ∧
    (∀ z s s', (CEff._ccoshf cenv z s).1 = (CEff._ccoshf cenv z s').1)))))) ∧
    (((((∀ z s, CEff._ctanhf cenv z s = (⟨(cenv.ctanh ⟨z.real, z.imag⟩ s).1.re, (cenv.ctanh ⟨z.real, z.imag⟩ s).1.im⟩, (cenv.ctanh ⟨z.real, z.imag⟩ s).2)) ∧
    (∀ z₁ z₂ s₁ s₂, z₁ = z₂ → s₁ = s₂ → CEff._ctanhf cenv z₁ s₁ = CEff._ctanhf cenv z₂ s₂)) ∧
    ((∀ z s s', (CEff._ctanhf cenv z s).1 = (CEff._ctanhf cenv z s').1) ∧
    (∀ z s, CEff._casinhf cenv z s = (⟨(cenv.casinh ⟨z.real, z.imag⟩ s).1.re, (cenv.casinh ⟨z.real, z.imag⟩ s).1.im⟩, (cenv.casinh ⟨z.real, z.imag⟩ s).2)))) ∧
    (((∀ z₁ z₂ s₁ s₂, z₁ = z₂ → s₁ = s₂ → CEff._casinhf cenv z₁ s₁ = CEff._casinhf cenv z₂ s₂) ∧
    (∀ z s s', (CEff._casinhf cenv z s).1 = (CEff._casinhf cenv z s').1)) ∧
    ((∀ z s, CEff._cacoshf cenv z s = (⟨(cenv.cacosh ⟨z.real, z.imag⟩ s).1.re, (cenv.cacosh ⟨z.real, z.imag⟩ s).1.im⟩, (cenv.cacosh ⟨z.real, z.imag⟩ s).2)) ∧
    ((∀ z₁ z₂ s₁ s₂, z₁ = z₂ → s₁ = s₂ → CEff._cacoshf cenv z₁ s₁ = CEff._cacoshf cenv z₂ s₂) ∧
    (∀ z s s', (CEff._cacoshf cenv z s).1 = (CEff._cacoshf cenv z s').1))))) ∧
    ((((∀ z s, CEff._catanhf cenv z s = (⟨(cenv.catanh ⟨z.real, z.imag⟩ s).1.re, (cenv.catanh ⟨z.real, z.imag⟩ s).1.im⟩, (cenv.catanh ⟨z.real, z.imag⟩ s).2)) ∧
    (∀ z₁ z₂ s₁ s₂, z₁ = z₂ → s₁ = s₂ → CEff._catanhf cenv z₁ s₁ = CEff._catanhf cenv z₂ s₂)) ∧
    ((∀ z s s', (CEff._catanhf cenv z s).1 = (CEff._catanhf cenv z s').1) ∧
    (∀ (a b c : R) (s : S), CEff._numerics_muladdf a b c s = (a * b + c, s)))) ∧
    (((∀ (a₁ a₂ b₁ b₂ c₁ c₂ : R) (s₁ s₂ : S), a₁ = a₂ → b₁ = b₂ → c₁ = c₂ → s₁ = s₂ → CEff._numerics_muladdf a₁ b₁ c₁ s₁ = CEff._numerics_muladdf a₂ b₂ c₂ s₂) ∧
    (∀ (a b c : R) (s s' : S), (CEff._numerics_muladdf a b c s).1 = (CEff._numerics_muladdf a b c s').1)) ∧
    ((∀ (a b c : R) (s : S), CEff._numerics_muladd a b c s = (a * b + c, s)) ∧
    ((∀ (a₁ a₂ b₁ b₂ c₁ c₂ : R) (s₁ s₂ : S), a₁ = a₂ → b₁ = b₂ → c₁ = c₂ → s₁ = s₂ → CEff._numerics_muladd a₁ b₁ c₁ s₁ = CEff._numerics_muladd a₂ b₂ c₂ s₂) ∧
    (∀ (a b c : R) (s s' : S), (CEff._numerics_muladd a b c s).1 = (CEff._numerics_muladd a b c s').1))))))))))) :=
  ⟨fun _ _ => rfl,
   (fun _ _ _ _ hx hs => by rw [hx, hs]),
   (fun x s s' => h.exp x s s'),
   fun _ _ => rfl,
   (fun _ _ _ _ hz hs => by rw [hz, hs]),
   (fun z s s' => congrArg (fun c : CComplex R => CxPair.mk c.re c.im) (hc.clog ⟨z.real, z.imag⟩ s s')),
   fun _ _ => rfl,
   (fun _ _ _ _ hx hs => by rw [hx, hs]),
   (fun x s s' => show (env.lgamma_r x s).1.1 = (env.lgamma_r x s').1.1 from congrArg Prod.fst (h.lgamma_r x s s')),
   ⟨⟨⟨⟨⟨⟨⟨⟨⟨fun _ _ => rfl,
   (fun _ _ _ _ hx hs => by rw [hx, hs])⟩,
   ⟨(fun x s s' => h.cos x s s'),
   fun _ _ => rfl⟩⟩,
   ⟨⟨(fun _ _ _ _ hx hs => by rw [hx, hs]),
   (fun x s s' => h.sin x s s')⟩,
   ⟨fun _ _ => rfl,
   ⟨(fun _ _ _ _ hx hs => by rw [hx, hs]),
   (fun x s s' => h.tan x s s')⟩⟩⟩⟩,
   ⟨⟨⟨fun _ _ => rfl,
   (fun _ _ _ _ hx hs => by rw [hx, hs])⟩,
   ⟨(fun x s s' => h.acos x s s'),
   fun _ _ => rfl⟩⟩,
   ⟨⟨(fun _ _ _ _ hx hs => by rw [hx, hs]),
   (fun x s s' => h.asin x s s')⟩,
   ⟨fun _ _ => rfl,
   ⟨(fun _ _ _ _ hx hs => by rw [hx, hs]),
   (fun x s s' => h.atan x s s')⟩⟩⟩⟩⟩,
   ⟨⟨⟨⟨fun _ _ => rfl,
   (fun _ _ _ _ hx hs => by rw [hx, hs])⟩,
   ⟨(fun x s s' => h.cosh x s s'),
   fun _ _ => rfl⟩⟩,
   ⟨⟨(fun _ _ _ _ hx hs => by rw [hx, hs]),
   (fun x s s' => h.sinh x s s')⟩,
   ⟨fun _ _ => rfl,
   ⟨(fun _ _ _ _ hx hs => by rw [hx, hs]),
   (fun x s s' => h.tanh x s s')⟩⟩⟩⟩,
   ⟨⟨⟨fun _ _ => rfl,
   (fun _ _ _ _ hx hs => by rw [hx, hs])⟩,
   ⟨(fun x s s' => h.acosh x s s'),
   fun _ _ => rfl⟩⟩,
   ⟨⟨(fun _ _ _ _ hx hs => by rw [hx, hs]),
   (fun x s s' => h.asinh x s s')⟩,
   ⟨fun _ _ => rfl,
   ⟨(fun _ _ _ _ hx hs => by rw [hx, hs]),
   (fun x s s' => h.atanh x s s')⟩⟩⟩⟩⟩⟩,
   ⟨⟨⟨⟨⟨fun _ _ => rfl,
   (fun _ _ _ _ hx hs => by rw [hx, hs])⟩,
   ⟨(fun x s s' => h.exp x s s'),
   fun _ _ => rfl⟩⟩,
   ⟨⟨(fun _ _ _ _ hx hs => by rw [hx, hs]),
   (fun x s s' => h.expm1 x s s')⟩,
   ⟨fun _ _ => rfl,
   ⟨(fun _ _ _ _ hx hs => by rw [hx, hs]),
   (fun x s s' => h.log x s s')⟩⟩⟩⟩,
   ⟨⟨⟨fun _ _ => rfl,
   (fun _ _ _ _ hx hs => by rw [hx, hs])⟩,
   ⟨(fun x s s' => h.log1p x s s'),
   fun _ _ _ => rfl⟩⟩,
   ⟨⟨(fun _ _ _ _ _ _ hx hy hs => by rw [hx, hy, hs]),
   (fun x y s s' => h.pow x y s s')⟩,
   ⟨fun _ _ => rfl,
   ⟨(fun _ _ _ _ hx hs => by rw [hx, hs]),
   (fun x s s' => h.cbrt x s s')⟩⟩⟩⟩⟩,
   ⟨⟨⟨⟨fun _ _ _ => rfl,
   (fun _ _ _ _ _ _ hy hx hs => by rw [hy, hx, hs])⟩,
   ⟨(fun y x s s' => h.atan2 y x s s'),
   fun _ _ => rfl⟩⟩,
   ⟨⟨(fun _ _ _ _ hx hs => by rw [hx, hs]),
   (fun x s s' => h.erf x s s')⟩,
   ⟨fun _ _ => rfl,
   ⟨(fun _ _ _ _ hx hs => by rw [hx, hs]),
   (fun x s s' => h.erfc x s s')⟩⟩⟩⟩,
   ⟨⟨⟨fun _ _ => rfl,
   (fun _ _ _ _ hx hs => by rw [hx, hs])⟩,
   ⟨(fun x s s' => h.exp2 x s s'),
   fun _ _ => rfl⟩⟩,
   ⟨⟨(fun _ _ _ _ hx hs => by rw [hx, hs]),
   (fun x s s' => h.exp10 x s s')⟩,
   ⟨fun _ _ _ _ => rfl,
   ⟨(fun _ _ _ _ _ _ _ hx hy hs => by rw [hx, hy, hs]),
   (fun t x y s s' => by
    by_cases hb : t.win32 = true
    · simp only [CEff.libm_hypotf, if_pos hb]
      exact h.hypot_win x y s s'
    · simp only [CEff.libm_hypotf, if_neg hb]
      exact h.hypot x y s s')⟩⟩⟩⟩⟩⟩⟩,
   ⟨⟨⟨⟨⟨⟨fun _ _ => rfl,
   (fun _ _ _ _ hx hs => by rw [hx, hs])⟩,
   ⟨(fun x s s' => h.tgamma x s s'),
   fun _ _ => rfl⟩⟩,
   ⟨⟨(fun _ _ _ _ hx hs => by rw [hx, hs]),
   (fun x s s' => h.log2 x s s')⟩,
   ⟨fun _ _ => rfl,
   ⟨(fun _ _ _ _ hx hs => by rw [hx, hs]),
   (fun x s s' => h.log10 x s s')⟩⟩⟩⟩,
   ⟨⟨⟨fun _ _ => rfl,
   (fun _ _ _ _ hx hs => by rw [hx, hs])⟩,
   ⟨(fun x s s' => h.lgamma_r x s s'),
   fun _ _ => rfl⟩⟩,
   ⟨⟨(fun _ _ _ _ hx hs => by rw [hx, hs]),
   (fun x s s' => h.cos x s s')⟩,
   ⟨fun _ _ => rfl,
   ⟨(fun _ _ _ _ hx hs => by rw [hx, hs]),
   (fun x s s' => h.sin x s s')⟩⟩⟩⟩⟩,
   ⟨⟨⟨⟨fun _ _ => rfl,
   (fun _ _ _ _ hx hs => by rw [hx, hs])⟩,
   ⟨(fun x s s' => h.tan x s s'),
   fun _ _ => rfl⟩⟩,
   ⟨⟨(fun _ _ _ _ hx hs => by rw [hx, hs]),
   (fun x s s' => h.acos x s s')⟩,
   ⟨fun _ _ => rfl,
   ⟨(fun _ _ _ _ hx hs => by rw [hx, hs]),
   (fun x s s' => h.asin x s s')⟩⟩⟩⟩,
   ⟨⟨⟨fun _ _ => rfl,
   (fun _ _ _ _ hx hs => by rw [hx, hs])⟩,
   ⟨(fun x s s' => h.atan x s s'),
   fun _ _ => rfl⟩⟩,
   ⟨⟨(fun _ _ _ _ hx hs => by rw [hx, hs]),
   (fun x s s' => h.cosh x s s')⟩,
   ⟨fun _ _ => rfl,
   ⟨(fun _ _ _ _ hx hs => by rw [hx, hs]),
   (fun x s s' => h.sinh x s s')⟩⟩⟩⟩⟩⟩,
   ⟨⟨⟨⟨⟨fun _ _ => rfl,
   (fun _ _ _ _ hx hs => by rw [hx, hs])⟩,
   ⟨(fun x s s' => h.tanh x s s'),
   fun _ _ => rfl⟩⟩,
   ⟨⟨(fun _ _ _ _ hx hs => by rw [hx, hs]),
   (fun x s s' => h.acosh x s s')⟩,
   ⟨fun _ _ => rfl,
   ⟨(fun _ _ _ _ hx hs => by rw [hx, hs]),
   (fun x s s' => h.asinh x s s')⟩⟩⟩⟩,
   ⟨⟨⟨fun _ _ => rfl,
   (fun _ _ _ _ hx hs => by rw [hx, hs])⟩,
   ⟨(fun x s s' => h.atanh x s s'),
   fun _ _ => rfl⟩⟩,
   ⟨⟨(fun _ _ _ _ hx hs => by rw [hx, hs]),
   (fun x s s' => h.expm1 x s s')⟩,
   ⟨fun _ _ => rfl,
   ⟨(fun _ _ _ _ hx hs => by rw [hx, hs]),
   (fun x s s' => h.log x s s')⟩⟩⟩⟩⟩,
   ⟨⟨⟨⟨fun _ _ => rfl,
   (fun _ _ _ _ hx hs => by rw [hx, hs])⟩,
   ⟨(fun x s s' => h.log1p x s s'),
   fun _ _ _ => rfl⟩⟩,
   ⟨⟨(fun _ _ _ _ _ _ hx hy hs => by rw [hx, hy, hs]),
   (fun x y s s' => h.pow x y s s')⟩,
   ⟨fun _ _ => rfl,
   ⟨(fun _ _ _ _ hx hs => by rw [hx, hs]),
   (fun x s s' => h.cbrt x s s')⟩⟩⟩⟩,
   ⟨⟨⟨fun _ _ _ => rfl,
   (fun _ _ _ _ _ _ hy hx hs => by rw [hy, hx, hs])⟩,
   ⟨(fun y x s s' => h.atan2 y x s s'),
   fun _ _ => rfl⟩⟩,
   ⟨⟨(fun _ _ _ _ hx hs => by rw [hx, hs]),
   (fun x s s' => h.erf x s s')⟩,
   ⟨fun _ _ => rfl,
   ⟨(fun _ _ _ _ hx hs => by rw [hx, hs]),
   (fun x s s' => h.erfc x s s')⟩⟩⟩⟩⟩⟩⟩⟩,
   ⟨⟨⟨⟨⟨⟨⟨fun _ _ => rfl,
   (fun _ _ _ _ hx hs => by rw [hx, hs])⟩,
   ⟨(fun x s s' => h.exp2 x s s'),
   fun _ _ => rfl⟩⟩,
   ⟨⟨(fun _ _ _ _ hx hs => by rw [hx, hs]),
   (fun x s s' => h.exp10 x s s')⟩,
   ⟨fun _ _ _ => rfl,
   ⟨(fun _ _ _ _ _ _ hx hy hs => by rw [hx, hy, hs]),
   (fun x y s s' => h.hypot x y s s')⟩⟩⟩⟩,
   ⟨⟨⟨fun _ _ => rfl,
   (fun _ _ _ _ hx hs => by rw [hx, hs])⟩,
   ⟨(fun x s s' => h.tgamma x s s'),
   fun _ _ => rfl⟩⟩,
   ⟨⟨(fun _ _ _ _ hx hs => by rw [hx, hs]),
   (fun x s s' => h.log2 x s s')⟩,
   ⟨fun _ _ => rfl,
   ⟨(fun _ _ _ _ hx hs => by rw [hx, hs]),
   (fun x s s' => h.log10 x s s')⟩⟩⟩⟩⟩,
   ⟨⟨⟨⟨fun _ _ => rfl,
   (fun _ _ _ _ hx hs => by rw [hx, hs])⟩,
   ⟨(fun x s s' => h.lgamma_r x s s'),
   fun _ _ => rfl⟩⟩,
   ⟨⟨(fun _ _ _ _ hx hs => by rw [hx, hs]),
   (fun x s s' => h.cos x s s')⟩,
   ⟨fun _ _ => rfl,
   ⟨(fun _ _ _ _ hx hs => by rw [hx, hs]),
   (fun x s s' => h.sin x s s')⟩⟩⟩⟩,
   ⟨⟨⟨fun _ _ => rfl,
   (fun _ _ _ _ hx hs => by rw [hx, hs])⟩,
   ⟨(fun x s s' => h.tan x s s'),
   fun _ _ => rfl⟩⟩,
   ⟨⟨(fun _ _ _ _ hx hs => by rw [hx, hs]),
   (fun x s s' => h.acos x s s')⟩,
   ⟨fun _ _ => rfl,
   ⟨(fun _ _ _ _ hx hs => by rw [hx, hs]),
   (fun x s s' => h.asin x s s')⟩⟩⟩⟩⟩⟩,
   ⟨⟨⟨⟨⟨fun _ _ => rfl,
   (fun _ _ _ _ hx hs => by rw [hx, hs])⟩,
   ⟨(fun x s s' => h.atan x s s'),
   fun _ _ => rfl⟩⟩,
   ⟨⟨(fun _ _ _ _ hx hs => by rw [hx, hs]),
   (fun x s s' => h.cosh x s s')⟩,
   ⟨fun _ _ => rfl,
   ⟨(fun _ _ _ _ hx hs => by rw [hx, hs]),
   (fun x s s' => h.sinh x s s')⟩⟩⟩⟩,
   ⟨⟨⟨fun _ _ => rfl,
   (fun _ _ _ _ hx hs => by rw [hx, hs])⟩,
   ⟨(fun x s s' => h.tanh x s s'),
   fun _ _ => rfl⟩⟩,
   ⟨⟨(fun _ _ _ _ hx hs => by rw [hx, hs]),
   (fun x s s' => h.acosh x s s')⟩,
   ⟨fun _ _ => rfl,
   ⟨(fun _ _ _ _ hx hs => by rw [hx, hs]),
   (fun x s s' => h.asinh x s s')⟩⟩⟩⟩⟩,
   ⟨⟨⟨⟨fun _ _ => rfl,
   (fun _ _ _ _ hx hs => by rw [hx, hs])⟩,
   ⟨(fun x s s' => h.atanh x s s'),
   fun _ _ => rfl⟩⟩,
   ⟨⟨(fun _ _ _ _ hx hs => by rw [hx, hs]),
   (fun x s s' => h.exp x s s')⟩,
   ⟨fun _ _ => rfl,
   ⟨(fun _ _ _ _ hx hs => by rw [hx, hs]),
   (fun x s s' => h.expm1 x s s')⟩⟩⟩⟩,
   ⟨⟨⟨fun _ _ => rfl,
   (fun _ _ _ _ hx hs => by rw [hx, hs])⟩,
   ⟨(fun x s s' => h.log x s s'),
   fun _ _ => rfl⟩⟩,
   ⟨⟨(fun _ _ _ _ hx hs => by rw [hx, hs]),
   (fun x s s' => h.log1p x s s')⟩,
   ⟨fun _ _ _ => rfl,
   ⟨(fun _ _ _ _ _ _ hx hy hs => by rw [hx, hy, hs]),
   (fun x y s s' => h.pow x y s s')⟩⟩⟩⟩⟩⟩⟩,
   ⟨⟨⟨⟨⟨⟨fun _ _ => rfl,
   (fun _ _ _ _ hx hs => by rw [hx, hs])⟩,
   ⟨(fun x s s' => h.cbrt x s s'),
   fun _ _ _ => rfl⟩⟩,
   ⟨⟨(fun _ _ _ _ _ _ hy hx hs => by rw [hy, hx, hs]),
   (fun y x s s' => h.atan2 y x s s')⟩,
   ⟨fun _ _ => rfl,
   ⟨(fun _ _ _ _ hx hs => by rw [hx, hs]),
   (fun x s s' => h.erf x s s')⟩⟩⟩⟩,
   ⟨⟨⟨fun _ _ => rfl,
   (fun _ _ _ _ hx hs => by rw [hx, hs])⟩,
   ⟨(fun x s s' => h.erfc x s s'),
   fun _ _ => rfl⟩⟩,
   ⟨⟨(fun _ _ _ _ hx hs => by rw [hx, hs]),
   (fun x s s' => h.exp2 x s s')⟩,
   ⟨fun _ _ _ => rfl,
   ⟨(fun _ _ _ _ _ _ hx hy hs => by rw [hx, hy, hs]),
   (fun x y s s' => h.hypot x y s s')⟩⟩⟩⟩⟩,
   ⟨⟨⟨⟨fun _ _ => rfl,
   (fun _ _ _ _ hx hs => by rw [hx, hs])⟩,
   ⟨(fun x s s' => h.tgamma x s s'),
   fun _ _ => rfl⟩⟩,
   ⟨⟨(fun _ _ _ _ hx hs => by rw [hx, hs]),
   (fun x s s' => h.log2 x s s')⟩,
   ⟨fun _ _ => rfl,
   ⟨(fun _ _ _ _ hx hs => by rw [hx, hs]),
   (fun x s s' => h.log10 x s s')⟩⟩⟩⟩,
   ⟨⟨⟨fun _ _ => rfl,
   (fun _ _ _ _ hx hs => by rw [hx, hs])⟩,
   ⟨(fun x s s' => h.lgamma_r x s s'),
   fun _ _ => rfl⟩⟩,
   ⟨⟨(fun _ _ _ _ hx hs => by rw [hx, hs]),
   (fun x s s' => h.cos x s s')⟩,
   ⟨fun _ _ => rfl,
   ⟨(fun _ _ _ _ hx hs => by rw [hx, hs]),
   (fun x s s' => h.sin x s s')⟩⟩⟩⟩⟩⟩,
   ⟨⟨⟨⟨⟨fun _ _ => rfl,
   (fun _ _ _ _ hx hs => by rw [hx, hs])⟩,
   ⟨(fun x s s' => h.tan x s s'),
   fun _ _ => rfl⟩⟩,
   ⟨⟨(fun _ _ _ _ hx hs => by rw [hx, hs]),
   (fun x s s' => h.acos x s s')⟩,
   ⟨fun _ _ => rfl,
   ⟨(fun _ _ _ _ hx hs => by rw [hx, hs]),
   (fun x s s' => h.asin x s s')⟩⟩⟩⟩,
   ⟨⟨⟨fun _ _ => rfl,
   (fun _ _ _ _ hx hs => by rw [hx, hs])⟩,
   ⟨(fun x s s' => h.atan x s s'),
   fun _ _ => rfl⟩⟩,
   ⟨⟨(fun _ _ _ _ hx hs => by rw [hx, hs]),
   (fun x s s' => h.cosh x s s')⟩,
   ⟨fun _ _ => rfl,
   ⟨(fun _ _ _ _ hx hs => by rw [hx, hs]),
   (fun x s s' => h.sinh x s s')⟩⟩⟩⟩⟩,
   ⟨⟨⟨⟨fun _ _ => rfl,
   (fun _ _ _ _ hx hs => by rw [hx, hs])⟩,
   ⟨(fun x s s' => h.tanh x s s'),
   fun _ _ => rfl⟩⟩,
   ⟨⟨(fun _ _ _ _ hx hs => by rw [hx, hs]),
   (fun x s s' => h.acosh x s s')⟩,
   ⟨fun _ _ => rfl,
   ⟨(fun _ _ _ _ hx hs => by rw [hx, hs]),
   (fun x s s' => h.asinh x s s')⟩⟩⟩⟩,
   ⟨⟨⟨fun _ _ => rfl,
   (fun _ _ _ _ hx hs => by rw [hx, hs])⟩,
   ⟨(fun x s s' => h.atanh x s s'),
   fun _ _ => rfl⟩⟩,
   ⟨⟨(fun _ _ _ _ hx hs => by rw [hx, hs]),
   (fun x s s' => h.exp x s s')⟩,
   ⟨fun _ _ => rfl,
   ⟨(fun _ _ _ _ hx hs => by rw [hx, hs]),
   (fun x s s' => h.expm1 x s s')⟩⟩⟩⟩⟩⟩⟩⟩⟩,
   ⟨⟨⟨⟨⟨⟨⟨⟨fun _ _ => rfl,
   (fun _ _ _ _ hx hs => by rw [hx, hs])⟩,
   ⟨(fun x s s' => h.log x s s'),
   fun _ _ => rfl⟩⟩,
   ⟨⟨(fun _ _ _ _ hx hs => by rw [hx, hs]),
   (fun x s s' => h.log1p x s s')⟩,
   ⟨fun _ _ _ => rfl,
   ⟨(fun _ _ _ _ _ _ hx hy hs => by rw [hx, hy, hs]),
   (fun x y s s' => h.pow x y s s')⟩⟩⟩⟩,
   ⟨⟨⟨fun _ _ _ => rfl,
   (fun _ _ _ _ _ _ hy hx hs => by rw [hy, hx, hs])⟩,
   ⟨(fun y x s s' => h.atan2 y x s s'),
   fun _ _ => rfl⟩⟩,
   ⟨⟨(fun _ _ _ _ hx hs => by rw [hx, hs]),
   (fun x s s' => h.erf x s s')⟩,
   ⟨fun _ _ => rfl,
   ⟨(fun _ _ _ _ hx hs => by rw [hx, hs]),
   (fun x s s' => h.erfc x s s')⟩⟩⟩⟩⟩,
   ⟨⟨⟨⟨fun _ _ => rfl,
   (fun _ _ _ _ hx hs => by rw [hx, hs])⟩,
   ⟨(fun x s s' => h.exp2 x s s'),
   fun _ _ _ _ => rfl⟩⟩,
   ⟨⟨(fun _ _ _ _ _ _ _ hx hy hs => by rw [hx, hy, hs]),
   (fun t x y s s' => by
    by_cases hb : t.win32 = true
    · simp only [CEff.swift_hypotf, if_pos hb]
      exact h.hypot_win x y s s'
    · simp only [CEff.swift_hypotf, if_neg hb]
      exact h.hypot x y s s')⟩,
   ⟨fun _ _ => rfl,
   ⟨(fun _ _ _ _ hx hs => by rw [hx, hs]),
   (fun x s s' => h.tgamma x s s')⟩⟩⟩⟩,
   ⟨⟨⟨fun _ _ => rfl,
   (fun _ _ _ _ hx hs => by rw [hx, hs])⟩,
   ⟨(fun x s s' => h.log2 x s s'),
   fun _ _ => rfl⟩⟩,
   ⟨⟨(fun _ _ _ _ hx hs => by rw [hx, hs]),
   (fun x s s' => h.log10 x s s')⟩,
   ⟨fun _ _ => rfl,
   ⟨(fun _ _ _ _ hx hs => by rw [hx, hs]),
   (fun x s s' => show (env.lgamma_r x s).1.1 = (env.lgamma_r x s').1.1 from congrArg Prod.fst (h.lgamma_r x s s'))⟩⟩⟩⟩⟩⟩,
   ⟨⟨⟨⟨⟨fun _ _ => rfl,
   (fun _ _ _ _ hx hs => by rw [hx, hs])⟩,
   ⟨(fun x s s' => h.cos x s s'),
   fun _ _ => rfl⟩⟩,
   ⟨⟨(fun _ _ _ _ hx hs => by rw [hx, hs]),
   (fun x s s' => h.sin x s s')⟩,
   ⟨fun _ _ => rfl,
   ⟨(fun _ _ _ _ hx hs => by rw [hx, hs]),
   (fun x s s' => h.tan x s s')⟩⟩⟩⟩,
   ⟨⟨⟨fun _ _ => rfl,
   (fun _ _ _ _ hx hs => by rw [hx, hs])⟩,
   ⟨(fun x s s' => h.acos x s s'),
   fun _ _ => rfl⟩⟩,
   ⟨⟨(fun _ _ _ _ hx hs => by rw [hx, hs]),
   (fun x s s' => h.asin x s s')⟩,
   ⟨fun _ _ => rfl,
   ⟨(fun _ _ _ _ hx hs => by rw [hx, hs]),
   (fun x s s' => h.atan x s s')⟩⟩⟩⟩⟩,
   ⟨⟨⟨⟨fun _ _ => rfl,
   (fun _ _ _ _ hx hs => by rw [hx, hs])⟩,
   ⟨(fun x s s' => h.cosh x s s'),
   fun _ _ => rfl⟩⟩,
   ⟨⟨(fun _ _ _ _ hx hs => by rw [hx, hs]),
   (fun x s s' => h.sinh x s s')⟩,
   ⟨fun _ _ => rfl,
   ⟨(fun _ _ _ _ hx hs => by rw [hx, hs]),
   (fun x s s' => h.tanh x s s')⟩⟩⟩⟩,
   ⟨⟨⟨fun _ _ => rfl,
   (fun _ _ _ _ hx hs => by rw [hx, hs])⟩,
   ⟨(fun x s s' => h.acosh x s s'),
   fun _ _ => rfl⟩⟩,
   ⟨⟨(fun _ _ _ _ hx hs => by rw [hx, hs]),
   (fun x s s' => h.asinh x s s')⟩,
   ⟨fun _ _ => rfl,
   ⟨(fun _ _ _ _ hx hs => by rw [hx, hs]),
   (fun x s s' => h.atanh x s s')⟩⟩⟩⟩⟩⟩⟩,
   ⟨⟨⟨⟨⟨⟨fun _ _ => rfl,
   (fun _ _ _ _ hx hs => by rw [hx, hs])⟩,
   ⟨(fun x s s' => h.exp x s s'),
   fun _ _ => rfl⟩⟩,
   ⟨⟨(fun _ _ _ _ hx hs => by rw [hx, hs]),
   (fun x s s' => h.expm1 x s s')⟩,
   ⟨fun _ _ => rfl,
   ⟨(fun _ _ _ _ hx hs => by rw [hx, hs]),
   (fun x s s' => h.log x s s')⟩⟩⟩⟩,
   ⟨⟨⟨fun _ _ => rfl,
   (fun _ _ _ _ hx hs => by rw [hx, hs])⟩,
   ⟨(fun x s s' => h.log1p x s s'),
   fun _ _ _ => rfl⟩⟩,
   ⟨⟨(fun _ _ _ _ _ _ hx hy hs => by rw [hx, hy, hs]),
   (fun x y s s' => h.pow x y s s')⟩,
   ⟨fun _ _ _ => rfl,
   ⟨(fun _ _ _ _ _ _ hy hx hs => by rw [hy, hx, hs]),
   (fun y x s s' => h.atan2 y x s s')⟩⟩⟩⟩⟩,
   ⟨⟨⟨⟨fun _ _ => rfl,
   (fun _ _ _ _ hx hs => by rw [hx, hs])⟩,
   ⟨(fun x s s' => h.erf x s s'),
   fun _ _ => rfl⟩⟩,
   ⟨⟨(fun _ _ _ _ hx hs => by rw [hx, hs]),
   (fun x s s' => h.erfc x s s')⟩,
   ⟨fun _ _ => rfl,
   ⟨(fun _ _ _ _ hx hs => by rw [hx, hs]),
   (fun x s s' => h.exp2 x s s')⟩⟩⟩⟩,
   ⟨⟨⟨fun _ _ _ => rfl,
   (fun _ _ _ _ _ _ hx hy hs => by rw [hx, hy, hs])⟩,
   ⟨(fun x y s s' => h.hypot x y s s'),
   fun _ _ => rfl⟩⟩,
   ⟨⟨(fun _ _ _ _ hx hs => by rw [hx, hs]),
   (fun x s s' => h.tgamma x s s')⟩,
   ⟨fun _ _ => rfl,
   ⟨(fun _ _ _ _ hx hs => by rw [hx, hs]),
   (fun x s s' => h.log2 x s s')⟩⟩⟩⟩⟩⟩,
   ⟨⟨⟨⟨⟨fun _ _ => rfl,
   (fun _ _ _ _ hx hs => by rw [hx, hs])⟩,
   ⟨(fun x s s' => h.log10 x s s'),
   fun _ _ => rfl⟩⟩,
   ⟨⟨(fun _ _ _ _ hx hs => by rw [hx, hs]),
   (fun x s s' => h.cos x s s')⟩,
   ⟨fun _ _ => rfl,
   ⟨(fun _ _ _ _ hx hs => by rw [hx, hs]),
   (fun x s s' => h.sin x s s')⟩⟩⟩⟩,
   ⟨⟨⟨fun _ _ => rfl,
   (fun _ _ _ _ hx hs => by rw [hx, hs])⟩,
   ⟨(fun x s s' => h.tan x s s'),
   fun _ _ => rfl⟩⟩,
   ⟨⟨(fun _ _ _ _ hx hs => by rw [hx, hs]),
   (fun x s s' => h.acos x s s')⟩,
   ⟨fun _ _ => rfl,
   ⟨(fun _ _ _ _ hx hs => by rw [hx, hs]),
   (fun x s s' => h.asin x s s')⟩⟩⟩⟩⟩,
   ⟨⟨⟨⟨fun _ _ => rfl,
   (fun _ _ _ _ hx hs => by rw [hx, hs])⟩,
   ⟨(fun x s s' => h.atan x s s'),
   fun _ _ => rfl⟩⟩,
   ⟨⟨(fun _ _ _ _ hx hs => by rw [hx, hs]),
   (fun x s s' => h.cosh x s s')⟩,
   ⟨fun _ _ => rfl,
   ⟨(fun _ _ _ _ hx hs => by rw [hx, hs]),
   (fun x s s' => h.sinh x s s')⟩⟩⟩⟩,
   ⟨⟨⟨fun _ _ => rfl,
   (fun _ _ _ _ hx hs => by rw [hx, hs])⟩,
   ⟨(fun x s s' => h.tanh x s s'),
   fun _ _ => rfl⟩⟩,
   ⟨⟨(fun _ _ _ _ hx hs => by rw [hx, hs]),
   (fun x s s' => h.acosh x s s')⟩,
   ⟨fun _ _ => rfl,
   ⟨(fun _ _ _ _ hx hs => by rw [hx, hs]),
   (fun x s s' => h.asinh x s s')⟩⟩⟩⟩⟩⟩⟩⟩,
   ⟨⟨⟨⟨⟨⟨⟨fun _ _ => rfl,
   (fun _ _ _ _ hx hs => by rw [hx, hs])⟩,
   ⟨(fun x s s' => h.atanh x s s'),
   fun _ _ => rfl⟩⟩,
   ⟨⟨(fun _ _ _ _ hx hs => by rw [hx, hs]),
   (fun x s s' => h.exp x s s')⟩,
   ⟨fun _ _ => rfl,
   ⟨(fun _ _ _ _ hx hs => by rw [hx, hs]),
   (fun x s s' => h.expm1 x s s')⟩⟩⟩⟩,
   ⟨⟨⟨fun _ _ => rfl,
   (fun _ _ _ _ hx hs => by rw [hx, hs])⟩,
   ⟨(fun x s s' => h.log x s s'),
   fun _ _ => rfl⟩⟩,
   ⟨⟨(fun _ _ _ _ hx hs => by rw [hx, hs]),
   (fun x s s' => h.log1p x s s')⟩,
   ⟨fun _ _ _ => rfl,
   ⟨(fun _ _ _ _ _ _ hx hy hs => by rw [hx, hy, hs]),
   (fun x y s s' => h.pow x y s s')⟩⟩⟩⟩⟩,
   ⟨⟨⟨⟨fun _ _ _ => rfl,
   (fun _ _ _ _ _ _ hy hx hs => by rw [hy, hx, hs])⟩,
   ⟨(fun y x s s' => h.atan2 y x s s'),
   fun _ _ => rfl⟩⟩,
   ⟨⟨(fun _ _ _ _ hx hs => by rw [hx, hs]),
   (fun x s s' => h.erf x s s')⟩,
   ⟨fun _ _ => rfl,
   ⟨(fun _ _ _ _ hx hs => by rw [hx, hs]),
   (fun x s s' => h.erfc x s s')⟩⟩⟩⟩,
   ⟨⟨⟨fun _ _ => rfl,
   (fun _ _ _ _ hx hs => by rw [hx, hs])⟩,
   ⟨(fun x s s' => h.exp2 x s s'),
   fun _ _ _ => rfl⟩⟩,
   ⟨⟨(fun _ _ _ _ _ _ hx hy hs => by rw [hx, hy, hs]),
   (fun x y s s' => h.hypot x y s s')⟩,
   ⟨fun _ _ => rfl,
   ⟨(fun _ _ _ _ hx hs => by rw [hx, hs]),
   (fun x s s' => h.tgamma x s s')⟩⟩⟩⟩⟩⟩,
   ⟨⟨⟨⟨⟨fun _ _ => rfl,
   (fun _ _ _ _ hx hs => by rw [hx, hs])⟩,
   ⟨(fun x s s' => h.log2 x s s'),
   fun _ _ => rfl⟩⟩,
   ⟨⟨(fun _ _ _ _ hx hs => by rw [hx, hs]),
   (fun x s s' => h.log10 x s s')⟩,
   ⟨fun _ _ => rfl,
   ⟨(fun _ _ _ _ hx hs => by rw [hx, hs]),
   (fun x s s' => show (env.lgamma_r x s).1.1 = (env.lgamma_r x s').1.1 from congrArg Prod.fst (h.lgamma_r x s s'))⟩⟩⟩⟩,
   ⟨⟨⟨fun _ _ => rfl,
   (fun _ _ _ _ hz hs => by rw [hz, hs])⟩,
   ⟨(fun z s s' => congrArg (fun c : CComplex R => CxPair.mk c.re c.im) (hc.cexp ⟨z.real, z.imag⟩ s s')),
   fun _ _ _ => rfl⟩⟩,
   ⟨⟨(fun _ _ _ _ _ _ hz hw hs => by rw [hz, hw, hs]),
   (fun z w s s' => congrArg (fun c : CComplex R => CxPair.mk c.re c.im) (hc.cpow ⟨z.real, z.imag⟩ ⟨w.real, w.imag⟩ s s'))⟩,
   ⟨fun _ _ => rfl,
   ⟨(fun _ _ _ _ hz hs => by rw [hz, hs]),
   (fun z s s' => congrArg (fun c : CComplex R => CxPair.mk c.re c.im) (hc.csqrt ⟨z.real, z.imag⟩ s s'))⟩⟩⟩⟩⟩,
   ⟨⟨⟨⟨fun _ _ => rfl,
   (fun _ _ _ _ hz hs => by rw [hz, hs])⟩,
   ⟨(fun z s s' => congrArg (fun c : CComplex R => CxPair.mk c.re c.im) (hc.csin ⟨z.real, z.imag⟩ s s')),
   fun _ _ => rfl⟩⟩,
   ⟨⟨(fun _ _ _ _ hz hs => by rw [hz, hs]),
   (fun z s s' => congrArg (fun c : CComplex R => CxPair.mk c.re c.im) (hc.ccos ⟨z.real, z.imag⟩ s s'))⟩,
   ⟨fun _ _ => rfl,
   ⟨(fun _ _ _ _ hz hs => by rw [hz, hs]),
   (fun z s s' => congrArg (fun c : CComplex R => CxPair.mk c.re c.im) (hc.ctan ⟨z.real, z.imag⟩ s s'))⟩⟩⟩⟩,
   ⟨⟨⟨fun _ _ => rfl,
   (fun _ _ _ _ hz hs => by rw [hz, hs])⟩,
   ⟨(fun z s s' => congrArg (fun c : CComplex R => CxPair.mk c.re c.im) (hc.casin ⟨z.real, z.imag⟩ s s')),
   fun _ _ => rfl⟩⟩,
   ⟨⟨(fun _ _ _ _ hz hs => by rw [hz, hs]),
   (fun z s s' => congrArg (fun c : CComplex R => CxPair.mk c.re c.im) (hc.cacos ⟨z.real, z.imag⟩ s s'))⟩,
   ⟨fun _ _ => rfl,
   ⟨(fun _ _ _ _ hz hs => by rw [hz, hs]),
   (fun z s s' => congrArg (fun c : CComplex R => CxPair.mk c.re c.im) (hc.catan ⟨z.real, z.imag⟩ s s'))⟩⟩⟩⟩⟩⟩⟩,
   ⟨⟨⟨⟨⟨⟨fun _ _ => rfl,
   (fun _ _ _ _ hz hs => by rw [hz, hs])⟩,
   ⟨(fun z s s' => congrArg (fun c : CComplex R => CxPair.mk c.re c.im) (hc.csinh ⟨z.real, z.imag⟩ s s')),
   fun _ _ => rfl⟩⟩,
   ⟨⟨(fun _ _ _ _ hz hs => by rw [hz, hs]),
   (fun z s s' => congrArg (fun c : CComplex R => CxPair.mk c.re c.im) (hc.ccosh ⟨z.real, z.imag⟩ s s'))⟩,
   ⟨fun _ _ => rfl,
   ⟨(fun _ _ _ _ hz hs => by rw [hz, hs]),
   (fun z s s' => congrArg (fun c : CComplex R => CxPair.mk c.re c.im) (hc.ctanh ⟨z.real, z.imag⟩ s s'))⟩⟩⟩⟩,
   ⟨⟨⟨fun _ _ => rfl,
   (fun _ _ _ _ hz hs => by rw [hz, hs])⟩,
   ⟨(fun z s s' => congrArg (fun c : CComplex R => CxPair.mk c.re c.im) (hc.casinh ⟨z.real, z.imag⟩ s s')),
   fun _ _ => rfl⟩⟩,
   ⟨⟨(fun _ _ _ _ hz hs => by rw [hz, hs]),
   (fun z s s' => congrArg (fun c : CComplex R => CxPair.mk c.re c.im) (hc.cacosh ⟨z.real, z.imag⟩ s s'))⟩,
   ⟨fun _ _ => rfl,
   ⟨(fun _ _ _ _ hz hs => by rw [hz, hs]),
   (fun z s s' => congrArg (fun c : CComplex R => CxPair.mk c.re c.im) (hc.catanh ⟨z.real, z.imag⟩ s s'))⟩⟩⟩⟩⟩,
   ⟨⟨⟨⟨fun _ _ => rfl,
   (fun _ _ _ _ hz hs => by rw [hz, hs])⟩,
   ⟨(fun z s s' => congrArg (fun c : CComplex R => CxPair.mk c.re c.im) (hc.cexp ⟨z.real, z.imag⟩ s s')),
   fun _ _ => rfl⟩⟩,
   ⟨⟨(fun _ _ _ _ hz hs => by rw [hz, hs]),
   (fun z s s' => congrArg (fun c : CComplex R => CxPair.mk c.re c.im) (hc.clog ⟨z.real, z.imag⟩ s s'))⟩,
   ⟨fun _ _ _ => rfl,
   ⟨(fun _ _ _ _ _ _ hz hw hs => by rw [hz, hw, hs]),
   (fun z w s s' => congrArg (fun c : CComplex R => CxPair.mk c.re c.im) (hc.cpow ⟨z.real, z.imag⟩ ⟨w.real, w.imag⟩ s s'))⟩⟩⟩⟩,
   ⟨⟨⟨fun _ _ => rfl,
   (fun _ _ _ _ hz hs => by rw [hz, hs])⟩,
   ⟨(fun z s s' => congrArg (fun c : CComplex R => CxPair.mk c.re c.im) (hc.csqrt ⟨z.real, z.imag⟩ s s')),
   fun _ _ => rfl⟩⟩,
   ⟨⟨(fun _ _ _ _ hz hs => by rw [hz, hs]),
   (fun z s s' => congrArg (fun c : CComplex R => CxPair.mk c.re c.im) (hc.csin ⟨z.real, z.imag⟩ s s'))⟩,
   ⟨fun _ _ => rfl,
   ⟨(fun _ _ _ _ hz hs => by rw [hz, hs]),
   (fun z s s' => congrArg (fun c : CComplex R => CxPair.mk c.re c.im) (hc.ccos ⟨z.real, z.imag⟩ s s'))⟩⟩⟩⟩⟩⟩,
   ⟨⟨⟨⟨⟨fun _ _ => rfl,
   (fun _ _ _ _ hz hs => by rw [hz, hs])⟩,
   ⟨(fun z s s' => congrArg (fun c : CComplex R => CxPair.mk c.re c.im) (hc.ctan ⟨z.real, z.imag⟩ s s')),
   fun _ _ => rfl⟩⟩,
   ⟨⟨(fun _ _ _ _ hz hs => by rw [hz, hs]),
   (fun z s s' => congrArg (fun c : CComplex R => CxPair.mk c.re c.im) (hc.casin ⟨z.real, z.imag⟩ s s'))⟩,
   ⟨fun _ _ => rfl,
   ⟨(fun _ _ _ _ hz hs => by rw [hz, hs]),
   (fun z s s' => congrArg (fun c : CComplex R => CxPair.mk c.re c.im) (hc.cacos ⟨z.real, z.imag⟩ s s'))⟩⟩⟩⟩,
   ⟨⟨⟨fun _ _ => rfl,
   (fun _ _ _ _ hz hs => by rw [hz, hs])⟩,
   ⟨(fun z s s' => congrArg (fun c : CComplex R => CxPair.mk c.re c.im) (hc.catan ⟨z.real, z.imag⟩ s s')),
   fun _ _ => rfl⟩⟩,
   ⟨⟨(fun _ _ _ _ hz hs => by rw [hz, hs]),
   (fun z s s' => congrArg (fun c : CComplex R => CxPair.mk c.re c.im) (hc.csinh ⟨z.real, z.imag⟩ s s'))⟩,
   ⟨fun _ _ => rfl,
   ⟨(fun _ _ _ _ hz hs => by rw [hz, hs]),
   (fun z s s' => congrArg (fun c : CComplex R => CxPair.mk c.re c.im) (hc.ccosh ⟨z.real, z.imag⟩ s s'))⟩⟩⟩⟩⟩,
   ⟨⟨⟨⟨fun _ _ => rfl,
   (fun _ _ _ _ hz hs => by rw [hz, hs])⟩,
   ⟨(fun z s s' => congrArg (fun c : CComplex R => CxPair.mk c.re c.im) (hc.ctanh ⟨z.real, z.imag⟩ s s')),
   fun _ _ => rfl⟩⟩,
   ⟨⟨(fun _ _ _ _ hz hs => by rw [hz, hs]),
   (fun z s s' => congrArg (fun c : CComplex R => CxPair.mk c.re c.im) (hc.casinh ⟨z.real, z.imag⟩ s s'))⟩,
   ⟨fun _ _ => rfl,
   ⟨(fun _ _ _ _ hz hs => by rw [hz, hs]),
   (fun z s s' => congrArg (fun c : CComplex R => CxPair.mk c.re c.im) (hc.cacosh ⟨z.real, z.imag⟩ s s'))⟩⟩⟩⟩,
   ⟨⟨⟨fun _ _ => rfl,
   (fun _ _ _ _ hz hs => by rw [hz, hs])⟩,
   ⟨(fun z s s' => congrArg (fun c : CComplex R => CxPair.mk c.re c.im) (hc.catanh ⟨z.real, z.imag⟩ s s')),
   fun _ _ _ _ => rfl⟩⟩,
   ⟨⟨(fun _ _ _ _ _ _ _ _ ha hb hcc hs => by rw [ha, hb, hcc, hs]),
   fun _ _ _ _ _ => rfl⟩,
   ⟨fun _ _ _ _ => rfl,
   ⟨(fun _ _ _ _ _ _ _ _ ha hb hcc hs => by rw [ha, hb, hcc, hs]),
   fun _ _ _ _ _ => rfl⟩⟩⟩⟩⟩⟩⟩⟩⟩⟩⟩

/-- Witness for C8 at the concrete effectful platforms `toyEffM`, `toyEffC`,
input `3` (and `1 + 2i`), and the two states `0` and `1`. -/
theorem spec_C8_witness :
    CEff.libm_exp toyEffM (3 : ℚ) (0 : Int) = toyEffM.exp 3 0 ∧
    (CEff.libm_exp toyEffM (3 : ℚ) (0 : Int)).1
      = (CEff.libm_exp toyEffM (3 : ℚ) (1 : Int)).1 ∧
    (CEff._clog toyEffC ⟨1, 2⟩ (0 : Int)).1
      = (CEff._clog toyEffC ⟨1, 2⟩ (1 : Int)).1 ∧
    (CEff.swift_lgamma toyEffM (3 : ℚ) (0 : Int)).1
      = (CEff.swift_lgamma toyEffM (3 : ℚ) (1 : Int)).1 := by
  have h := spec_C8 toyEffM toyEffC
    (by constructor <;> intros <;> rfl) (by constructor <;> intros <;> rfl)
  exact ⟨h.1 3 0, h.2.2.1 3 0 1, h.2.2.2.2.2.1 ⟨1, 2⟩ 0 1,
    h.2.2.2.2.2.2.2.2.1 3 0 1⟩

/-- C10: on a Windows target no log-gamma forwarder is defined in either
math-shim header — `libm_lgammaf`/`libm_lgamma` and their `swift_` twins sit
under `#if !defined _WIN32`, and the `long double` ones sit inside a block
that also requires `!defined _WIN32`. -/
theorem spec_C10 : ∀ t : Target, t.win32 = true →
    "libm_lgammaf" ∉ libmShimSymbols t ∧
    "libm_lgamma" ∉ libmShimSymbols t ∧
    "libm_lgammal" ∉ libmShimSymbols t ∧
    "swift_lgammaf" ∉ swiftShimSymbols t ∧
    "swift_lgamma" ∉ swiftShimSymbols t ∧
    "swift_lgammal" ∉ swiftShimSymbols t := by
  intro t h
  obtain ⟨w, i, x, a⟩ := t
  cases w
  · exact Bool.noConfusion h
  · cases i <;> cases x <;> cases a <;> decide

/-- Witness for C10 at the concrete target Windows x86-64. -/
theorem spec_C10_witness :
    "libm_lgammaf" ∉ libmShimSymbols ⟨true, false, true, false⟩ ∧
    "libm_lgamma" ∉ libmShimSymbols ⟨true, false, true, false⟩ ∧
    "libm_lgammal" ∉ libmShimSymbols ⟨true, false, true, false⟩ ∧
    "swift_lgammaf" ∉ swiftShimSymbols ⟨true, false, true, false⟩ ∧
    "swift_lgamma" ∉ swiftShimSymbols ⟨true, false, true, false⟩ ∧
    "swift_lgammal" ∉ swiftShimSymbols ⟨true, false, true, false⟩ :=
  spec_C10 ⟨true, false, true, false⟩ rfl
